import Mathlib

/-!
# The per-broker connector of dory's Kafka dispatcher

A shallow embedding of `src/dory/msg_dispatch/connector.cc` and theorems about it.

Conventions of the embedding.

* A member function of `TConnector` becomes a function on the record `TConnector`
  that returns the new record (and the C++ return value, when there is one).
* What the code obtains from outside the connector (the clock, the result of
  `send`, of `poll`, of the stream reader, of the response processor, of
  `RequestFactory.BuildRequest`) is an argument of the function, so every theorem
  holds for all such results.
* `assert(e)` is a Boolean predicate on the state on entry, defined next to the
  function; the function is the code that runs when assertions are compiled out.
  Where the code after a failed assertion has no defined behaviour (reading an
  unset `TOpt`, `front()` of an empty list) or where it throws, the function
  returns `Except.error`.
* `uint64_t`/`size_t` values are `Nat`, `int` values are `Int`; sums and products
  the code computes in 64 bits are reduced modulo `2^64`, and conversions to
  `int` are explicit.
* Counters, `syslog`, the debug loggers, the message state tracker and the
  metadata are not modelled: the connector only writes to them.
-/

namespace Dory

/-! ## Messages and produce requests -/

/-- A message (`TMsg::TPtr`), named by a number. -/
abbrev TMsg := Nat

/-- The type `std::list<TMsg::TPtr>`: the messages of one message set, in order. -/
abbrev TMsgList := List TMsg

/-- A message set of a produce request; the connector only touches `Contents`. -/
structure TMsgSet where
  Contents : TMsgList
  deriving DecidableEq, Repr

/-- Partition to message set, held in the container's iteration order. -/
abbrev TMultiPartitionGroup := List (Int × TMsgSet)

/-- Topic to multi-partition group, held in the container's iteration order. -/
abbrev TAllTopics := List (String × TMultiPartitionGroup)

/-- A produce request: correlation id and contents. -/
abbrev TProduceRequest := Int × TAllTopics

/-- Modelled from the spec: `EmptyAllTopics` (declared in
dory/msg_dispatch/common.h, which is not in src/) is what the cleanup uses to
move the messages of a request to an output queue: every message list of the
request goes to the back of `dest`, topic by topic and partition by partition
as `HandleSockWriteReady` walks them, and the request is left empty. -/
def EmptyAllTopics (all_topics : TAllTopics) (dest : List TMsgList) :
    TAllTopics × List TMsgList :=
  ([], all_topics.foldl
    (fun d topic_elem =>
      topic_elem.2.foldl (fun d2 msg_set_elem => d2 ++ [msg_set_elem.2.Contents]) d)
    dest)

/-! ## Collaborators whose source is not in src/ -/

/-- Modelled from the spec: the configuration snapshot `Ds.Config` (dory/config.h
is not in src/).  `RequiredAcks` is a signed 16-bit value, the others are
`size_t`. -/
structure TConfig where
  RequiredAcks : Int
  KafkaSocketTimeout : Nat
  ShutdownMaxDelay : Nat
  DispatcherRestartMaxDelay : Nat
  deriving DecidableEq, Repr

/-- Modelled from the spec: the request factory (its source is not in src/) holds
a pending queue of message lists. -/
structure TProduceRequestFactory where
  Pending : List TMsgList
  deriving DecidableEq, Repr

namespace TProduceRequestFactory

/-- Modelled from the spec: `isEmpty()`. -/
def IsEmpty (f : TProduceRequestFactory) : Bool := f.Pending.isEmpty

/-- Modelled from the spec: `put(batchOfLists)` appends to the pending queue. -/
def Put (f : TProduceRequestFactory) (b : List TMsgList) : TProduceRequestFactory :=
  { Pending := f.Pending ++ b }

/-- Modelled from the spec: `putFront(batchOfLists)` pushes to the head. -/
def PutFront (f : TProduceRequestFactory) (b : List TMsgList) : TProduceRequestFactory :=
  { Pending := b ++ f.Pending }

/-- Modelled from the spec: `getAll()` drains everything unsent. -/
def GetAll (f : TProduceRequestFactory) : List TMsgList × TProduceRequestFactory :=
  (f.Pending, { Pending := [] })

end TProduceRequestFactory

/-- Modelled from the spec: the input queue (its source is not in src/) holds
message lists, each with the time at which its batch expires. -/
structure TInputQueue where
  Items : List (Nat × TMsgList)
  deriving DecidableEq, Repr

namespace TInputQueue

/-- Modelled from the spec: `get(now, &expiry, &outReady)` consumes the lists
whose batch deadline has passed and reports the next upcoming deadline if any
list is still batching.  The result is `(hasExpiry, expiry, outReady, queue)`. -/
def Get (q : TInputQueue) (now : Nat) (expiry : Nat) : Bool × Nat × List TMsgList × TInputQueue :=
  let ready := q.Items.filter (fun i => decide (i.1 ≤ now))
  let rest := q.Items.filter (fun i => !decide (i.1 ≤ now))
  match rest with
  | [] => (false, expiry, ready.map Prod.snd, { Items := [] })
  | i :: is => (true, is.foldl (fun m j => min m j.1) i.1, ready.map Prod.snd, { Items := i :: is })

/-- Modelled from the spec: `nonblockingGet` has the semantics of `get`. -/
def NonblockingGet (q : TInputQueue) (now : Nat) (expiry : Nat) :
    Bool × Nat × List TMsgList × TInputQueue :=
  q.Get now expiry

/-- Modelled from the spec: `getAllOnShutdown()` flushes everything, also the
batches whose deadline has not expired. -/
def GetAllOnShutdown (q : TInputQueue) : List TMsgList × TInputQueue :=
  (q.Items.map Prod.snd, { Items := [] })

/-- Modelled from the spec: `reset()` is the terminal drain. -/
def Reset (q : TInputQueue) : List TMsgList × TInputQueue :=
  (q.Items.map Prod.snd, { Items := [] })

end TInputQueue

/-! ## Connector state -/

/-- The record `TInProgressShutdown`. -/
structure TInProgressShutdown where
  Deadline : Nat
  FastShutdown : Bool
  deriving DecidableEq, Repr

/-- The record `TShutdownCmd`: a slow shutdown carries its start time. -/
structure TShutdownCmd where
  OptSlowShutdownStartTime : Option Nat
  deriving DecidableEq, Repr

/-- One `struct pollfd`. -/
structure TPollFd where
  fd : Int
  events : Nat
  revents : Nat
  deriving DecidableEq, Repr

/-- The array `MainLoopPollArray`, indexed by `TMainLoopPollItem`. -/
structure TMainLoopPollArray where
  SockIo : TPollFd
  ShutdownRequest : TPollFd
  PauseButton : TPollFd
  InputQueue : TPollFd
  deriving DecidableEq, Repr

/-- The members of `TConnector` that connector.cc reads or writes, and the two
push buttons it presses (`Ds.PauseButton`, `ShutdownAck`).  `SendBuf` is the
unsent part of the serialised request; `Sock` is the descriptor when open. -/
structure TConnector where
  Sock : Option Nat
  ShutdownRequestFd : Nat
  PauseButtonFd : Nat
  SenderNotifyFd : Nat
  PauseInProgress : Bool
  Destroying : Bool
  OkShutdown : Bool
  OptShutdownCmd : Option TShutdownCmd
  OptInProgressShutdown : Option TInProgressShutdown
  OptNextBatchExpiry : Option Nat
  InputQueue : TInputQueue
  RequestFactory : TProduceRequestFactory
  SendBuf : List Nat
  CurrentRequest : Option TProduceRequest
  AckWaitQueue : List TProduceRequest
  NoAckAfterPause : List TMsgList
  GotAckAfterPause : List TMsgList
  SendWaitAfterShutdown : List TMsgList
  NoAckAfterShutdown : List TMsgList
  MainLoopPollArray : TMainLoopPollArray
  PauseButtonPushed : Bool
  ShutdownAckPushed : Bool
  ShutdownRequested : Bool
  deriving DecidableEq, Repr

/-- What the code throws, or runs into, instead of returning. -/
inductive TAbort where
  | ShutdownOnDestroy
  | SystemError
  | Undefined
  deriving DecidableEq, Repr

/-! ## CleanupAfterJoin (connector.cc 175-206) -/

/-- The three assertions on entry to `CleanupAfterJoin`. -/
def CleanupAfterJoinAssertion (c : TConnector) : Bool :=
  c.SendWaitAfterShutdown.isEmpty && c.NoAckAfterShutdown.isEmpty && !c.Destroying

/-- The function `TConnector::CleanupAfterJoin`. -/
def CleanupAfterJoin (c : TConnector) : TConnector :=
  let c1 : TConnector :=
    match c.CurrentRequest with
    | some r =>
      let e := EmptyAllTopics r.2 c.SendWaitAfterShutdown
      { c with CurrentRequest := some (r.1, e.1), SendWaitAfterShutdown := e.2 }
    | none => c
  let c2 : TConnector :=
    { c1 with SendWaitAfterShutdown := c1.SendWaitAfterShutdown ++ c1.GotAckAfterPause,
              GotAckAfterPause := [] }
  let g := c2.RequestFactory.GetAll
  let c3 : TConnector :=
    { c2 with SendWaitAfterShutdown := c2.SendWaitAfterShutdown ++ g.1, RequestFactory := g.2 }
  let r := c3.InputQueue.Reset
  let c4 : TConnector :=
    { c3 with SendWaitAfterShutdown := c3.SendWaitAfterShutdown ++ r.1, InputQueue := r.2 }
  let c5 : TConnector :=
    { c4 with NoAckAfterShutdown := c4.NoAckAfterShutdown ++ c4.NoAckAfterPause,
              NoAckAfterPause := [] }
  let w := c5.AckWaitQueue.foldl
    (fun (acc : List TProduceRequest × List TMsgList) request =>
      let e := EmptyAllTopics request.2 acc.2
      (acc.1 ++ [(request.1, e.1)], e.2))
    ([], c5.NoAckAfterShutdown)
  { c5 with AckWaitQueue := w.1, NoAckAfterShutdown := w.2 }

/-! ## Machine arithmetic -/

/-- Sum of two unsigned 64-bit values, as the code computes it. -/
def Add64 (a b : Nat) : Nat := (a + b) % 2 ^ 64

/-- Product of two unsigned 64-bit values, as the code computes it. -/
def Mul64 (a b : Nat) : Nat := (a * b) % 2 ^ 64

/-- The constant `std::numeric_limits<int>::max()`. -/
def INT_MAX : Int := 2147483647

/-- The conversion `static_cast<int>` of an unsigned value: the low 32 bits, read as
two's complement. -/
def CastInt (n : Nat) : Int :=
  if n % 2 ^ 32 < 2 ^ 31 then ((n % 2 ^ 32 : Nat) : Int) else ((n % 2 ^ 32 : Nat) : Int) - 2 ^ 32

/-- The static function `AdjustTimeoutByDeadline` (connector.cc 300-316). -/
def AdjustTimeoutByDeadline (initial_timeout : Int) (now deadline : Nat) : Int :=
  let full_deadline_timeout : Nat := if now > deadline then 0 else deadline - now
  let deadline_timeout : Int :=
    if (full_deadline_timeout : Int) > INT_MAX then INT_MAX else CastInt full_deadline_timeout
  if initial_timeout < 0 then deadline_timeout else min initial_timeout deadline_timeout

/-! ## Shutdown state (connector.cc 121-143, 172, 318-382) -/

/-- The assertion of `StartSlowShutdown` and `StartFastShutdown` on the command. -/
def StartShutdownAssertion (c : TConnector) : Bool := c.OptShutdownCmd.isNone

/-- The destructor `TConnector::~TConnector` up to its request to shut down
(connector.cc 106-112). -/
def Destroy (c : TConnector) : TConnector :=
  { c with Destroying := true, ShutdownRequested := true }

/-- The function `TConnector::StartSlowShutdown`. -/
def StartSlowShutdown (c : TConnector) (start_time : Nat) : TConnector :=
  { c with OptShutdownCmd := some { OptSlowShutdownStartTime := some start_time },
           ShutdownRequested := true }

/-- The function `TConnector::StartFastShutdown`. -/
def StartFastShutdown (c : TConnector) : TConnector :=
  { c with OptShutdownCmd := some { OptSlowShutdownStartTime := none },
           ShutdownRequested := true }

/-- The function `TConnector::WaitForShutdownAck`, once its wait has returned. -/
def WaitForShutdownAck (c : TConnector) : TConnector :=
  { c with OptShutdownCmd := none }

/-- The function `TConnector::SetFastShutdownState`; `clock` is what
`GetEpochMilliseconds()` returns. -/
def SetFastShutdownState (cfg : TConfig) (c : TConnector) (clock : Nat) : TConnector :=
  let deadline := Add64 clock cfg.DispatcherRestartMaxDelay
  match c.OptInProgressShutdown with
  | some shutdown_state =>
    let merged : TInProgressShutdown :=
      { Deadline := min shutdown_state.Deadline deadline, FastShutdown := true }
    { c with OptInProgressShutdown := some merged }
  | none =>
    { c with OptInProgressShutdown := some { Deadline := deadline, FastShutdown := true } }

/-- The function `TConnector::HandleShutdownRequest`. -/
def HandleShutdownRequest (cfg : TConfig) (c : TConnector) (clock : Nat) :
    Except TAbort TConnector :=
  if c.Destroying then .error .ShutdownOnDestroy
  else
    match c.OptShutdownCmd with
    | none => .error .Undefined
    | some cmd =>
      let c1 : TConnector :=
        match cmd.OptSlowShutdownStartTime with
        | none => SetFastShutdownState cfg c clock
        | some start =>
          let g := c.InputQueue.GetAllOnShutdown
          let c0 : TConnector :=
            { c with InputQueue := g.2, RequestFactory := c.RequestFactory.Put g.1 }
          let deadline := Add64 start cfg.ShutdownMaxDelay
          match c0.OptInProgressShutdown with
          | some shutdown_state =>
            let merged : TInProgressShutdown :=
              { shutdown_state with Deadline := min shutdown_state.Deadline deadline }
            { c0 with OptInProgressShutdown := some merged }
          | none =>
            { c0 with OptInProgressShutdown := some { Deadline := deadline, FastShutdown := false } }
      .ok { c1 with ShutdownAckPushed := true, ShutdownRequested := false }

/-- The function `TConnector::SetPauseInProgress`. -/
def SetPauseInProgress (cfg : TConfig) (c : TConnector) (clock : Nat) : TConnector :=
  SetFastShutdownState cfg { c with PauseInProgress := true } clock

/-- The function `TConnector::HandlePauseDetected`. -/
def HandlePauseDetected (cfg : TConfig) (c : TConnector) (clock : Nat) : TConnector :=
  SetPauseInProgress cfg c clock

/-! ## Input queue and sending (connector.cc 384-487) -/

/-- The function `TConnector::CheckInputQueue`. -/
def CheckInputQueue (c : TConnector) (now : Nat) (pop_sem : Bool) : TConnector :=
  let r := if pop_sem then c.InputQueue.Get now 0 else c.InputQueue.NonblockingGet now 0
  let has_expiry := r.1
  let expiry := r.2.1
  let ready_msgs := r.2.2.1
  let c1 : TConnector := { c with InputQueue := r.2.2.2, OptNextBatchExpiry := none }
  let c2 : TConnector := if has_expiry then { c1 with OptNextBatchExpiry := some expiry } else c1
  { c2 with RequestFactory := c2.RequestFactory.Put ready_msgs }

/-- What `send` does: it takes `n` bytes, or fails with an error that
`LostTcpConnection` recognises, or fails with another error. -/
inductive TSendResult where
  | Sent (n : Nat)
  | LostTcpConnection
  | OtherError
  deriving DecidableEq, Repr

/-- What `RequestFactory.BuildRequest(buf)` does: the request it returns, the
bytes it leaves in `buf`, and the factory afterwards. -/
structure TBuildResult where
  Request : Option TProduceRequest
  Buf : List Nat
  Factory : TProduceRequestFactory
  deriving DecidableEq, Repr

/-- Modelled from the spec: `SendInProgress()` (defined in connector.h, which is
not in src/) says whether the send buffer holds unsent bytes. -/
def SendInProgress (c : TConnector) : Bool := !c.SendBuf.isEmpty

/-- The function `TConnector::TrySendProduceRequest`. -/
def TrySendProduceRequest (c : TConnector) (sent : TSendResult) :
    Except TAbort (Bool × TConnector) :=
  match sent with
  | .Sent n => .ok (true, { c with SendBuf := c.SendBuf.drop n })
  | .LostTcpConnection => .ok (false, { c with PauseButtonPushed := true })
  | .OtherError => .error .SystemError

/-- The assertion on entry to `HandleSockWriteReady`. -/
def HandleSockWriteReadyAssertion (c : TConnector) : Bool :=
  c.CurrentRequest.isSome == SendInProgress c

/-- The first part of `HandleSockWriteReady` (connector.cc 433-446); the flag is
`false` when the function returns `true` at once because the factory built nothing. -/
def StartOrContinueSend (c : TConnector) (built : TBuildResult) : TConnector × Bool :=
  if !SendInProgress c then
    let c1 : TConnector :=
      { c with SendBuf := [], CurrentRequest := built.Request, RequestFactory := built.Factory }
    match built.Request with
    | none => (c1, false)
    | some _ => ({ c1 with SendBuf := built.Buf }, true)
  else (c, true)

/-- The function `TConnector::HandleSockWriteReady`. -/
def HandleSockWriteReady (cfg : TConfig) (c : TConnector) (built : TBuildResult)
    (sent : TSendResult) : Except TAbort (Bool × TConnector) :=
  let s := StartOrContinueSend c built
  if !s.2 then .ok (true, s.1)
  else
    match TrySendProduceRequest s.1 sent with
    | .error e => .error e
    | .ok (false, c2) => .ok (false, c2)
    | .ok (true, c2) =>
      if !SendInProgress c2 then
        match c2.CurrentRequest with
        | none => .error .Undefined
        | some request =>
          let ack_expected : Bool := decide (cfg.RequiredAcks ≠ 0)
          let c3 : TConnector :=
            if ack_expected then { c2 with AckWaitQueue := c2.AckWaitQueue ++ [request] } else c2
          .ok (true, { c3 with CurrentRequest := none })
      else .ok (true, c2)

/-! ## Receiving (connector.cc 489-647) -/

/-- The result of `TProduceResponseProcessor::ProcessResponse`. -/
inductive TAction where
  | KeepRunning
  | PauseAndDeferFinish
  | PauseAndFinishNow
  deriving DecidableEq, Repr

/-- What the response processor does with one response: the action it returns
(`none` when it throws `TBadProduceResponse`) and what its three takers hold. -/
structure TProcessorOutcome where
  Action : Option TAction
  MsgsWithoutAcks : List TMsgList
  PauseAndResendAckMsgs : List TMsgList
  ImmediateResendAckMsgs : List TMsgList
  deriving DecidableEq, Repr

/-- The assertion of `ProcessSingleProduceResponse` on the queue. -/
def ProcessSingleProduceResponseAssertion (c : TConnector) : Bool := !c.AckWaitQueue.isEmpty

/-- The function `TConnector::ProcessSingleProduceResponse`. -/
def ProcessSingleProduceResponse (cfg : TConfig) (c : TConnector) (clock : Nat)
    (p : TProcessorOutcome) : Except TAbort (Bool × TConnector) :=
  match c.AckWaitQueue with
  | [] => .error .Undefined
  | _request :: rest =>
    let c0 : TConnector := { c with AckWaitQueue := rest }
    let r : Bool × Bool × TConnector :=
      match p.Action with
      | some .KeepRunning => (true, false, c0)
      | some .PauseAndDeferFinish => (true, true, SetPauseInProgress cfg c0 clock)
      | some .PauseAndFinishNow =>
        (false, true, { c0 with NoAckAfterPause := c0.NoAckAfterPause ++ p.MsgsWithoutAcks })
      | none => (false, true, c0)
    let keep_running := r.1
    let pause := r.2.1
    let c1 := r.2.2
    let c2 : TConnector :=
      if pause then
        { c1 with PauseButtonPushed := true,
                  GotAckAfterPause := c1.GotAckAfterPause ++ p.PauseAndResendAckMsgs }
      else c1
    .ok (keep_running, { c2 with RequestFactory := c2.RequestFactory.PutFront p.ImmediateResendAckMsgs })

/-- The states of the stream reader, `TStreamMsgReader::TState`. -/
inductive TState where
  | ReadNeeded
  | MsgReady
  | DataInvalid
  | AtEnd
  deriving DecidableEq, Repr

/-- What `StreamReader.Read()` does: it returns a state, or fails with an error
that `LostTcpConnection` recognises, or fails with another error. -/
inductive TReadResult where
  | State (s : TState)
  | LostTcpConnection
  | OtherError
  deriving DecidableEq, Repr

/-- What happens outside the connector during one call of `HandleSockReadReady`:
the result of the read and, for the response number `k` of the call, the state
`ConsumeReadyMsg()` returns, the processor's outcome and the clock. -/
structure TReadEnv where
  Read : TReadResult
  Consume : Nat → TState
  Process : Nat → TProcessorOutcome
  Clock : Nat → Nat

/-- The loop of `HandleSockReadReady` (connector.cc 599-646), at response
number `k`. -/
def HandleSockReadReadyLoop (cfg : TConfig) (env : TReadEnv) (k : Nat) (reader_state : TState)
    (c : TConnector) : Except TAbort (Bool × TConnector) :=
  match reader_state with
  | .ReadNeeded => .ok (true, c)
  | .DataInvalid => .ok (false, { c with PauseButtonPushed := true })
  | .AtEnd => .ok (false, { c with PauseButtonPushed := true })
  | .MsgReady =>
    match h : ProcessSingleProduceResponse cfg c (env.Clock k) (env.Process k) with
    | .error e => .error e
    | .ok (false, c1) => .ok (false, c1)
    | .ok (true, c1) =>
      let reader_state1 := env.Consume k
      if c1.AckWaitQueue.isEmpty && reader_state1 == .MsgReady then
        .ok (false, { c1 with PauseButtonPushed := true })
      else HandleSockReadReadyLoop cfg env (k + 1) reader_state1 c1
termination_by c.AckWaitQueue.length
decreasing_by
  simp only [ProcessSingleProduceResponse] at h
  split at h
  · cases h
  · rename_i req rest hq
    simp only [Except.ok.injEq, Prod.mk.injEq] at h
    have hlen : (SetPauseInProgress cfg { c with AckWaitQueue := rest } (env.Clock k)).AckWaitQueue
        = rest := by
      simp only [SetPauseInProgress, SetFastShutdownState]
      split <;> rfl
    rw [hq, ← h.2]
    cases (env.Process k).Action with
    | none => simp
    | some a => cases a <;> simp [hlen]

/-- The assertion on entry to `HandleSockReadReady`. -/
def HandleSockReadReadyAssertion (c : TConnector) : Bool := !c.AckWaitQueue.isEmpty

/-- The function `TConnector::HandleSockReadReady`. -/
def HandleSockReadReady (cfg : TConfig) (c : TConnector) (env : TReadEnv) :
    Except TAbort (Bool × TConnector) :=
  match env.Read with
  | .LostTcpConnection => .ok (false, { c with PauseButtonPushed := true })
  | .OtherError => .error .SystemError
  | .State reader_state => HandleSockReadReadyLoop cfg env 0 reader_state c

/-! ## PrepareForPoll (connector.cc 649-746) -/

/-- The bit `POLLIN` of <poll.h>. -/
def POLLIN : Nat := 1

/-- The bit `POLLOUT` of <poll.h>. -/
def POLLOUT : Nat := 4

/-- The bit `POLLERR` of <poll.h>. -/
def POLLERR : Nat := 8

/-- The bit `POLLHUP` of <poll.h>. -/
def POLLHUP : Nat := 16

/-- The bit `POLLNVAL` of <poll.h>. -/
def POLLNVAL : Nat := 32

/-- The conversion `int(Sock)`: the descriptor, or -1 when the socket is not open. -/
def IntOfFd (s : Option Nat) : Int :=
  match s with
  | some n => (n : Int)
  | none => -1

/-- The assertion at the top of `PrepareForPoll` (connector.cc 660-662). -/
def PrepareForPollAssertion (c : TConnector) : Bool :=
  !c.PauseInProgress ||
    (match c.OptInProgressShutdown with
     | some shutdown_state => shutdown_state.FastShutdown
     | none => false)

/-- The branch of `PrepareForPoll` on the send and shutdown state (connector.cc
664-694): `none` when the function returns `false`, else the flags
`(need_sock_write, need_shutdown_timeout, need_batch_timeout)`. -/
def PollNeeds (c : TConnector) : Option (Bool × Bool × Bool) :=
  let need_sock_read : Bool := !c.AckWaitQueue.isEmpty
  if SendInProgress c then some (true, false, false)
  else
    match c.OptInProgressShutdown with
    | some shutdown_state =>
      let need_sock_write : Bool := !c.RequestFactory.IsEmpty && !shutdown_state.FastShutdown
      if !need_sock_write && !need_sock_read then none
      else some (need_sock_write, true, c.OptNextBatchExpiry.isSome && !shutdown_state.FastShutdown)
    | none => some (!c.RequestFactory.IsEmpty, false, c.OptNextBatchExpiry.isSome)

/-- The function `TConnector::PrepareForPoll`: the value returned, `poll_timeout`
and the connector with its poll array filled in. -/
def PrepareForPoll (cfg : TConfig) (c : TConnector) (now : Nat) : Bool × Int × TConnector :=
  let need_sock_read : Bool := !c.AckWaitQueue.isEmpty
  match PollNeeds c with
  | none => (false, -1, c)
  | some (need_sock_write, need_shutdown_timeout, need_batch_timeout) =>
    let t0 : Int := -1
    let t1 : Int :=
      if need_sock_write || need_sock_read then CastInt (Mul64 cfg.KafkaSocketTimeout 1000) else t0
    let t2 : Int :=
      if need_shutdown_timeout then
        match c.OptInProgressShutdown with
        | some shutdown_state => AdjustTimeoutByDeadline t1 now shutdown_state.Deadline
        | none => t1
      else t1
    let t3 : Int :=
      if need_batch_timeout then
        match c.OptNextBatchExpiry with
        | some expiry => AdjustTimeoutByDeadline t2 now expiry
        | none => t2
      else t2
    let e1 : Nat := if need_sock_write then 0 ||| POLLOUT else 0
    let e2 : Nat := if need_sock_read then e1 ||| POLLIN else e1
    let sock_item : TPollFd :=
      { fd := if e2 ≠ 0 then IntOfFd c.Sock else -1, events := e2, revents := 0 }
    let shutdown_item : TPollFd :=
      { fd := (c.ShutdownRequestFd : Int), events := POLLIN, revents := 0 }
    let pause_item : TPollFd :=
      { fd := if c.PauseInProgress then -1 else (c.PauseButtonFd : Int), events := POLLIN,
        revents := 0 }
    let input_item : TPollFd :=
      { fd := if c.OptInProgressShutdown.isSome then -1 else (c.SenderNotifyFd : Int),
        events := POLLIN, revents := 0 }
    let arr : TMainLoopPollArray :=
      { SockIo := sock_item, ShutdownRequest := shutdown_item, PauseButton := pause_item,
        InputQueue := input_item }
    (true, t3, { c with MainLoopPollArray := arr })

/-- The socket is watched for writing: its entry holds a descriptor (`poll`
ignores an entry whose `fd` is negative) and requests `POLLOUT`. -/
def WatchSockWrite (a : TMainLoopPollArray) : Bool :=
  decide (0 ≤ a.SockIo.fd) && decide (a.SockIo.events &&& POLLOUT ≠ 0)

/-- The socket is watched for reading: its entry holds a descriptor and requests
`POLLIN`. -/
def WatchSockRead (a : TMainLoopPollArray) : Bool :=
  decide (0 ≤ a.SockIo.fd) && decide (a.SockIo.events &&& POLLIN ≠ 0)

/-- The notification descriptor of the input queue is watched: its entry holds a
descriptor and requests `POLLIN`. -/
def WatchInput (a : TMainLoopPollArray) : Bool :=
  decide (0 ≤ a.InputQueue.fd) && decide (a.InputQueue.events &&& POLLIN ≠ 0)

/-! ## One iteration of the loop of DoRun (connector.cc 759-824) -/

/-- What `poll` does: it fails, or reports events for the four descriptors. -/
inductive TPollResult where
  | Error
  | Reported (sock shutdown pause input : Nat)
  deriving DecidableEq, Repr

/-- The contract of poll(2) for one entry: nothing for a negative descriptor,
else only requested events and the three error bits. -/
def Revents (item : TPollFd) (reported : Nat) : Nat :=
  if item.fd < 0 then 0
  else reported &&& (item.events ||| POLLERR ||| POLLHUP ||| POLLNVAL)

/-- The handlers the loop calls. -/
inductive THandler where
  | HandleShutdownRequest
  | HandlePauseDetected
  | CheckInputQueue
  | HandleSockWriteReady
  | HandleSockReadReady
  deriving DecidableEq, Repr

/-- What happens outside the connector during one iteration. -/
structure TIterEnv where
  StartTime : Nat
  Poll : TPollResult
  FinishClock : Nat
  HandlerClock : Nat
  Build : TBuildResult
  Send : TSendResult
  Read : TReadEnv

/-- How an iteration ends: the loop goes on, is left, or an exception leaves `DoRun`. -/
inductive TLoopStep where
  | Continue (c : TConnector)
  | Break (c : TConnector)
  | Throw (e : TAbort)
  deriving DecidableEq, Repr

/-- The handlers an iteration called, in order, and how it ended. -/
structure TIterResult where
  Trace : List THandler
  Step : TLoopStep
  deriving DecidableEq, Repr

/-- The socket part of the last dispatch branch (connector.cc 814-822). -/
def HandleSockEvents (cfg : TConfig) (c : TConnector) (sock_events : Nat) (env : TIterEnv)
    (trace : List THandler) : TIterResult :=
  let w : Except TAbort (Bool × TConnector) × List THandler :=
    if sock_events &&& POLLOUT ≠ 0 then
      (HandleSockWriteReady cfg c env.Build env.Send, trace ++ [.HandleSockWriteReady])
    else (.ok (true, c), trace)
  match w.1 with
  | .error e => { Trace := w.2, Step := .Throw e }
  | .ok (false, c3) => { Trace := w.2, Step := .Break c3 }
  | .ok (true, c3) =>
    if sock_events &&& POLLIN ≠ 0 then
      match HandleSockReadReady cfg c3 env.Read with
      | .error e => { Trace := w.2 ++ [.HandleSockReadReady], Step := .Throw e }
      | .ok (false, c4) => { Trace := w.2 ++ [.HandleSockReadReady], Step := .Break c4 }
      | .ok (true, c4) => { Trace := w.2 ++ [.HandleSockReadReady], Step := .Continue c4 }
    else { Trace := w.2, Step := .Continue c3 }

/-- The effect of a successful `poll` on the poll array: each entry gets its
`revents`. -/
def PollReturned (c : TConnector) (rs rr rp ri : Nat) : TConnector :=
  let a := c.MainLoopPollArray
  let arr : TMainLoopPollArray :=
    { SockIo := { a.SockIo with revents := Revents a.SockIo rs },
      ShutdownRequest := { a.ShutdownRequest with revents := Revents a.ShutdownRequest rr },
      PauseButton := { a.PauseButton with revents := Revents a.PauseButton rp },
      InputQueue := { a.InputQueue with revents := Revents a.InputQueue ri } }
  { c with MainLoopPollArray := arr }

/-- The value `poll` returns: the number of entries with events. -/
def PollCount (a : TMainLoopPollArray) : Nat :=
  ([a.SockIo, a.ShutdownRequest, a.PauseButton, a.InputQueue].filter
    (fun i => decide (i.revents ≠ 0))).length

/-- Leaving the loop after a shutdown (connector.cc 764 and 791). -/
def CleanExit (c : TConnector) : TConnector := { c with OkShutdown := true }

/-- Leaving the loop on a socket timeout (connector.cc 785). -/
def SocketTimeoutExit (c : TConnector) : TConnector := { c with PauseButtonPushed := true }

/-- The body of the loop of `TConnector::DoRun`. -/
def MainLoopIteration (cfg : TConfig) (c : TConnector) (env : TIterEnv) : TIterResult :=
  let start_time := env.StartTime
  let p := PrepareForPoll cfg c start_time
  if !p.1 then { Trace := [], Step := .Break (CleanExit p.2.2) }
  else
    match env.Poll with
    | .Error => { Trace := [], Step := .Throw .SystemError }
    | .Reported rs rr rp ri =>
      let c1 : TConnector := PollReturned p.2.2 rs rr rp ri
      let arr := c1.MainLoopPollArray
      let ret : Nat := PollCount arr
      let finish_time := max start_time env.FinishClock
      if ret = 0 then
        if decide (arr.SockIo.fd ≥ 0) &&
            decide (finish_time - start_time ≥ Mul64 cfg.KafkaSocketTimeout 1000) then
          { Trace := [], Step := .Break (SocketTimeoutExit c1) }
        else if (match c1.OptInProgressShutdown with
                 | some shutdown_state => decide (finish_time ≥ shutdown_state.Deadline)
                 | none => false) then
          { Trace := [], Step := .Break (CleanExit c1) }
        else
          { Trace := [.CheckInputQueue], Step := .Continue (CheckInputQueue c1 finish_time false) }
      else if arr.ShutdownRequest.revents ≠ 0 then
        match HandleShutdownRequest cfg c1 env.HandlerClock with
        | .error e => { Trace := [.HandleShutdownRequest], Step := .Throw e }
        | .ok c2 => { Trace := [.HandleShutdownRequest], Step := .Continue c2 }
      else if arr.PauseButton.revents ≠ 0 then
        { Trace := [.HandlePauseDetected],
          Step := .Continue (HandlePauseDetected cfg c1 env.HandlerClock) }
      else if arr.InputQueue.revents ≠ 0 then
        HandleSockEvents cfg (CheckInputQueue c1 finish_time true) arr.SockIo.revents env
          [.CheckInputQueue]
      else HandleSockEvents cfg c1 arr.SockIo.revents env []

/-! ## The states the connector can reach -/

/-- The constructor `TConnector::TConnector` (connector.cc 86-104); the
descriptors and the content of the poll array are whatever they are. -/
def NewConnector (shutdownFd pauseFd notifyFd : Nat) (arr : TMainLoopPollArray) : TConnector :=
  { Sock := none, ShutdownRequestFd := shutdownFd, PauseButtonFd := pauseFd,
    SenderNotifyFd := notifyFd, PauseInProgress := false, Destroying := false,
    OkShutdown := true, OptShutdownCmd := none, OptInProgressShutdown := none,
    OptNextBatchExpiry := none, InputQueue := { Items := [] },
    RequestFactory := { Pending := [] }, SendBuf := [], CurrentRequest := none,
    AckWaitQueue := [], NoAckAfterPause := [], GotAckAfterPause := [],
    SendWaitAfterShutdown := [], NoAckAfterShutdown := [], MainLoopPollArray := arr,
    PauseButtonPushed := false, ShutdownAckPushed := false, ShutdownRequested := false }

/-- The function `TConnector::ConnectToBroker` (connector.cc 247-298), with the
start of `DoRun` (connector.cc 750); `fd` is the socket `ConnectToHost` opened,
if it opened one. -/
def ConnectToBroker (c : TConnector) (fd : Option Nat) : Bool × TConnector :=
  let c0 : TConnector := { c with OkShutdown := false }
  match fd with
  | some n => (true, { c0 with Sock := some n })
  | none => (false, { c0 with PauseButtonPushed := true })

/-- Modelled from the spec: the router hands a message list to the input queue
(`dispatch`, whose source is not in src/); `expiry` is its batch deadline. -/
def Enqueue (c : TConnector) (expiry : Nat) (msgs : TMsgList) : TConnector :=
  { c with InputQueue := { Items := c.InputQueue.Items ++ [(expiry, msgs)] } }

/-- The operations on a connector, each with what it gets from outside. -/
inductive TOp where
  | StartSlowShutdown (start_time : Nat)
  | StartFastShutdown
  | WaitForShutdownAck
  | Enqueue (expiry : Nat) (msgs : TMsgList)
  | ConnectToBroker (fd : Option Nat)
  | PrepareForPoll (now : Nat)
  | HandleShutdownRequest (clock : Nat)
  | HandlePauseDetected (clock : Nat)
  | CheckInputQueue (now : Nat) (pop_sem : Bool)
  | HandleSockWriteReady (built : TBuildResult) (sent : TSendResult)
  | HandleSockReadReady (env : TReadEnv)
  | ProcessSingleProduceResponse (clock : Nat) (p : TProcessorOutcome)
  | PollReturned (rs rr rp ri : Nat)
  | CleanExit
  | SocketTimeoutExit
  | Destroy

/-- The state after an operation, when the operation returns. -/
def ApplyOp (cfg : TConfig) (c : TConnector) : TOp → Except TAbort TConnector
  | .StartSlowShutdown start_time => .ok (StartSlowShutdown c start_time)
  | .StartFastShutdown => .ok (StartFastShutdown c)
  | .WaitForShutdownAck => .ok (WaitForShutdownAck c)
  | .Enqueue expiry msgs => .ok (Enqueue c expiry msgs)
  | .ConnectToBroker fd => .ok (ConnectToBroker c fd).2
  | .PrepareForPoll now => .ok (PrepareForPoll cfg c now).2.2
  | .HandleShutdownRequest clock => HandleShutdownRequest cfg c clock
  | .HandlePauseDetected clock => .ok (HandlePauseDetected cfg c clock)
  | .CheckInputQueue now pop_sem => .ok (CheckInputQueue c now pop_sem)
  | .HandleSockWriteReady built sent => (HandleSockWriteReady cfg c built sent).map Prod.snd
  | .HandleSockReadReady env => (HandleSockReadReady cfg c env).map Prod.snd
  | .ProcessSingleProduceResponse clock p =>
    (ProcessSingleProduceResponse cfg c clock p).map Prod.snd
  | .PollReturned rs rr rp ri => .ok (PollReturned c rs rr rp ri)
  | .CleanExit => .ok (CleanExit c)
  | .SocketTimeoutExit => .ok (SocketTimeoutExit c)
  | .Destroy => .ok (Destroy c)

/-- The states reachable from a newly constructed connector by operations. -/
inductive Reachable (cfg : TConfig) : TConnector → Prop where
  | init (shutdownFd pauseFd notifyFd : Nat) (arr : TMainLoopPollArray) :
      Reachable cfg (NewConnector shutdownFd pauseFd notifyFd arr)
  | step (c c1 : TConnector) (op : TOp) :
      Reachable cfg c → ApplyOp cfg c op = .ok c1 → Reachable cfg c1

/-! ## The specification's side -/

/-- The message lists of a request, topic by topic and partition by partition. -/
def MsgLists (r : TProduceRequest) : List TMsgList :=
  r.2.flatMap (fun topic_elem => topic_elem.2.map (fun msg_set_elem => msg_set_elem.2.Contents))

/-- The message lists of the current request, if there is one. -/
def CurrentRequestLists (c : TConnector) : List TMsgList :=
  match c.CurrentRequest with
  | some r => MsgLists r
  | none => []

/-- The leftovers that need a send (spec 4.5, cleanup after join), in order. -/
def SendWaitSources (c : TConnector) : List TMsgList :=
  CurrentRequestLists c ++ c.GotAckAfterPause ++ c.RequestFactory.GetAll.1 ++ c.InputQueue.Reset.1

/-- The leftovers that were sent and got no ACK (spec 4.5, cleanup after join). -/
def NoAckSources (c : TConnector) : List TMsgList :=
  c.NoAckAfterPause ++ c.AckWaitQueue.flatMap MsgLists

/-- A fast shutdown is in progress. -/
def FastShutdownInProgress (c : TConnector) : Bool :=
  match c.OptInProgressShutdown with
  | some shutdown_state => shutdown_state.FastShutdown
  | none => false

/-- Decision table of the spec, column "Watch write?". -/
def TableWatchWrite (c : TConnector) : Bool :=
  SendInProgress c || (!FastShutdownInProgress c && !c.RequestFactory.IsEmpty)

/-- Decision table of the spec, column "Watch read?". -/
def TableWatchRead (c : TConnector) : Bool := !c.AckWaitQueue.isEmpty

/-- Decision table of the spec, column "Watch input?". -/
def TableWatchInput (c : TConnector) : Bool := c.OptInProgressShutdown.isNone

/-- Decision table of the spec, column "Watch batch timer?". -/
def TableWatchBatch (c : TConnector) : Bool :=
  !SendInProgress c && !FastShutdownInProgress c && c.OptNextBatchExpiry.isSome

/-- Time from `now` to `deadline`, 0 when the deadline has passed. -/
def TimeRemaining (now deadline : Nat) : Int :=
  if now ≤ deadline then ((deadline - now : Nat) : Int) else 0

/-- The minimum of the timeouts that apply, -1 when none does. -/
def MinTimeout : List Int → Int
  | [] => -1
  | x :: xs => xs.foldl min x

/-- The poll timeout in the words of the specification: the minimum of the socket
timeout when the socket is watched, the time to the shutdown deadline when a
shutdown is in progress, and the time to the batch expiry when the batch timer
is watched. -/
def PollTimeoutAsClaimed (cfg : TConfig) (c : TConnector) (now : Nat) : Int :=
  MinTimeout
    ((if TableWatchWrite c || TableWatchRead c then [((cfg.KafkaSocketTimeout * 1000 : Nat) : Int)]
      else []) ++
     (match c.OptInProgressShutdown with
      | some shutdown_state => [TimeRemaining now shutdown_state.Deadline]
      | none => []) ++
     (match c.OptNextBatchExpiry with
      | some expiry => if TableWatchBatch c then [TimeRemaining now expiry] else []
      | none => []))

/-- The poll timeout the code computes: as `PollTimeoutAsClaimed`, but the
shutdown deadline counts only when no send is in progress, and a time to a
deadline is capped at the largest `int`. -/
def PollTimeoutAmended (cfg : TConfig) (c : TConnector) (now : Nat) : Int :=
  MinTimeout
    ((if TableWatchWrite c || TableWatchRead c then [((cfg.KafkaSocketTimeout * 1000 : Nat) : Int)]
      else []) ++
     (match c.OptInProgressShutdown with
      | some shutdown_state =>
        if SendInProgress c then [] else [min (TimeRemaining now shutdown_state.Deadline) INT_MAX]
      | none => []) ++
     (match c.OptNextBatchExpiry with
      | some expiry =>
        if TableWatchBatch c then [min (TimeRemaining now expiry) INT_MAX] else []
      | none => []))

/-- The shutdown state `new` is at least as strict as `old`: a shutdown in
progress stays in progress, its deadline is not later, and fast stays fast. -/
def ShutdownNotRelaxed (old new : Option TInProgressShutdown) : Prop :=
  match old with
  | none => True
  | some o => ∃ n, new = some n ∧ n.Deadline ≤ o.Deadline ∧ (o.FastShutdown = true → n.FastShutdown = true)

/-- The shutdown state after a proposal `(deadline, fast)`, in the words of the
specification: installed when none is in progress, else the earlier deadline
and fast if either is fast. -/
def MergeShutdown (old : Option TInProgressShutdown) (deadline : Nat) (fast : Bool) :
    TInProgressShutdown :=
  match old with
  | none => { Deadline := deadline, FastShutdown := fast }
  | some s => { Deadline := min s.Deadline deadline, FastShutdown := s.FastShutdown || fast }

/-- Successive calls of `HandleSockWriteReady`, each with what the factory would
build and the number of bytes `send` takes. -/
def WriteCalls (cfg : TConfig) (c : TConnector) :
    List (TBuildResult × Nat) → Except TAbort TConnector
  | [] => .ok c
  | (built, n) :: rest =>
    match HandleSockWriteReady cfg c built (.Sent n) with
    | .error e => .error e
    | .ok r => WriteCalls cfg r.2 rest

/-- The assumption on the request factory: a request that `BuildRequest` returns
comes with a serialised buffer that is not empty. -/
def BuildHasBytes (built : TBuildResult) : Prop := built.Request ≠ none → built.Buf ≠ []

/-- The operation, if it is a call of `HandleSockWriteReady`, gets from the
factory a request with bytes. -/
def OpBuildHasBytes : TOp → Prop
  | .HandleSockWriteReady built _ => BuildHasBytes built
  | _ => True

/-- The states reachable from a newly constructed connector by operations when
the request factory never returns a request with an empty buffer. -/
inductive ReachableWithBytes (cfg : TConfig) : TConnector → Prop where
  | init (shutdownFd pauseFd notifyFd : Nat) (arr : TMainLoopPollArray) :
      ReachableWithBytes cfg (NewConnector shutdownFd pauseFd notifyFd arr)
  | step (c c1 : TConnector) (op : TOp) :
      ReachableWithBytes cfg c → OpBuildHasBytes op → ApplyOp cfg c op = .ok c1 →
      ReachableWithBytes cfg c1

/-- The processor's outcome says to keep running: `KeepRunning` or
`PauseAndDeferFinish`. -/
def KeepsRunning (p : TProcessorOutcome) : Prop :=
  p.Action = some .KeepRunning ∨ p.Action = some .PauseAndDeferFinish

/-! ## DoRun (connector.cc 748-825) -/

/-- How a run of `DoRun` ends: it returns, an exception leaves it, or it is still
in its loop after the iterations considered. -/
inductive TRunResult where
  | Returned (c : TConnector)
  | Threw (e : TAbort)
  | Running (c : TConnector)
  deriving DecidableEq, Repr

/-- The loop of `DoRun` (connector.cc 759-824) over the iterations whose
surroundings are given. -/
def DoRunLoop (cfg : TConfig) : List TIterEnv → TConnector → TRunResult
  | [], c => .Running c
  | env :: envs, c =>
    match (MainLoopIteration cfg c env).Step with
    | .Continue c1 => DoRunLoop cfg envs c1
    | .Break c1 => .Returned c1
    | .Throw e => .Threw e

/-- The function `TConnector::DoRun` (connector.cc 748-825); its first statement,
`OkShutdown = false`, is the first step of `ConnectToBroker` above; `fd` is the
socket the connect opened, if it opened one. -/
def DoRun (cfg : TConfig) (c : TConnector) (fd : Option Nat) (envs : List TIterEnv) :
    TRunResult :=
  let r := ConnectToBroker c fd
  if !r.1 then .Returned r.2 else DoRunLoop cfg envs r.2

/-- An iteration leaves the loop after a shutdown: `PrepareForPoll` returns
`false`, or `poll` times out at or after the deadline of the shutdown in
progress. -/
def CleanExitCondition (cfg : TConfig) (c : TConnector) (env : TIterEnv) : Prop :=
  (PrepareForPoll cfg c env.StartTime).1 = false ∨
    ((PrepareForPoll cfg c env.StartTime).1 = true ∧
      ∃ rs rr rp ri s, env.Poll = .Reported rs rr rp ri ∧
        PollCount (PollReturned (PrepareForPoll cfg c env.StartTime).2.2 rs rr rp
          ri).MainLoopPollArray = 0 ∧
        c.OptInProgressShutdown = some s ∧ s.Deadline ≤ max env.StartTime env.FinishClock)

/-! ## Concrete states -/

/-- A poll array that watches nothing. -/
def PollArrayIdle : TMainLoopPollArray :=
  { SockIo := { fd := -1, events := 0, revents := 0 },
    ShutdownRequest := { fd := -1, events := 0, revents := 0 },
    PauseButton := { fd := -1, events := 0, revents := 0 },
    InputQueue := { fd := -1, events := 0, revents := 0 } }

/-- A configuration without ACKs. -/
def ZeroAcksConfig : TConfig :=
  { RequiredAcks := 0, KafkaSocketTimeout := 10, ShutdownMaxDelay := 500,
    DispatcherRestartMaxDelay := 300 }

/-- A connector that has taken one message list from its input queue. -/
def IdleWithPending : TConnector :=
  CheckInputQueue (Enqueue (NewConnector 3 4 5 PollArrayIdle) 10 [1, 2]) 20 true

/-- The factory builds a request of three bytes from the pending list. -/
def ExampleBuild : TBuildResult :=
  { Request := some (7, [("a", [(0, { Contents := [1, 2] })])]), Buf := [9, 9, 9],
    Factory := { Pending := [] } }


/-- A configuration: ACKs required, 10 s socket timeout. -/
def ExampleConfig : TConfig :=
  { RequiredAcks := 1, KafkaSocketTimeout := 10, ShutdownMaxDelay := 500,
    DispatcherRestartMaxDelay := 300 }

/-- A connector that stopped with a request half sent, two requests waiting for
their ACK and leftovers everywhere. -/
def StoppedConnector : TConnector :=
  { NewConnector 3 4 5 PollArrayIdle with
    Sock := some 6,
    CurrentRequest := some (7, [("a", [(0, { Contents := [1, 2] }), (1, { Contents := [3] })])]),
    SendBuf := [9, 9],
    GotAckAfterPause := [[4]],
    RequestFactory := { Pending := [[5]] },
    InputQueue := { Items := [(100, [6, 7])] },
    NoAckAfterPause := [[8]],
    AckWaitQueue :=
      [(5, [("a", [(0, { Contents := [10] })]), ("b", [(2, { Contents := [11, 12] })])]),
       (6, [("a", [(0, { Contents := [13] })])])] }

/-- A connector in a slow shutdown with deadline 100 that still has a list to
send and a batch that expires at 70. -/
def DrainingConnector : TConnector :=
  { NewConnector 3 4 5 PollArrayIdle with
    Sock := some 6,
    RequestFactory := { Pending := [[5]] },
    OptNextBatchExpiry := some 70,
    OptInProgressShutdown := some { Deadline := 100, FastShutdown := false } }

/-- A connector that has sent the first byte of a request of three bytes and
then accepted a slow shutdown that started at 200, so with deadline 700. -/
def SendingDuringShutdown : TConnector :=
  { NewConnector 3 4 5 PollArrayIdle with
    Sock := some 6,
    OkShutdown := false,
    OptShutdownCmd := some { OptSlowShutdownStartTime := some 200 },
    OptInProgressShutdown := some { Deadline := 700, FastShutdown := false },
    CurrentRequest := some (7, [("a", [(0, { Contents := [1, 2] })])]),
    SendBuf := [9, 9],
    ShutdownAckPushed := true }

/-- The processor says to keep running and holds one list to send again now. -/
def KeepRunningOutcome : TProcessorOutcome :=
  { Action := some .KeepRunning, MsgsWithoutAcks := [], PauseAndResendAckMsgs := [],
    ImmediateResendAckMsgs := [[10]] }

/-- The processor finishes at once: one list lost, one to send again after the
pause, one to send again now. -/
def FinishNowOutcome : TProcessorOutcome :=
  { Action := some .PauseAndFinishNow, MsgsWithoutAcks := [[10]],
    PauseAndResendAckMsgs := [[11, 12]], ImmediateResendAckMsgs := [[14]] }

/-- A connector whose input queue holds five messages that batch until 1000. -/
def BatchingConnector : TConnector :=
  { NewConnector 3 4 5 PollArrayIdle with
    Sock := some 6,
    OkShutdown := false,
    RequestFactory := { Pending := [[9]] },
    InputQueue := { Items := [(1000, [1, 2, 3, 4, 5])] } }

/-- A reader that has nothing complete to deliver. -/
def QuietReadEnv : TReadEnv :=
  { Read := .State .ReadNeeded, Consume := fun _ => .ReadNeeded,
    Process := fun _ => FinishNowOutcome, Clock := fun _ => 110 }

/-- A wakeup at 100 in which `poll` reports the socket writable, a shutdown
request and input, all at once. -/
def ShutdownAndSocketReady : TIterEnv :=
  { StartTime := 100, Poll := .Reported 4 1 0 1, FinishClock := 110, HandlerClock := 110,
    Build := ExampleBuild, Send := .Sent 3, Read := QuietReadEnv }

/-- An iteration in which the socket is writable and the connection is lost
on the send. -/
def LostOnSend : TIterEnv :=
  { ShutdownAndSocketReady with Poll := .Reported 4 0 0 0, Send := .LostTcpConnection }

/-! ## Lemmas on CleanupAfterJoin -/

theorem foldl_push_Contents (group : TMultiPartitionGroup) (d : List TMsgList) :
    group.foldl (fun d2 msg_set_elem => d2 ++ [msg_set_elem.2.Contents]) d =
      d ++ group.map (fun msg_set_elem => msg_set_elem.2.Contents) := by
  induction group generalizing d with
  | nil => simp
  | cons g gs ih => simp [List.foldl_cons, ih]

theorem EmptyAllTopics_snd (id : Int) (all_topics : TAllTopics) (dest : List TMsgList) :
    (EmptyAllTopics all_topics dest).2 = dest ++ MsgLists (id, all_topics) := by
  unfold EmptyAllTopics MsgLists
  simp only
  induction all_topics generalizing dest with
  | nil => simp
  | cons t ts ih =>
    rw [List.foldl_cons, ih, foldl_push_Contents]
    simp [List.flatMap_cons]

theorem foldl_EmptyAllTopics_snd (q : List TProduceRequest) (acc : List TProduceRequest)
    (dest : List TMsgList) :
    (q.foldl
      (fun (acc : List TProduceRequest × List TMsgList) request =>
        ((acc.1 ++ [(request.1, (EmptyAllTopics request.2 acc.2).1)]),
          (EmptyAllTopics request.2 acc.2).2))
      (acc, dest)).2 = dest ++ q.flatMap MsgLists := by
  induction q generalizing acc dest with
  | nil => simp
  | cons r rs ih =>
    rw [List.foldl_cons, ih, EmptyAllTopics_snd r.1]
    simp [List.flatMap_cons]

theorem CleanupAfterJoin_SendWait (c : TConnector) :
    (CleanupAfterJoin c).SendWaitAfterShutdown = c.SendWaitAfterShutdown ++ SendWaitSources c := by
  unfold CleanupAfterJoin SendWaitSources CurrentRequestLists
  cases hr : c.CurrentRequest with
  | none => simp
  | some r => simp [EmptyAllTopics_snd r.1]

theorem CleanupAfterJoin_NoAck (c : TConnector) :
    (CleanupAfterJoin c).NoAckAfterShutdown = c.NoAckAfterShutdown ++ NoAckSources c := by
  unfold CleanupAfterJoin NoAckSources
  cases hr : c.CurrentRequest with
  | none => simp [foldl_EmptyAllTopics_snd]
  | some r => simp [foldl_EmptyAllTopics_snd]

/-! ## C1, C2: CleanupAfterJoin -/

/-- C1: `CleanupAfterJoin`, called with `SendWaitAfterShutdown` empty, leaves in
it the message lists of `CurrentRequest` (if there is one), then
`GotAckAfterPause`, then what `RequestFactory.GetAll()` returns, then what
`InputQueue.Reset()` returns, each part in its own order. -/
theorem CleanupAfterJoin_SendWaitAfterShutdown (c : TConnector)
    (hs : c.SendWaitAfterShutdown = []) (hn : c.NoAckAfterShutdown = []) :
    (CleanupAfterJoin c).SendWaitAfterShutdown =
      (match c.CurrentRequest with
       | some r => MsgLists r
       | none => []) ++ c.GotAckAfterPause ++ c.RequestFactory.GetAll.1 ++ c.InputQueue.Reset.1 := by
  have _ := hn
  rw [CleanupAfterJoin_SendWait, hs]
  rfl

theorem CleanupAfterJoin_SendWaitAfterShutdown_witness :
    StoppedConnector.SendWaitAfterShutdown = [] ∧ StoppedConnector.NoAckAfterShutdown = [] ∧
    (CleanupAfterJoin StoppedConnector).SendWaitAfterShutdown =
      (match StoppedConnector.CurrentRequest with
       | some r => MsgLists r
       | none => []) ++ StoppedConnector.GotAckAfterPause ++
        StoppedConnector.RequestFactory.GetAll.1 ++ StoppedConnector.InputQueue.Reset.1 :=
  ⟨rfl, rfl, CleanupAfterJoin_SendWaitAfterShutdown StoppedConnector rfl rfl⟩

/-- C2: `CleanupAfterJoin`, called with both residual queues empty, leaves in
`NoAckAfterShutdown` the message lists of `NoAckAfterPause` followed by those of
the requests of `AckWaitQueue` in queue order, and nothing else, and in
`SendWaitAfterShutdown` the send-wait leftovers and nothing else; so, a message
list being held in one place only, none of the no-ACK leftovers is in
`SendWaitAfterShutdown` and none of the send-wait leftovers in
`NoAckAfterShutdown`. -/
theorem CleanupAfterJoin_NoAckAfterShutdown (c : TConnector)
    (hs : c.SendWaitAfterShutdown = []) (hn : c.NoAckAfterShutdown = []) :
    (CleanupAfterJoin c).NoAckAfterShutdown =
        c.NoAckAfterPause ++ c.AckWaitQueue.flatMap MsgLists ∧
      (CleanupAfterJoin c).SendWaitAfterShutdown = SendWaitSources c ∧
      ((∀ l ∈ NoAckSources c, l ∉ SendWaitSources c) →
        (∀ l ∈ NoAckSources c, l ∉ (CleanupAfterJoin c).SendWaitAfterShutdown) ∧
        (∀ l ∈ SendWaitSources c, l ∉ (CleanupAfterJoin c).NoAckAfterShutdown)) := by
  have h1 : (CleanupAfterJoin c).NoAckAfterShutdown = NoAckSources c := by
    rw [CleanupAfterJoin_NoAck, hn]; rfl
  have h2 : (CleanupAfterJoin c).SendWaitAfterShutdown = SendWaitSources c := by
    rw [CleanupAfterJoin_SendWait, hs]; rfl
  refine ⟨h1, h2, fun hown => ⟨?_, ?_⟩⟩
  · intro l hl
    rw [h2]
    exact hown l hl
  · intro l hl hl2
    rw [h1] at hl2
    exact hown l hl2 hl

theorem CleanupAfterJoin_NoAckAfterShutdown_witness :
    (CleanupAfterJoin StoppedConnector).NoAckAfterShutdown = [[8], [10], [11, 12], [13]] ∧
    (CleanupAfterJoin StoppedConnector).SendWaitAfterShutdown =
      [[1, 2], [3], [4], [5], [6, 7]] ∧
    [10] ∉ (CleanupAfterJoin StoppedConnector).SendWaitAfterShutdown :=
  have h := CleanupAfterJoin_NoAckAfterShutdown StoppedConnector rfl rfl
  ⟨h.1.trans (by decide), h.2.1.trans (by decide), (h.2.2 (by decide)).1 [10] (by decide)⟩

/-! ## Lemmas on PrepareForPoll -/

theorem PollNeeds_eq_none_iff (c : TConnector) :
    PollNeeds c = none ↔
      (c.OptInProgressShutdown.isSome = true ∧ SendInProgress c = false ∧ c.AckWaitQueue = [] ∧
        (c.RequestFactory.IsEmpty = true ∨ FastShutdownInProgress c = true)) := by
  unfold PollNeeds FastShutdownInProgress
  cases hs : SendInProgress c <;> cases ho : c.OptInProgressShutdown with
  | none => simp
  | some s =>
    cases hf : s.FastShutdown <;> cases he : c.RequestFactory.IsEmpty <;>
      cases hq : c.AckWaitQueue <;> simp

theorem PollNeeds_eq_some (c : TConnector) (w st bt : Bool) (h : PollNeeds c = some (w, st, bt)) :
    w = TableWatchWrite c ∧ st = (c.OptInProgressShutdown.isSome && !SendInProgress c) ∧
      bt = TableWatchBatch c := by
  unfold PollNeeds at h
  unfold TableWatchWrite TableWatchBatch FastShutdownInProgress
  cases hs : SendInProgress c <;> cases ho : c.OptInProgressShutdown with
  | none =>
    simp only [hs, ho, Bool.false_eq_true, if_false, if_true, Option.some.injEq,
      Prod.mk.injEq] at h
    obtain ⟨rfl, rfl, rfl⟩ := h
    simp
  | some s =>
    cases hf : s.FastShutdown <;> cases he : c.RequestFactory.IsEmpty <;>
      cases hq : c.AckWaitQueue.isEmpty <;>
      simp only [hs, ho, hf, he, hq, Bool.false_eq_true, if_false, if_true, Option.some.injEq,
        Prod.mk.injEq, Bool.not_true, Bool.not_false, Bool.and_true, Bool.and_false,
        Bool.true_and, Bool.false_and, reduceCtorEq] at h <;>
      (obtain ⟨rfl, rfl, rfl⟩ := h; simp [hf, he])

theorem PrepareForPoll_fst (cfg : TConfig) (c : TConnector) (now : Nat) :
    (PrepareForPoll cfg c now).1 = (PollNeeds c).isSome := by
  unfold PrepareForPoll
  cases h : PollNeeds c with
  | none => rfl
  | some n => obtain ⟨w, st, bt⟩ := n; rfl

theorem PrepareForPoll_events (cfg : TConfig) (c : TConnector) (now : Nat) (w st bt : Bool)
    (h : PollNeeds c = some (w, st, bt)) :
    decide ((PrepareForPoll cfg c now).2.2.MainLoopPollArray.SockIo.events &&& POLLOUT ≠ 0) = w ∧
      decide ((PrepareForPoll cfg c now).2.2.MainLoopPollArray.SockIo.events &&& POLLIN ≠ 0)
        = !c.AckWaitQueue.isEmpty ∧
      WatchInput (PrepareForPoll cfg c now).2.2.MainLoopPollArray = c.OptInProgressShutdown.isNone := by
  unfold PrepareForPoll WatchInput
  simp only [h]
  refine ⟨?_, ?_, ?_⟩
  · cases w <;> cases c.AckWaitQueue.isEmpty <;> decide
  · cases w <;> cases c.AckWaitQueue.isEmpty <;> decide
  · cases ho : c.OptInProgressShutdown with
    | none =>
      have h0 : (0 : Int) ≤ (c.SenderNotifyFd : Int) := Int.ofNat_nonneg _
      simp [POLLIN, h0]
    | some s => simp [POLLIN]

/-! ## C4: when PrepareForPoll returns false -/

/-- C4: `PrepareForPoll` returns `false` exactly when a shutdown is in progress,
no send is in progress, `AckWaitQueue` is empty, and the request factory is empty
or the shutdown is fast; with no shutdown in progress it returns `true`; and when
it returns `false` the iteration calls no handler and leaves the loop in the
state it was entered with but for `OkShutdown`, which is `true`, so that the
loop of `DoRun` returns that state. -/
theorem PrepareForPoll_false_iff (cfg : TConfig) (c : TConnector) (now : Nat) :
    ((PrepareForPoll cfg c now).1 = false ↔
        (c.OptInProgressShutdown.isSome = true ∧ SendInProgress c = false ∧
          c.AckWaitQueue = [] ∧
          (c.RequestFactory.IsEmpty = true ∨ FastShutdownInProgress c = true))) ∧
      (c.OptInProgressShutdown = none → (PrepareForPoll cfg c now).1 = true) ∧
      (∀ env : TIterEnv, (PrepareForPoll cfg c env.StartTime).1 = false →
        MainLoopIteration cfg c env =
            { Trace := [], Step := .Break { c with OkShutdown := true } } ∧
          (∀ c1, (MainLoopIteration cfg c env).Step = .Break c1 → c1.OkShutdown = true) ∧
          (∀ envs, ∃ c1, DoRunLoop cfg (env :: envs) c = .Returned c1 ∧
            c1.OkShutdown = true)) := by
  have key : ∀ t, ((PrepareForPoll cfg c t).1 = false ↔ PollNeeds c = none) := by
    intro t
    rw [PrepareForPoll_fst]
    cases PollNeeds c <;> simp
  refine ⟨?_, ?_, ?_⟩
  · rw [key, PollNeeds_eq_none_iff]
  · intro ho
    cases hp : (PrepareForPoll cfg c now).1 with
    | true => rfl
    | false =>
      rw [key, PollNeeds_eq_none_iff] at hp
      simp [ho] at hp
  · intro env hp
    have hn := (key env.StartTime).mp hp
    have hm : MainLoopIteration cfg c env =
        { Trace := [], Step := .Break { c with OkShutdown := true } } := by
      unfold MainLoopIteration
      simp [PrepareForPoll, hn, CleanExit]
    refine ⟨hm, ?_, ?_⟩
    · intro c1 h1
      rw [hm] at h1
      simp only [TLoopStep.Break.injEq] at h1
      rw [← h1]
    · intro envs
      refine ⟨{ c with OkShutdown := true }, ?_, rfl⟩
      simp only [DoRunLoop, hm]

/-! ## C5: the poll timeout -/

theorem CastInt_of_le (n : Nat) (h : (n : Int) ≤ INT_MAX) : CastInt n = (n : Int) := by
  unfold INT_MAX at h
  unfold CastInt
  have h1 : n % 2 ^ 32 = n := Nat.mod_eq_of_lt (by omega)
  rw [h1]
  have h2 : n < 2 ^ 31 := by omega
  rw [if_pos h2]

theorem AdjustTimeoutByDeadline_eq (t : Int) (now deadline : Nat) :
    AdjustTimeoutByDeadline t now deadline =
      if t < 0 then min (TimeRemaining now deadline) INT_MAX
      else min t (min (TimeRemaining now deadline) INT_MAX) := by
  have key : (if ((if now > deadline then 0 else deadline - now : Nat) : Int) > INT_MAX then INT_MAX
      else CastInt (if now > deadline then 0 else deadline - now))
      = min (TimeRemaining now deadline) INT_MAX := by
    unfold TimeRemaining
    by_cases hnd : now > deadline
    · have h2 : ¬ now ≤ deadline := by omega
      rw [if_pos hnd, if_neg h2]
      simp [INT_MAX, CastInt]
    · have h2 : now ≤ deadline := by omega
      rw [if_neg hnd, if_pos h2]
      by_cases hbig : ((deadline - now : Nat) : Int) > INT_MAX
      · rw [if_pos hbig]
        exact (min_eq_right (le_of_lt hbig)).symm
      · rw [if_neg hbig, CastInt_of_le _ (not_lt.mp hbig)]
        exact (min_eq_left (not_lt.mp hbig)).symm
  unfold AdjustTimeoutByDeadline
  simp only [key]

theorem SocketTimeout_eq (cfg : TConfig) (hk : cfg.KafkaSocketTimeout * 1000 ≤ 2147483647) :
    CastInt (Mul64 cfg.KafkaSocketTimeout 1000) = ((cfg.KafkaSocketTimeout * 1000 : Nat) : Int) := by
  have h1 : Mul64 cfg.KafkaSocketTimeout 1000 = cfg.KafkaSocketTimeout * 1000 := by
    unfold Mul64
    exact Nat.mod_eq_of_lt (by omega)
  rw [h1]
  apply CastInt_of_le
  unfold INT_MAX
  omega

theorem TimeRemaining_nonneg (now deadline : Nat) : 0 ≤ TimeRemaining now deadline := by
  unfold TimeRemaining
  split
  · exact Int.ofNat_nonneg _
  · exact le_refl _

theorem PrepareForPoll_timeout (cfg : TConfig) (c : TConnector) (now : Nat) (w st bt : Bool)
    (hn : PollNeeds c = some (w, st, bt)) :
    (PrepareForPoll cfg c now).2.1 =
      (if bt = true then
        match c.OptNextBatchExpiry with
        | some expiry =>
          AdjustTimeoutByDeadline
            (if st = true then
              match c.OptInProgressShutdown with
              | some shutdown_state =>
                AdjustTimeoutByDeadline
                  (if (w || !c.AckWaitQueue.isEmpty) = true then
                    CastInt (Mul64 cfg.KafkaSocketTimeout 1000) else -1)
                  now shutdown_state.Deadline
              | none =>
                if (w || !c.AckWaitQueue.isEmpty) = true then
                  CastInt (Mul64 cfg.KafkaSocketTimeout 1000) else -1
            else
              if (w || !c.AckWaitQueue.isEmpty) = true then
                CastInt (Mul64 cfg.KafkaSocketTimeout 1000) else -1)
            now expiry
        | none =>
          if st = true then
            match c.OptInProgressShutdown with
            | some shutdown_state =>
              AdjustTimeoutByDeadline
                (if (w || !c.AckWaitQueue.isEmpty) = true then
                  CastInt (Mul64 cfg.KafkaSocketTimeout 1000) else -1)
                now shutdown_state.Deadline
            | none =>
              if (w || !c.AckWaitQueue.isEmpty) = true then
                CastInt (Mul64 cfg.KafkaSocketTimeout 1000) else -1
          else
            if (w || !c.AckWaitQueue.isEmpty) = true then
              CastInt (Mul64 cfg.KafkaSocketTimeout 1000) else -1
      else
        if st = true then
          match c.OptInProgressShutdown with
          | some shutdown_state =>
            AdjustTimeoutByDeadline
              (if (w || !c.AckWaitQueue.isEmpty) = true then
                CastInt (Mul64 cfg.KafkaSocketTimeout 1000) else -1)
              now shutdown_state.Deadline
          | none =>
            if (w || !c.AckWaitQueue.isEmpty) = true then
              CastInt (Mul64 cfg.KafkaSocketTimeout 1000) else -1
        else
          if (w || !c.AckWaitQueue.isEmpty) = true then
            CastInt (Mul64 cfg.KafkaSocketTimeout 1000) else -1) := by
  unfold PrepareForPoll
  simp only [hn]

theorem SendingDuringShutdown_reachable : Reachable ExampleConfig SendingDuringShutdown :=
  Reachable.step _ _ (.HandleShutdownRequest 250)
    (Reachable.step _ _ (.StartSlowShutdown 200)
      (Reachable.step _ _ (.HandleSockWriteReady ExampleBuild (.Sent 1))
        (Reachable.step _ _ (.CheckInputQueue 20 true)
          (Reachable.step _ _ (.Enqueue 10 [1, 2])
            (Reachable.step _ _ (.ConnectToBroker (some 6))
              (Reachable.init 3 4 5 PollArrayIdle) rfl)
            rfl)
          rfl)
        rfl)
      rfl)
    rfl

/-- C5 as stated fails: in a reachable state with a request half sent and a slow
shutdown whose deadline is 50 ms away, the code waits the full socket timeout
of 10 s, not the 50 ms the claim gives. -/
theorem PollTimeout_not_as_claimed :
    (PrepareForPoll ExampleConfig SendingDuringShutdown 650).1 = true ∧
    (PrepareForPoll ExampleConfig SendingDuringShutdown 650).2.1 = 10000 ∧
    PollTimeoutAsClaimed ExampleConfig SendingDuringShutdown 650 = 50 := by
  decide

/-- C5, amended: whenever `PrepareForPoll` returns `true` and the socket timeout
in milliseconds fits an `int`, the poll timeout is the minimum of: the socket
timeout if the socket is watched; the time to the shutdown deadline (0 if past,
at most 2147483647) if a shutdown is in progress and no send is in progress; the
time to the next batch expiry (0 if past, at most 2147483647) if the batch timer
is watched per the decision table; it is -1 exactly when none of the three
applies. -/
theorem PrepareForPoll_poll_timeout (cfg : TConfig) (c : TConnector) (now : Nat)
    (h : (PrepareForPoll cfg c now).1 = true)
    (hk : cfg.KafkaSocketTimeout * 1000 ≤ 2147483647) :
    (PrepareForPoll cfg c now).2.1 = PollTimeoutAmended cfg c now ∧
      ((PrepareForPoll cfg c now).2.1 = -1 ↔
        (TableWatchWrite c = false ∧ TableWatchRead c = false ∧
          c.OptInProgressShutdown = none ∧ TableWatchBatch c = false)) := by
  rw [PrepareForPoll_fst] at h
  cases hn : PollNeeds c with
  | none => simp [hn] at h
  | some n =>
    obtain ⟨w, st, bt⟩ := n
    obtain ⟨hw, hst, hbt⟩ := PollNeeds_eq_some c w st bt hn
    have hT := PrepareForPoll_timeout cfg c now w st bt hn
    rw [SocketTimeout_eq cfg hk] at hT
    simp only [AdjustTimeoutByDeadline_eq] at hT
    have hne : ¬ PollNeeds c = none := by simp [hn]
    rw [PollNeeds_eq_none_iff] at hne
    rw [hT]
    subst hw hst hbt
    have hK : (0 : Int) ≤ ((cfg.KafkaSocketTimeout * 1000 : Nat) : Int) := Int.ofNat_nonneg _
    have hM : (0 : Int) ≤ INT_MAX := by unfold INT_MAX; omega
    have hR := TimeRemaining_nonneg now
    unfold PollTimeoutAmended MinTimeout TableWatchWrite TableWatchBatch TableWatchRead
      FastShutdownInProgress
    unfold FastShutdownInProgress at hne
    generalize ((cfg.KafkaSocketTimeout * 1000 : Nat) : Int) = K at hK ⊢
    generalize INT_MAX = M at hM ⊢
    have hKn : ¬ K < 0 := not_lt.mpr hK
    cases hs : SendInProgress c <;> cases ho : c.OptInProgressShutdown with
    | none =>
      cases he : c.RequestFactory.IsEmpty <;> cases hq : c.AckWaitQueue <;>
        cases hb : c.OptNextBatchExpiry <;> simp [hs, ho, he, hq, hb, hKn] at hne ⊢ <;>
        (try have hr := hR ‹Nat›) <;> omega
    | some sd =>
      cases hf : sd.FastShutdown <;>
        cases he : c.RequestFactory.IsEmpty <;> cases hq : c.AckWaitQueue <;>
        cases hb : c.OptNextBatchExpiry <;> simp [hs, ho, hf, he, hq, hb, hKn] at hne ⊢ <;>
        (try have hr1 := hR sd.Deadline) <;> (try have hr := hR ‹Nat›) <;> omega

theorem PrepareForPoll_poll_timeout_witness :
    (PrepareForPoll ExampleConfig DrainingConnector 50).1 = true ∧
    (PrepareForPoll ExampleConfig DrainingConnector 50).2.1 = 20 :=
  ⟨by decide,
   (PrepareForPoll_poll_timeout ExampleConfig DrainingConnector 50 (by decide)
      (by decide)).1.trans (by decide)⟩

/-! ## Lemmas on the read path -/

theorem SetFastShutdownState_AckWaitQueue (cfg : TConfig) (c : TConnector) (clock : Nat) :
    (SetFastShutdownState cfg c clock).AckWaitQueue = c.AckWaitQueue := by
  unfold SetFastShutdownState
  split <;> rfl

theorem ProcessSingleProduceResponse_queue (cfg : TConfig) (c : TConnector) (clock : Nat)
    (p : TProcessorOutcome) (r : Bool × TConnector)
    (h : ProcessSingleProduceResponse cfg c clock p = .ok r) :
    ∃ request, c.AckWaitQueue = request :: r.2.AckWaitQueue := by
  unfold ProcessSingleProduceResponse at h
  split at h
  · cases h
  · rename_i req rest hq
    simp only [Except.ok.injEq] at h
    refine ⟨req, ?_⟩
    rw [hq, ← h]
    cases p.Action with
    | none => simp
    | some a => cases a <;> simp [SetPauseInProgress, SetFastShutdownState_AckWaitQueue]

theorem HandleSockReadReadyLoop_rel (cfg : TConfig) (env : TReadEnv)
    (R : TConnector → TConnector → Prop)
    (hrefl : ∀ c, R c c) (htrans : ∀ a b c, R a b → R b c → R a c)
    (hproc : ∀ c clock p r, ProcessSingleProduceResponse cfg c clock p = .ok r → R c r.2)
    (hpush : ∀ c : TConnector, R c { c with PauseButtonPushed := true }) :
    ∀ (n : Nat) (c : TConnector) (k : Nat) (rs : TState) (r : Bool × TConnector),
      c.AckWaitQueue.length = n → HandleSockReadReadyLoop cfg env k rs c = .ok r → R c r.2 := by
  intro n
  induction n using Nat.strong_induction_on with
  | _ n ih =>
    intro c k rs r hlen hrun
    rw [HandleSockReadReadyLoop.eq_def] at hrun
    cases rs with
    | ReadNeeded => simp at hrun; subst hrun; exact hrefl c
    | DataInvalid => simp at hrun; subst hrun; exact hpush c
    | AtEnd => simp at hrun; subst hrun; exact hpush c
    | MsgReady =>
      simp only at hrun
      split at hrun
      · cases hrun
      · rename_i c1 hp
        simp only [Except.ok.injEq] at hrun
        subst hrun
        exact hproc c _ _ _ hp
      · rename_i c1 hp
        have h1 : R c c1 := hproc c _ _ _ hp
        obtain ⟨req, hq⟩ := ProcessSingleProduceResponse_queue cfg c _ _ _ hp
        split at hrun
        · simp only [Except.ok.injEq] at hrun
          subst hrun
          exact htrans _ _ _ h1 (hpush c1)
        · have hlt : c1.AckWaitQueue.length < n := by
            rw [← hlen, hq]
            simp
          exact htrans _ _ _ h1 (ih _ hlt c1 _ _ r rfl hrun)

theorem HandleSockReadReady_rel (cfg : TConfig) (R : TConnector → TConnector → Prop)
    (hrefl : ∀ c, R c c) (htrans : ∀ a b c, R a b → R b c → R a c)
    (hproc : ∀ c clock p r, ProcessSingleProduceResponse cfg c clock p = .ok r → R c r.2)
    (hpush : ∀ c : TConnector, R c { c with PauseButtonPushed := true })
    (c : TConnector) (env : TReadEnv) (r : Bool × TConnector)
    (h : HandleSockReadReady cfg c env = .ok r) : R c r.2 := by
  unfold HandleSockReadReady at h
  split at h
  · simp only [Except.ok.injEq] at h
    subst h
    exact hpush c
  · cases h
  · exact HandleSockReadReadyLoop_rel cfg env R hrefl htrans hproc hpush _ c 0 _ r rfl h

/-! ## Lemmas on the shutdown state -/

theorem SetFastShutdownState_shutdown (cfg : TConfig) (c : TConnector) (clock : Nat) :
    (SetFastShutdownState cfg c clock).OptInProgressShutdown =
      some (MergeShutdown c.OptInProgressShutdown
        (Add64 clock cfg.DispatcherRestartMaxDelay) true) := by
  unfold SetFastShutdownState MergeShutdown
  cases c.OptInProgressShutdown <;> simp

theorem SetPauseInProgress_shutdown (cfg : TConfig) (c : TConnector) (clock : Nat) :
    (SetPauseInProgress cfg c clock).OptInProgressShutdown =
      some (MergeShutdown c.OptInProgressShutdown
        (Add64 clock cfg.DispatcherRestartMaxDelay) true) := by
  unfold SetPauseInProgress
  rw [SetFastShutdownState_shutdown]

theorem HandleShutdownRequest_slow (cfg : TConfig) (c : TConnector) (clock s : Nat)
    (hd : c.Destroying = false)
    (hc : c.OptShutdownCmd = some { OptSlowShutdownStartTime := some s }) :
    ∃ c1, HandleShutdownRequest cfg c clock = .ok c1 ∧
      c1.OptInProgressShutdown =
        some (MergeShutdown c.OptInProgressShutdown (Add64 s cfg.ShutdownMaxDelay) false) ∧
      c1.PauseInProgress = c.PauseInProgress := by
  unfold HandleShutdownRequest MergeShutdown
  simp only [hd, hc]
  cases c.OptInProgressShutdown <;> simp

theorem HandleShutdownRequest_fast (cfg : TConfig) (c : TConnector) (clock : Nat)
    (hd : c.Destroying = false)
    (hc : c.OptShutdownCmd = some { OptSlowShutdownStartTime := none }) :
    ∃ c1, HandleShutdownRequest cfg c clock = .ok c1 ∧
      c1.OptInProgressShutdown =
        some (MergeShutdown c.OptInProgressShutdown
          (Add64 clock cfg.DispatcherRestartMaxDelay) true) ∧
      c1.PauseInProgress = c.PauseInProgress := by
  unfold HandleShutdownRequest
  simp only [hd, hc]
  refine ⟨_, rfl, ?_, ?_⟩
  · exact SetFastShutdownState_shutdown cfg c clock
  · simp only [SetFastShutdownState]
    split <;> rfl

theorem HandleShutdownRequest_ok (cfg : TConfig) (c c1 : TConnector) (clock : Nat)
    (h : HandleShutdownRequest cfg c clock = .ok c1) :
    c.Destroying = false ∧ ∃ cmd, c.OptShutdownCmd = some cmd := by
  unfold HandleShutdownRequest at h
  cases hd : c.Destroying with
  | true => simp [hd] at h
  | false =>
    cases hc : c.OptShutdownCmd with
    | none => simp [hd, hc] at h
    | some cmd => exact ⟨rfl, cmd, rfl⟩

theorem ShutdownNotRelaxed_refl (o : Option TInProgressShutdown) : ShutdownNotRelaxed o o := by
  unfold ShutdownNotRelaxed
  cases o with
  | none => trivial
  | some s => exact ⟨s, rfl, le_refl _, fun h => h⟩

theorem ShutdownNotRelaxed_trans (a b c : Option TInProgressShutdown)
    (h1 : ShutdownNotRelaxed a b) (h2 : ShutdownNotRelaxed b c) : ShutdownNotRelaxed a c := by
  unfold ShutdownNotRelaxed at *
  cases a with
  | none => trivial
  | some s =>
    obtain ⟨n, rfl, hd, hf⟩ := h1
    obtain ⟨m, rfl, hd2, hf2⟩ := h2
    exact ⟨m, rfl, le_trans hd2 hd, fun h => hf2 (hf h)⟩

theorem ShutdownNotRelaxed_merge (o : Option TInProgressShutdown) (deadline : Nat) (fast : Bool) :
    ShutdownNotRelaxed o (some (MergeShutdown o deadline fast)) := by
  unfold ShutdownNotRelaxed MergeShutdown
  cases o with
  | none => trivial
  | some s => exact ⟨_, rfl, min_le_left _ _, fun h => by simp [h]⟩

theorem ProcessSingleProduceResponse_shutdown (cfg : TConfig) (c : TConnector) (clock : Nat)
    (p : TProcessorOutcome) (r : Bool × TConnector)
    (h : ProcessSingleProduceResponse cfg c clock p = .ok r) :
    r.2.OptInProgressShutdown =
      if p.Action = some .PauseAndDeferFinish then
        some (MergeShutdown c.OptInProgressShutdown
          (Add64 clock cfg.DispatcherRestartMaxDelay) true)
      else c.OptInProgressShutdown := by
  unfold ProcessSingleProduceResponse at h
  split at h
  · cases h
  · simp only [Except.ok.injEq] at h
    rw [← h]
    cases p.Action with
    | none => simp
    | some a => cases a <;> simp [SetPauseInProgress_shutdown]

theorem HandleSockWriteReady_cases (cfg : TConfig) (c : TConnector) (built : TBuildResult)
    (sent : TSendResult) (r : Bool × TConnector)
    (h : HandleSockWriteReady cfg c built sent = .ok r) :
    ((StartOrContinueSend c built).2 = false ∧ r = (true, (StartOrContinueSend c built).1)) ∨
    ((StartOrContinueSend c built).2 = true ∧ sent = .LostTcpConnection ∧
      r = (false, { (StartOrContinueSend c built).1 with PauseButtonPushed := true })) ∨
    ((StartOrContinueSend c built).2 = true ∧ ∃ n, sent = .Sent n ∧
      (StartOrContinueSend c built).1.SendBuf.drop n ≠ [] ∧
      r = (true, { (StartOrContinueSend c built).1 with
                    SendBuf := (StartOrContinueSend c built).1.SendBuf.drop n })) ∨
    ((StartOrContinueSend c built).2 = true ∧ ∃ n request, sent = .Sent n ∧
      (StartOrContinueSend c built).1.SendBuf.drop n = [] ∧
      (StartOrContinueSend c built).1.CurrentRequest = some request ∧
      r = (true, { (StartOrContinueSend c built).1 with
                    SendBuf := [],
                    AckWaitQueue :=
                      if cfg.RequiredAcks ≠ 0 then
                        (StartOrContinueSend c built).1.AckWaitQueue ++ [request]
                      else (StartOrContinueSend c built).1.AckWaitQueue,
                    CurrentRequest := none })) := by
  unfold HandleSockWriteReady at h
  generalize StartOrContinueSend c built = s at h ⊢
  obtain ⟨c0, go⟩ := s
  cases go with
  | false =>
    simp at h
    exact Or.inl ⟨rfl, h.symm⟩
  | true =>
    right
    cases sent with
    | LostTcpConnection =>
      simp [TrySendProduceRequest] at h
      exact Or.inl ⟨rfl, rfl, h.symm⟩
    | OtherError => simp [TrySendProduceRequest] at h
    | Sent n =>
      right
      simp only [TrySendProduceRequest, SendInProgress, Bool.not_true, Bool.false_eq_true,
        if_false, Bool.not_not] at h
      cases hd : c0.SendBuf.drop n with
      | nil =>
        right
        simp only [hd, List.isEmpty_nil, if_true] at h
        cases hr : c0.CurrentRequest with
        | none => simp [hr] at h
        | some request =>
          simp only [hr, Except.ok.injEq] at h
          refine ⟨rfl, n, request, rfl, hd, rfl, ?_⟩
          rw [← h]
          by_cases hz : cfg.RequiredAcks = 0 <;> simp [hz]
      | cons x xs =>
        left
        simp only [hd, List.isEmpty_cons, Bool.false_eq_true, if_false, Except.ok.injEq] at h
        refine ⟨rfl, n, rfl, ?_, ?_⟩
        · show List.drop n c0.SendBuf ≠ []
          rw [hd]
          simp
        · rw [← h]
          show _ = (true, { c0 with SendBuf := List.drop n c0.SendBuf })
          rw [hd]

theorem StartOrContinueSend_frame (c : TConnector) (built : TBuildResult) :
    (StartOrContinueSend c built).1.OptInProgressShutdown = c.OptInProgressShutdown ∧
      (StartOrContinueSend c built).1.PauseInProgress = c.PauseInProgress ∧
      (StartOrContinueSend c built).1.AckWaitQueue = c.AckWaitQueue ∧
      (StartOrContinueSend c built).1.NoAckAfterPause = c.NoAckAfterPause ∧
      (StartOrContinueSend c built).1.GotAckAfterPause = c.GotAckAfterPause ∧
      (StartOrContinueSend c built).1.InputQueue = c.InputQueue ∧
      (StartOrContinueSend c built).1.SendWaitAfterShutdown = c.SendWaitAfterShutdown ∧
      (StartOrContinueSend c built).1.NoAckAfterShutdown = c.NoAckAfterShutdown := by
  unfold StartOrContinueSend
  cases SendInProgress c <;> cases built.Request <;> simp

theorem HandleSockWriteReady_shutdown (cfg : TConfig) (c : TConnector) (built : TBuildResult)
    (sent : TSendResult) (r : Bool × TConnector)
    (h : HandleSockWriteReady cfg c built sent = .ok r) :
    r.2.OptInProgressShutdown = c.OptInProgressShutdown ∧
      r.2.PauseInProgress = c.PauseInProgress := by
  obtain ⟨f1, f2, -⟩ := StartOrContinueSend_frame c built
  rcases HandleSockWriteReady_cases cfg c built sent r h with
    ⟨-, rfl⟩ | ⟨-, -, rfl⟩ | ⟨-, n, -, -, rfl⟩ | ⟨-, n, request, -, -, -, rfl⟩ <;>
    exact ⟨f1, f2⟩

theorem PrepareForPoll_frame (cfg : TConfig) (c : TConnector) (now : Nat) :
    (PrepareForPoll cfg c now).2.2.OptInProgressShutdown = c.OptInProgressShutdown ∧
      (PrepareForPoll cfg c now).2.2.PauseInProgress = c.PauseInProgress ∧
      (PrepareForPoll cfg c now).2.2.AckWaitQueue = c.AckWaitQueue := by
  unfold PrepareForPoll
  cases h : PollNeeds c with
  | none => exact ⟨rfl, rfl, rfl⟩
  | some n => obtain ⟨w, st, bt⟩ := n; exact ⟨rfl, rfl, rfl⟩

theorem CheckInputQueue_frame (c : TConnector) (now : Nat) (pop_sem : Bool) :
    (CheckInputQueue c now pop_sem).OptInProgressShutdown = c.OptInProgressShutdown ∧
      (CheckInputQueue c now pop_sem).PauseInProgress = c.PauseInProgress ∧
      (CheckInputQueue c now pop_sem).AckWaitQueue = c.AckWaitQueue := by
  unfold CheckInputQueue
  cases pop_sem <;> simp only [Bool.false_eq_true, if_false, if_true] <;> split <;>
    exact ⟨rfl, rfl, rfl⟩

theorem ConnectToBroker_frame (c : TConnector) (fd : Option Nat) :
    (ConnectToBroker c fd).2.OptInProgressShutdown = c.OptInProgressShutdown ∧
      (ConnectToBroker c fd).2.PauseInProgress = c.PauseInProgress ∧
      (ConnectToBroker c fd).2.AckWaitQueue = c.AckWaitQueue := by
  unfold ConnectToBroker
  cases fd <;> exact ⟨rfl, rfl, rfl⟩

theorem ProcessSingleProduceResponse_notRelaxed (cfg : TConfig) (c : TConnector) (clock : Nat)
    (p : TProcessorOutcome) (r : Bool × TConnector)
    (h : ProcessSingleProduceResponse cfg c clock p = .ok r) :
    ShutdownNotRelaxed c.OptInProgressShutdown r.2.OptInProgressShutdown := by
  rw [ProcessSingleProduceResponse_shutdown cfg c clock p r h]
  split
  · exact ShutdownNotRelaxed_merge _ _ _
  · exact ShutdownNotRelaxed_refl _

theorem HandleSockReadReady_notRelaxed (cfg : TConfig) (c : TConnector) (env : TReadEnv)
    (r : Bool × TConnector) (h : HandleSockReadReady cfg c env = .ok r) :
    ShutdownNotRelaxed c.OptInProgressShutdown r.2.OptInProgressShutdown :=
  HandleSockReadReady_rel cfg
    (fun a b => ShutdownNotRelaxed a.OptInProgressShutdown b.OptInProgressShutdown)
    (fun _ => ShutdownNotRelaxed_refl _)
    (fun _ _ _ h1 h2 => ShutdownNotRelaxed_trans _ _ _ h1 h2)
    (fun a clock p r h => ProcessSingleProduceResponse_notRelaxed cfg a clock p r h)
    (fun _ => ShutdownNotRelaxed_refl _) c env r h

theorem HandleShutdownRequest_notRelaxed (cfg : TConfig) (c c1 : TConnector) (clock : Nat)
    (h : HandleShutdownRequest cfg c clock = .ok c1) :
    ShutdownNotRelaxed c.OptInProgressShutdown c1.OptInProgressShutdown := by
  obtain ⟨hd, cmd, hc⟩ := HandleShutdownRequest_ok cfg c c1 clock h
  obtain ⟨start⟩ := cmd
  cases start with
  | none =>
    obtain ⟨c2, h2, h3, -⟩ := HandleShutdownRequest_fast cfg c clock hd hc
    rw [h] at h2
    cases h2
    rw [h3]
    exact ShutdownNotRelaxed_merge _ _ _
  | some s =>
    obtain ⟨c2, h2, h3, -⟩ := HandleShutdownRequest_slow cfg c clock s hd hc
    rw [h] at h2
    cases h2
    rw [h3]
    exact ShutdownNotRelaxed_merge _ _ _

theorem ApplyOp_notRelaxed (cfg : TConfig) (c c1 : TConnector) (op : TOp)
    (h : ApplyOp cfg c op = .ok c1) :
    ShutdownNotRelaxed c.OptInProgressShutdown c1.OptInProgressShutdown := by
  cases op with
  | StartSlowShutdown s => cases h; exact ShutdownNotRelaxed_refl _
  | StartFastShutdown => cases h; exact ShutdownNotRelaxed_refl _
  | WaitForShutdownAck => cases h; exact ShutdownNotRelaxed_refl _
  | Enqueue e m => cases h; exact ShutdownNotRelaxed_refl _
  | ConnectToBroker fd =>
    cases h
    rw [(ConnectToBroker_frame c fd).1]
    exact ShutdownNotRelaxed_refl _
  | PrepareForPoll now =>
    cases h
    rw [(PrepareForPoll_frame cfg c now).1]
    exact ShutdownNotRelaxed_refl _
  | HandleShutdownRequest clock => exact HandleShutdownRequest_notRelaxed cfg c c1 clock h
  | HandlePauseDetected clock =>
    cases h
    unfold HandlePauseDetected
    rw [SetPauseInProgress_shutdown]
    exact ShutdownNotRelaxed_merge _ _ _
  | CheckInputQueue now pop_sem =>
    cases h
    rw [(CheckInputQueue_frame c now pop_sem).1]
    exact ShutdownNotRelaxed_refl _
  | HandleSockWriteReady built sent =>
    simp only [ApplyOp] at h
    cases hr : HandleSockWriteReady cfg c built sent with
    | error e => simp [hr, Except.map] at h
    | ok r =>
      simp only [hr, Except.map, Except.ok.injEq] at h
      subst h
      rw [(HandleSockWriteReady_shutdown cfg c built sent r hr).1]
      exact ShutdownNotRelaxed_refl _
  | HandleSockReadReady env =>
    simp only [ApplyOp] at h
    cases hr : HandleSockReadReady cfg c env with
    | error e => simp [hr, Except.map] at h
    | ok r =>
      simp only [hr, Except.map, Except.ok.injEq] at h
      subst h
      exact HandleSockReadReady_notRelaxed cfg c env r hr
  | ProcessSingleProduceResponse clock p =>
    simp only [ApplyOp] at h
    cases hr : ProcessSingleProduceResponse cfg c clock p with
    | error e => simp [hr, Except.map] at h
    | ok r =>
      simp only [hr, Except.map, Except.ok.injEq] at h
      subst h
      exact ProcessSingleProduceResponse_notRelaxed cfg c clock p r hr
  | PollReturned rs rr rp ri => cases h; exact ShutdownNotRelaxed_refl _
  | CleanExit => cases h; exact ShutdownNotRelaxed_refl _
  | SocketTimeoutExit => cases h; exact ShutdownNotRelaxed_refl _
  | Destroy => cases h; exact ShutdownNotRelaxed_refl _

theorem FastShutdownInProgress_of_merge (c : TConnector) (old : Option TInProgressShutdown)
    (deadline : Nat) (h : c.OptInProgressShutdown = some (MergeShutdown old deadline true)) :
    FastShutdownInProgress c = true := by
  unfold FastShutdownInProgress
  rw [h]
  unfold MergeShutdown
  cases old <;> simp

theorem HandleSockReadReady_shutdown (cfg : TConfig) (c : TConnector) (env : TReadEnv)
    (r : Bool × TConnector) (h : HandleSockReadReady cfg c env = .ok r) :
    r.2.OptInProgressShutdown = c.OptInProgressShutdown ∨ FastShutdownInProgress r.2 = true :=
  HandleSockReadReady_rel cfg
    (fun a b => b.OptInProgressShutdown = a.OptInProgressShutdown ∨
      FastShutdownInProgress b = true)
    (fun _ => Or.inl rfl)
    (fun a b d h1 h2 => by
      rcases h2 with h2 | h2
      · rcases h1 with h1 | h1
        · exact Or.inl (h2.trans h1)
        · right
          unfold FastShutdownInProgress at h1 ⊢
          rw [h2]
          exact h1
      · exact Or.inr h2)
    (fun a clock p r h => by
      have hs := ProcessSingleProduceResponse_shutdown cfg a clock p r h
      split at hs
      · exact Or.inr (FastShutdownInProgress_of_merge r.2 _ _ hs)
      · exact Or.inl hs)
    (fun _ => Or.inl rfl) c env r h

theorem Add64_eq_of_lt (a b : Nat) (h : a + b < 2 ^ 64) : Add64 a b = a + b :=
  Nat.mod_eq_of_lt h

/-! ## C6: how the in-progress shutdown state changes -/

/-- C6: accepting a slow shutdown with start time `s` proposes the deadline
`s + ShutdownMaxDelay` and not fast; accepting a fast shutdown, detecting a
pause, or starting a pause on a response (`SetPauseInProgress`) at clock time
`t` proposes `t + DispatcherRestartMaxDelay` and fast; the proposal is installed
when no shutdown is in progress, else the deadline becomes the minimum and the
flag the disjunction (`MergeShutdown`).  The other operations leave the state
alone (a read changes it only through `SetPauseInProgress`).  Hence over every
operation the deadline does not grow and fast stays
fast, a slow request handled during a fast shutdown leaves it fast, and slow
followed by fast ends fast with the minimum of the two deadlines.  The sums are
the 64-bit sums of the code, which are the plain sums whenever these fit. -/
theorem InProgressShutdown_transitions (cfg : TConfig) (c : TConnector) :
    (∀ clock s, c.Destroying = false →
        c.OptShutdownCmd = some { OptSlowShutdownStartTime := some s } →
        ∃ c1, HandleShutdownRequest cfg c clock = .ok c1 ∧
          c1.OptInProgressShutdown =
            some (MergeShutdown c.OptInProgressShutdown (Add64 s cfg.ShutdownMaxDelay) false)) ∧
    (∀ clock, c.Destroying = false →
        c.OptShutdownCmd = some { OptSlowShutdownStartTime := none } →
        ∃ c1, HandleShutdownRequest cfg c clock = .ok c1 ∧
          c1.OptInProgressShutdown =
            some (MergeShutdown c.OptInProgressShutdown
              (Add64 clock cfg.DispatcherRestartMaxDelay) true)) ∧
    (∀ clock, (HandlePauseDetected cfg c clock).OptInProgressShutdown =
        some (MergeShutdown c.OptInProgressShutdown
          (Add64 clock cfg.DispatcherRestartMaxDelay) true)) ∧
    (∀ clock p r, ProcessSingleProduceResponse cfg c clock p = .ok r →
        r.2.OptInProgressShutdown =
          if p.Action = some .PauseAndDeferFinish then
            some (MergeShutdown c.OptInProgressShutdown
              (Add64 clock cfg.DispatcherRestartMaxDelay) true)
          else c.OptInProgressShutdown) ∧
    (∀ now pop_sem,
        (CheckInputQueue c now pop_sem).OptInProgressShutdown = c.OptInProgressShutdown) ∧
    (∀ now, (PrepareForPoll cfg c now).2.2.OptInProgressShutdown = c.OptInProgressShutdown) ∧
    (∀ built sent r, HandleSockWriteReady cfg c built sent = .ok r →
        r.2.OptInProgressShutdown = c.OptInProgressShutdown) ∧
    (∀ env r, HandleSockReadReady cfg c env = .ok r →
        r.2.OptInProgressShutdown = c.OptInProgressShutdown ∨
          FastShutdownInProgress r.2 = true) ∧
    (∀ op c1, ApplyOp cfg c op = .ok c1 →
        ShutdownNotRelaxed c.OptInProgressShutdown c1.OptInProgressShutdown) ∧
    (∀ clock s c1, FastShutdownInProgress c = true →
        c.OptShutdownCmd = some { OptSlowShutdownStartTime := some s } →
        HandleShutdownRequest cfg c clock = .ok c1 → FastShutdownInProgress c1 = true) ∧
    (∀ t1 s t2 c1 c2 c3, c.OptInProgressShutdown = none →
        c.OptShutdownCmd = some { OptSlowShutdownStartTime := some s } →
        HandleShutdownRequest cfg c t1 = .ok c1 →
        c2.OptInProgressShutdown = c1.OptInProgressShutdown →
        c2.OptShutdownCmd = some { OptSlowShutdownStartTime := none } →
        HandleShutdownRequest cfg c2 t2 = .ok c3 →
        c3.OptInProgressShutdown =
          some { Deadline := min (Add64 s cfg.ShutdownMaxDelay)
                               (Add64 t2 cfg.DispatcherRestartMaxDelay),
                 FastShutdown := true }) ∧
    (∀ a b, a + b < 2 ^ 64 → Add64 a b = a + b) := by
  refine ⟨?_, ?_, ?_, ?_, ?_, ?_, ?_, ?_, ?_, ?_, ?_, ?_⟩
  · intro clock s hd hc
    obtain ⟨c1, h1, h2, -⟩ := HandleShutdownRequest_slow cfg c clock s hd hc
    exact ⟨c1, h1, h2⟩
  · intro clock hd hc
    obtain ⟨c1, h1, h2, -⟩ := HandleShutdownRequest_fast cfg c clock hd hc
    exact ⟨c1, h1, h2⟩
  · intro clock
    exact SetPauseInProgress_shutdown cfg c clock
  · intro clock p r h
    exact ProcessSingleProduceResponse_shutdown cfg c clock p r h
  · intro now pop_sem
    exact (CheckInputQueue_frame c now pop_sem).1
  · intro now
    exact (PrepareForPoll_frame cfg c now).1
  · intro built sent r h
    exact (HandleSockWriteReady_shutdown cfg c built sent r h).1
  · intro env r h
    exact HandleSockReadReady_shutdown cfg c env r h
  · intro op c1 h
    exact ApplyOp_notRelaxed cfg c c1 op h
  · intro clock s c1 hf hc h
    obtain ⟨hd, -⟩ := HandleShutdownRequest_ok cfg c c1 clock h
    obtain ⟨c2, h2, h3, -⟩ := HandleShutdownRequest_slow cfg c clock s hd hc
    rw [h] at h2
    cases h2
    unfold FastShutdownInProgress at hf ⊢
    rw [h3]
    unfold MergeShutdown
    cases ho : c.OptInProgressShutdown with
    | none => simp [ho] at hf
    | some o =>
      simp only [ho] at hf
      simp [hf]
  · intro t1 s t2 c1 c2 c3 hnone hc h1 h12 hc2 h2
    obtain ⟨hd, -⟩ := HandleShutdownRequest_ok cfg c c1 t1 h1
    obtain ⟨c1x, e1, e2, -⟩ := HandleShutdownRequest_slow cfg c t1 s hd hc
    rw [h1] at e1
    cases e1
    obtain ⟨hd2, -⟩ := HandleShutdownRequest_ok cfg c2 c3 t2 h2
    obtain ⟨c3x, e3, e4, -⟩ := HandleShutdownRequest_fast cfg c2 t2 hd2 hc2
    rw [h2] at e3
    cases e3
    rw [e4, h12, e2, hnone]
    simp [MergeShutdown]
  · exact Add64_eq_of_lt

theorem InProgressShutdown_transitions_witness :
    ∃ c1, HandleShutdownRequest ExampleConfig
        (StartSlowShutdown (NewConnector 3 4 5 PollArrayIdle) 200) 250 = .ok c1 ∧
      c1.OptInProgressShutdown = some { Deadline := 700, FastShutdown := false } :=
  (InProgressShutdown_transitions ExampleConfig
    (StartSlowShutdown (NewConnector 3 4 5 PollArrayIdle) 200)).1 250 200 rfl rfl

/-! ## C7: a pause implies a fast shutdown -/

theorem PrepareForPollAssertion_iff (c : TConnector) :
    PrepareForPollAssertion c = true ↔
      (c.PauseInProgress = true →
        ∃ s, c.OptInProgressShutdown = some s ∧ s.FastShutdown = true) := by
  unfold PrepareForPollAssertion
  cases c.PauseInProgress <;> cases c.OptInProgressShutdown <;> simp

theorem PrepareForPollAssertion_of_frame (c c1 : TConnector)
    (h1 : c1.OptInProgressShutdown = c.OptInProgressShutdown)
    (h2 : c1.PauseInProgress = c.PauseInProgress)
    (h : PrepareForPollAssertion c = true) : PrepareForPollAssertion c1 = true := by
  unfold PrepareForPollAssertion at h ⊢
  rw [h1, h2]
  exact h

theorem PrepareForPollAssertion_of_merge_fast (c1 : TConnector)
    (old : Option TInProgressShutdown) (deadline : Nat)
    (h1 : c1.OptInProgressShutdown = some (MergeShutdown old deadline true)) :
    PrepareForPollAssertion c1 = true := by
  unfold PrepareForPollAssertion
  rw [h1]
  unfold MergeShutdown
  cases old <;> simp

theorem HandleShutdownRequest_assertion (cfg : TConfig) (c c1 : TConnector) (clock : Nat)
    (h : HandleShutdownRequest cfg c clock = .ok c1)
    (hi : PrepareForPollAssertion c = true) : PrepareForPollAssertion c1 = true := by
  obtain ⟨hd, cmd, hc⟩ := HandleShutdownRequest_ok cfg c c1 clock h
  obtain ⟨start⟩ := cmd
  cases start with
  | none =>
    obtain ⟨c2, h2, h3, -⟩ := HandleShutdownRequest_fast cfg c clock hd hc
    rw [h] at h2
    cases h2
    exact PrepareForPollAssertion_of_merge_fast c1 _ _ h3
  | some s =>
    obtain ⟨c2, h2, h3, h4⟩ := HandleShutdownRequest_slow cfg c clock s hd hc
    rw [h] at h2
    cases h2
    unfold PrepareForPollAssertion at hi ⊢
    rw [h3, h4]
    unfold MergeShutdown
    cases ho : c.OptInProgressShutdown with
    | none => simpa [ho] using hi
    | some o => simpa [ho] using hi

theorem ProcessSingleProduceResponse_assertion (cfg : TConfig) (c : TConnector) (clock : Nat)
    (p : TProcessorOutcome) (r : Bool × TConnector)
    (h : ProcessSingleProduceResponse cfg c clock p = .ok r)
    (hi : PrepareForPollAssertion c = true) : PrepareForPollAssertion r.2 = true := by
  have hs := ProcessSingleProduceResponse_shutdown cfg c clock p r h
  by_cases ha : p.Action = some .PauseAndDeferFinish
  · rw [if_pos ha] at hs
    exact PrepareForPollAssertion_of_merge_fast r.2 _ _ hs
  · rw [if_neg ha] at hs
    refine PrepareForPollAssertion_of_frame c r.2 hs ?_ hi
    unfold ProcessSingleProduceResponse at h
    split at h
    · cases h
    · simp only [Except.ok.injEq] at h
      rw [← h]
      cases hp : p.Action with
      | none => simp
      | some a => cases a <;> simp_all

theorem HandleSockReadReady_assertion (cfg : TConfig) (c : TConnector) (env : TReadEnv)
    (r : Bool × TConnector) (h : HandleSockReadReady cfg c env = .ok r)
    (hi : PrepareForPollAssertion c = true) : PrepareForPollAssertion r.2 = true :=
  HandleSockReadReady_rel cfg
    (fun a b => PrepareForPollAssertion a = true → PrepareForPollAssertion b = true)
    (fun _ h => h)
    (fun _ _ _ h1 h2 h => h2 (h1 h))
    (fun a clock p r h => ProcessSingleProduceResponse_assertion cfg a clock p r h)
    (fun _ h => h) c env r h hi

theorem ApplyOp_assertion (cfg : TConfig) (c c1 : TConnector) (op : TOp)
    (h : ApplyOp cfg c op = .ok c1) (hi : PrepareForPollAssertion c = true) :
    PrepareForPollAssertion c1 = true := by
  cases op with
  | StartSlowShutdown s => cases h; exact hi
  | StartFastShutdown => cases h; exact hi
  | WaitForShutdownAck => cases h; exact hi
  | Enqueue e m => cases h; exact hi
  | ConnectToBroker fd =>
    cases h
    exact PrepareForPollAssertion_of_frame c _ (ConnectToBroker_frame c fd).1
      (ConnectToBroker_frame c fd).2.1 hi
  | PrepareForPoll now =>
    cases h
    exact PrepareForPollAssertion_of_frame c _ (PrepareForPoll_frame cfg c now).1
      (PrepareForPoll_frame cfg c now).2.1 hi
  | HandleShutdownRequest clock => exact HandleShutdownRequest_assertion cfg c c1 clock h hi
  | HandlePauseDetected clock =>
    cases h
    exact PrepareForPollAssertion_of_merge_fast _ _ _ (SetPauseInProgress_shutdown cfg c clock)
  | CheckInputQueue now pop_sem =>
    cases h
    exact PrepareForPollAssertion_of_frame c _ (CheckInputQueue_frame c now pop_sem).1
      (CheckInputQueue_frame c now pop_sem).2.1 hi
  | HandleSockWriteReady built sent =>
    simp only [ApplyOp] at h
    cases hr : HandleSockWriteReady cfg c built sent with
    | error e => simp [hr, Except.map] at h
    | ok r =>
      simp only [hr, Except.map, Except.ok.injEq] at h
      subst h
      exact PrepareForPollAssertion_of_frame c _
        (HandleSockWriteReady_shutdown cfg c built sent r hr).1
        (HandleSockWriteReady_shutdown cfg c built sent r hr).2 hi
  | HandleSockReadReady env =>
    simp only [ApplyOp] at h
    cases hr : HandleSockReadReady cfg c env with
    | error e => simp [hr, Except.map] at h
    | ok r =>
      simp only [hr, Except.map, Except.ok.injEq] at h
      subst h
      exact HandleSockReadReady_assertion cfg c env r hr hi
  | ProcessSingleProduceResponse clock p =>
    simp only [ApplyOp] at h
    cases hr : ProcessSingleProduceResponse cfg c clock p with
    | error e => simp [hr, Except.map] at h
    | ok r =>
      simp only [hr, Except.map, Except.ok.injEq] at h
      subst h
      exact ProcessSingleProduceResponse_assertion cfg c clock p r hr hi
  | PollReturned rs rr rp ri => cases h; exact hi
  | CleanExit => cases h; exact hi
  | SocketTimeoutExit => cases h; exact hi
  | Destroy => cases h; exact hi

/-- C7: in every state reachable from a newly constructed connector by operations
(among them `HandleShutdownRequest` with a slow or a fast command,
`HandlePauseDetected`, `CheckInputQueue`, `HandleSockWriteReady`,
`HandleSockReadReady` and `ProcessSingleProduceResponse`), `PauseInProgress`
implies that `OptInProgressShutdown` is set with `FastShutdown` true, so the
assertion at the top of `PrepareForPoll` holds. -/
theorem PauseInProgress_implies_FastShutdown (cfg : TConfig) (c : TConnector)
    (h : Reachable cfg c) :
    (c.PauseInProgress = true →
        ∃ s, c.OptInProgressShutdown = some s ∧ s.FastShutdown = true) ∧
      PrepareForPollAssertion c = true := by
  have key : PrepareForPollAssertion c = true := by
    induction h with
    | init a b d arr => rfl
    | step c0 c1 op _ hstep ih => exact ApplyOp_assertion cfg c0 c1 op hstep ih
  exact ⟨(PrepareForPollAssertion_iff c).mp key, key⟩

theorem PauseInProgress_implies_FastShutdown_witness :
    (HandlePauseDetected ExampleConfig (NewConnector 3 4 5 PollArrayIdle) 1000).PauseInProgress
        = true ∧
      PrepareForPollAssertion
        (HandlePauseDetected ExampleConfig (NewConnector 3 4 5 PollArrayIdle) 1000) = true :=
  ⟨rfl,
   (PauseInProgress_implies_FastShutdown ExampleConfig
      (HandlePauseDetected ExampleConfig (NewConnector 3 4 5 PollArrayIdle) 1000)
      (Reachable.step (NewConnector 3 4 5 PollArrayIdle) _ (.HandlePauseDetected 1000)
        (Reachable.init 3 4 5 PollArrayIdle) rfl)).2⟩

/-! ## The loop stays within the reachable states -/

theorem Reachable_write (cfg : TConfig) (c : TConnector) (built : TBuildResult)
    (sent : TSendResult) (r : Bool × TConnector) (hc : Reachable cfg c)
    (h : HandleSockWriteReady cfg c built sent = .ok r) : Reachable cfg r.2 :=
  Reachable.step c r.2 (.HandleSockWriteReady built sent) hc (by simp [ApplyOp, h, Except.map])

theorem Reachable_read (cfg : TConfig) (c : TConnector) (env : TReadEnv)
    (r : Bool × TConnector) (hc : Reachable cfg c)
    (h : HandleSockReadReady cfg c env = .ok r) : Reachable cfg r.2 :=
  Reachable.step c r.2 (.HandleSockReadReady env) hc (by simp [ApplyOp, h, Except.map])

theorem HandleSockEvents_reachable (cfg : TConfig) (c : TConnector) (sock_events : Nat)
    (env : TIterEnv) (trace : List THandler) (c1 : TConnector) (hc : Reachable cfg c)
    (h : (HandleSockEvents cfg c sock_events env trace).Step = .Continue c1 ∨
      (HandleSockEvents cfg c sock_events env trace).Step = .Break c1) :
    Reachable cfg c1 := by
  unfold HandleSockEvents at h
  have hw : ∀ r, (if sock_events &&& POLLOUT ≠ 0 then
        (HandleSockWriteReady cfg c env.Build env.Send, trace ++ [THandler.HandleSockWriteReady])
      else (Except.ok (true, c), trace)).1 = .ok r → Reachable cfg r.2 := by
    intro r hr
    split at hr
    · exact Reachable_write cfg c _ _ r hc hr
    · cases hr
      exact hc
  generalize (if sock_events &&& POLLOUT ≠ 0 then
        (HandleSockWriteReady cfg c env.Build env.Send, trace ++ [THandler.HandleSockWriteReady])
      else (Except.ok (true, c), trace)) = w at h hw
  obtain ⟨w1, w2⟩ := w
  cases w1 with
  | error e => simp at h
  | ok r =>
    obtain ⟨b, c3⟩ := r
    have h3 : Reachable cfg c3 := hw (b, c3) rfl
    cases b with
    | false =>
      simp at h
      subst h
      exact h3
    | true =>
      simp only at h
      split at h
      · cases hr : HandleSockReadReady cfg c3 env.Read with
        | error e => simp [hr] at h
        | ok r4 =>
          obtain ⟨b4, c4⟩ := r4
          have h4 : Reachable cfg c4 := Reachable_read cfg c3 env.Read (b4, c4) h3 hr
          cases b4 <;> simp [hr] at h <;> subst h <;> exact h4
      · simp at h
        subst h
        exact h3

theorem MainLoopIteration_reachable (cfg : TConfig) (c : TConnector) (env : TIterEnv)
    (c1 : TConnector) (hc : Reachable cfg c)
    (h : (MainLoopIteration cfg c env).Step = .Continue c1 ∨
      (MainLoopIteration cfg c env).Step = .Break c1) :
    Reachable cfg c1 := by
  have hp : Reachable cfg (PrepareForPoll cfg c env.StartTime).2.2 :=
    Reachable.step c _ (.PrepareForPoll env.StartTime) hc rfl
  unfold MainLoopIteration at h
  simp only at h
  split at h
  · simp at h
    subst h
    exact Reachable.step _ _ .CleanExit hp rfl
  · split at h
    · simp at h
    · rename_i rs rr rp ri _
      have hq : Reachable cfg (PollReturned (PrepareForPoll cfg c env.StartTime).2.2 rs rr rp ri) :=
        Reachable.step _ _ (.PollReturned rs rr rp ri) hp rfl
      generalize PollReturned (PrepareForPoll cfg c env.StartTime).2.2 rs rr rp ri = c2 at h hq
      split at h
      · split at h
        · simp at h
          subst h
          exact Reachable.step _ _ .SocketTimeoutExit hq rfl
        · split at h
          · simp at h
            subst h
            exact Reachable.step _ _ .CleanExit hq rfl
          · simp at h
            subst h
            exact Reachable.step _ _ (.CheckInputQueue _ false) hq rfl
      · split at h
        · cases hr : HandleShutdownRequest cfg c2 env.HandlerClock with
          | error e => simp [hr] at h
          | ok c3 =>
            simp [hr] at h
            subst h
            exact Reachable.step _ _ (.HandleShutdownRequest env.HandlerClock) hq hr
        · split at h
          · simp at h
            subst h
            exact Reachable.step _ _ (.HandlePauseDetected env.HandlerClock) hq rfl
          · split at h
            · exact HandleSockEvents_reachable cfg _ _ env _ c1
                (Reachable.step _ _ (.CheckInputQueue _ true) hq rfl) h
            · exact HandleSockEvents_reachable cfg _ _ env _ c1 hq h

/-! ## C10: no ACK is awaited when none is required -/

theorem HandleShutdownRequest_AckWaitQueue (cfg : TConfig) (c c1 : TConnector) (clock : Nat)
    (h : HandleShutdownRequest cfg c clock = .ok c1) : c1.AckWaitQueue = c.AckWaitQueue := by
  unfold HandleShutdownRequest at h
  cases hd : c.Destroying with
  | true => simp [hd] at h
  | false =>
    cases hc : c.OptShutdownCmd with
    | none => simp [hd, hc] at h
    | some cmd =>
      obtain ⟨start⟩ := cmd
      simp only [hd, hc, Bool.false_eq_true, if_false, Except.ok.injEq] at h
      rw [← h]
      cases start with
      | none => exact SetFastShutdownState_AckWaitQueue cfg c clock
      | some s => cases ho : c.OptInProgressShutdown <;> simp [ho]

theorem HandleSockWriteReady_AckWaitQueue (cfg : TConfig) (c : TConnector)
    (built : TBuildResult) (sent : TSendResult) (r : Bool × TConnector)
    (h0 : cfg.RequiredAcks = 0)
    (h : HandleSockWriteReady cfg c built sent = .ok r) :
    r.2.AckWaitQueue = c.AckWaitQueue := by
  obtain ⟨-, -, f3, -⟩ := StartOrContinueSend_frame c built
  rcases HandleSockWriteReady_cases cfg c built sent r h with
    ⟨-, rfl⟩ | ⟨-, -, rfl⟩ | ⟨-, n, -, -, rfl⟩ | ⟨-, n, request, -, -, -, rfl⟩
  · exact f3
  · exact f3
  · exact f3
  · simp [h0, f3]

theorem ApplyOp_AckWaitQueue_empty (cfg : TConfig) (c c1 : TConnector) (op : TOp)
    (h0 : cfg.RequiredAcks = 0)
    (h : ApplyOp cfg c op = .ok c1) (hi : c.AckWaitQueue = []) : c1.AckWaitQueue = [] := by
  cases op with
  | StartSlowShutdown s => cases h; exact hi
  | StartFastShutdown => cases h; exact hi
  | WaitForShutdownAck => cases h; exact hi
  | Enqueue e m => cases h; exact hi
  | ConnectToBroker fd =>
    cases h
    rw [(ConnectToBroker_frame c fd).2.2]
    exact hi
  | PrepareForPoll now =>
    cases h
    rw [(PrepareForPoll_frame cfg c now).2.2]
    exact hi
  | HandleShutdownRequest clock =>
    rw [HandleShutdownRequest_AckWaitQueue cfg c c1 clock h]
    exact hi
  | HandlePauseDetected clock =>
    cases h
    unfold HandlePauseDetected SetPauseInProgress
    rw [SetFastShutdownState_AckWaitQueue]
    exact hi
  | CheckInputQueue now pop_sem =>
    cases h
    rw [(CheckInputQueue_frame c now pop_sem).2.2]
    exact hi
  | HandleSockWriteReady built sent =>
    simp only [ApplyOp] at h
    cases hr : HandleSockWriteReady cfg c built sent with
    | error e => simp [hr, Except.map] at h
    | ok r =>
      simp only [hr, Except.map, Except.ok.injEq] at h
      subst h
      rw [HandleSockWriteReady_AckWaitQueue cfg c built sent r h0 hr]
      exact hi
  | HandleSockReadReady env =>
    simp only [ApplyOp] at h
    cases hr : HandleSockReadReady cfg c env with
    | error e => simp [hr, Except.map] at h
    | ok r =>
      simp only [hr, Except.map, Except.ok.injEq] at h
      subst h
      exact HandleSockReadReady_rel cfg
        (fun a b => a.AckWaitQueue = [] → b.AckWaitQueue = [])
        (fun _ h => h)
        (fun _ _ _ h1 h2 h => h2 (h1 h))
        (fun a clock p r h hq => by
          obtain ⟨request, hreq⟩ := ProcessSingleProduceResponse_queue cfg a clock p r h
          rw [hq] at hreq
          cases hreq)
        (fun _ h => h) c env r hr hi
  | ProcessSingleProduceResponse clock p =>
    simp only [ApplyOp] at h
    cases hr : ProcessSingleProduceResponse cfg c clock p with
    | error e => simp [hr, Except.map] at h
    | ok r =>
      obtain ⟨request, hreq⟩ := ProcessSingleProduceResponse_queue cfg c clock p r hr
      rw [hi] at hreq
      cases hreq
  | PollReturned rs rr rp ri => cases h; exact hi
  | CleanExit => cases h; exact hi
  | SocketTimeoutExit => cases h; exact hi
  | Destroy => cases h; exact hi

theorem Revents_and_POLLIN (item : TPollFd) (reported : Nat)
    (h : item.events &&& POLLIN = 0) : Revents item reported &&& POLLIN = 0 := by
  unfold Revents
  split
  · simp
  · have hm : (item.events ||| POLLERR ||| POLLHUP ||| POLLNVAL) &&& POLLIN = 0 := by
      rw [Nat.and_comm, Nat.and_or_distrib_left, Nat.and_or_distrib_left,
        Nat.and_or_distrib_left, Nat.and_comm POLLIN item.events, h]
      decide
    rw [Nat.and_assoc, hm]
    simp

theorem HandleSockEvents_no_read (cfg : TConfig) (c : TConnector) (sock_events : Nat)
    (env : TIterEnv) (trace : List THandler) (hs : sock_events &&& POLLIN = 0)
    (ht : THandler.HandleSockReadReady ∉ trace) :
    THandler.HandleSockReadReady ∉ (HandleSockEvents cfg c sock_events env trace).Trace := by
  unfold HandleSockEvents
  simp only [hs, ne_eq, not_true_eq_false, if_false]
  split <;> split <;> simp [ht]

theorem PrepareForPoll_no_POLLIN (cfg : TConfig) (c : TConnector) (now : Nat)
    (hp : (PrepareForPoll cfg c now).1 = true) (hq : c.AckWaitQueue = []) :
    (PrepareForPoll cfg c now).2.2.MainLoopPollArray.SockIo.events &&& POLLIN = 0 ∧
      WatchSockRead (PrepareForPoll cfg c now).2.2.MainLoopPollArray = false := by
  rw [PrepareForPoll_fst] at hp
  cases hn : PollNeeds c with
  | none => simp [hn] at hp
  | some n =>
    obtain ⟨w, st, bt⟩ := n
    have h := (PrepareForPoll_events cfg c now w st bt hn).2.1
    rw [hq] at h
    have h0 : (PrepareForPoll cfg c now).2.2.MainLoopPollArray.SockIo.events &&& POLLIN = 0 := by
      simpa using h
    refine ⟨h0, ?_⟩
    unfold WatchSockRead
    simp [h0]

theorem MainLoopIteration_no_read (cfg : TConfig) (c : TConnector) (env : TIterEnv)
    (hq : c.AckWaitQueue = []) :
    THandler.HandleSockReadReady ∉ (MainLoopIteration cfg c env).Trace := by
  unfold MainLoopIteration
  simp only
  split
  · simp
  · rename_i hp
    have hp1 : (PrepareForPoll cfg c env.StartTime).1 = true := by simpa using hp
    have hev : (PrepareForPoll cfg c env.StartTime).2.2.MainLoopPollArray.SockIo.events &&&
        POLLIN = 0 := (PrepareForPoll_no_POLLIN cfg c env.StartTime hp1 hq).1
    split
    · simp
    · rename_i rs rr rp ri _
      have hre : (PollReturned (PrepareForPoll cfg c env.StartTime).2.2 rs rr rp
          ri).MainLoopPollArray.SockIo.revents &&& POLLIN = 0 :=
        Revents_and_POLLIN _ rs hev
      generalize PollReturned (PrepareForPoll cfg c env.StartTime).2.2 rs rr rp ri = c2 at hre ⊢
      split
      · split
        · simp
        · split <;> simp
      · split
        · split <;> simp
        · split
          · simp
          · split
            · exact HandleSockEvents_no_read cfg _ _ env _ hre (by simp)
            · exact HandleSockEvents_no_read cfg _ _ env _ hre (by simp)

/-- C10: if `RequiredAcks` is 0 then in every reachable state `AckWaitQueue` is
empty; `HandleSockWriteReady` leaves it empty, also when it has sent the last
byte of a request, which it then drops; `PrepareForPoll` does not request
`POLLIN` for the socket, so does not watch it for reading; and no iteration of
the loop calls `HandleSockReadReady`. -/
theorem RequiredAcks_zero_no_AckWait (cfg : TConfig) (c : TConnector)
    (h0 : cfg.RequiredAcks = 0) (h : Reachable cfg c) :
    c.AckWaitQueue = [] ∧
      (∀ built sent r, HandleSockWriteReady cfg c built sent = .ok r →
        r.2.AckWaitQueue = [] ∧ (r.1 = true → r.2.SendBuf = [] → r.2.CurrentRequest = none)) ∧
      (∀ now, (PrepareForPoll cfg c now).1 = true →
        (PrepareForPoll cfg c now).2.2.MainLoopPollArray.SockIo.events &&& POLLIN = 0 ∧
          WatchSockRead (PrepareForPoll cfg c now).2.2.MainLoopPollArray = false) ∧
      (∀ env, THandler.HandleSockReadReady ∉ (MainLoopIteration cfg c env).Trace) := by
  have key : c.AckWaitQueue = [] := by
    induction h with
    | init a b d arr => rfl
    | step c0 c1 op _ hstep ih => exact ApplyOp_AckWaitQueue_empty cfg c0 c1 op h0 hstep ih
  refine ⟨key, ?_, ?_, ?_⟩
  · intro built sent r hr
    refine ⟨by rw [HandleSockWriteReady_AckWaitQueue cfg c built sent r h0 hr, key], ?_⟩
    intro h1 h2
    rcases HandleSockWriteReady_cases cfg c built sent r hr with
      ⟨hgo, rfl⟩ | ⟨-, -, rfl⟩ | ⟨-, n, -, hne, rfl⟩ | ⟨-, n, request, -, -, -, rfl⟩
    · unfold StartOrContinueSend at hgo ⊢
      cases hs : SendInProgress c <;> cases hb : built.Request <;> simp [hs, hb] at hgo ⊢
    · cases h1
    · exact absurd h2 hne
    · rfl
  · intro now hp
    exact PrepareForPoll_no_POLLIN cfg c now hp key
  · intro env
    exact MainLoopIteration_no_read cfg c env key

theorem RequiredAcks_zero_no_AckWait_witness :
    ∃ c1, HandleSockWriteReady ZeroAcksConfig IdleWithPending ExampleBuild (.Sent 3)
        = .ok (true, c1) ∧ c1.AckWaitQueue = [] ∧ c1.CurrentRequest = none :=
  have h := (RequiredAcks_zero_no_AckWait ZeroAcksConfig IdleWithPending rfl
    (Reachable.step _ _ (.CheckInputQueue 20 true)
      (Reachable.step _ _ (.Enqueue 10 [1, 2]) (Reachable.init 3 4 5 PollArrayIdle) rfl)
      rfl)).2.1 ExampleBuild (.Sent 3) _ rfl
  ⟨_, rfl, h.1, h.2 rfl rfl⟩

/-! ## C8: a request enters AckWaitQueue when its last byte is sent -/

theorem SendInProgress_iff (c : TConnector) : SendInProgress c = true ↔ c.SendBuf ≠ [] := by
  unfold SendInProgress
  cases c.SendBuf <;> simp

theorem HandleSockWriteReady_continue (cfg : TConfig) (c : TConnector) (built : TBuildResult)
    (n : Nat) (request : TProduceRequest) (hacks : cfg.RequiredAcks ≠ 0)
    (hs : SendInProgress c = true) (hr : c.CurrentRequest = some request) :
    HandleSockWriteReady cfg c built (.Sent n) =
      .ok (true,
        if c.SendBuf.drop n = [] then
          { c with SendBuf := [], AckWaitQueue := c.AckWaitQueue ++ [request],
                   CurrentRequest := none }
        else { c with SendBuf := c.SendBuf.drop n }) := by
  unfold HandleSockWriteReady StartOrContinueSend TrySendProduceRequest
  simp only [hs, Bool.not_true, Bool.false_eq_true, if_false]
  unfold SendInProgress
  cases hd : c.SendBuf.drop n with
  | nil => simp [hd, hr, hacks]
  | cons x xs => simp [hd]

theorem HandleSockWriteReady_start (cfg : TConfig) (c : TConnector) (built : TBuildResult)
    (n : Nat) (request : TProduceRequest) (hacks : cfg.RequiredAcks ≠ 0)
    (hs : SendInProgress c = false) (hr : built.Request = some request) :
    HandleSockWriteReady cfg c built (.Sent n) =
      .ok (true,
        if built.Buf.drop n = [] then
          { c with SendBuf := [], AckWaitQueue := c.AckWaitQueue ++ [request],
                   CurrentRequest := none, RequestFactory := built.Factory }
        else
          { c with SendBuf := built.Buf.drop n, CurrentRequest := some request,
                   RequestFactory := built.Factory }) := by
  unfold HandleSockWriteReady StartOrContinueSend TrySendProduceRequest
  simp only [hs, hr, Bool.not_false, Bool.not_true, Bool.false_eq_true, if_false, if_true]
  unfold SendInProgress
  cases hd : built.Buf.drop n with
  | nil => simp [hd, hacks]
  | cons x xs => simp [hd]

theorem WriteCalls_append (cfg : TConfig) (xs ys : List (TBuildResult × Nat)) :
    ∀ c c1, WriteCalls cfg c xs = .ok c1 → WriteCalls cfg c (xs ++ ys) = WriteCalls cfg c1 ys := by
  induction xs with
  | nil =>
    intro c c1 h
    simp only [WriteCalls, Except.ok.injEq] at h
    subst h
    rfl
  | cons x xs ih =>
    intro c c1 h
    obtain ⟨built, n⟩ := x
    simp only [WriteCalls, List.cons_append] at h ⊢
    cases hr : HandleSockWriteReady cfg c built (.Sent n) with
    | error e => simp [hr] at h
    | ok r =>
      simp only [hr] at h ⊢
      exact ih r.2 c1 h

theorem WriteCalls_partial (cfg : TConfig) (hacks : cfg.RequiredAcks ≠ 0)
    (request : TProduceRequest) (calls : List (TBuildResult × Nat)) :
    ∀ c : TConnector, c.CurrentRequest = some request →
      (calls.map Prod.snd).sum < c.SendBuf.length →
      ∃ c1, WriteCalls cfg c calls = .ok c1 ∧ c1.AckWaitQueue = c.AckWaitQueue ∧
        c1.CurrentRequest = some request ∧
        c1.SendBuf = c.SendBuf.drop (calls.map Prod.snd).sum := by
  induction calls with
  | nil =>
    intro c hr _
    exact ⟨c, rfl, rfl, hr, by simp⟩
  | cons x xs ih =>
    intro c hr hlt
    obtain ⟨built, n⟩ := x
    simp only [List.map_cons, List.sum_cons] at hlt ⊢
    have hs : SendInProgress c = true := by
      rw [SendInProgress_iff]
      intro h0
      rw [h0] at hlt
      simp at hlt
    have hne : c.SendBuf.drop n ≠ [] := by
      intro h0
      have := List.drop_eq_nil_iff.mp h0
      omega
    have hstep := HandleSockWriteReady_continue cfg c built n request hacks hs hr
    rw [if_neg hne] at hstep
    have hlt2 : (xs.map Prod.snd).sum < ({ c with SendBuf := c.SendBuf.drop n } : TConnector).SendBuf.length := by
      simp only [List.length_drop]
      omega
    obtain ⟨c1, h1, h2, h3, h4⟩ := ih { c with SendBuf := c.SendBuf.drop n } hr hlt2
    refine ⟨c1, ?_, h2, h3, ?_⟩
    · simp only [WriteCalls, hstep]
      exact h1
    · rw [h4]
      simp only [List.drop_drop]

theorem WriteCalls_split (cfg : TConfig) (hacks : cfg.RequiredAcks ≠ 0) (c : TConnector)
    (request : TProduceRequest) (calls : List (TBuildResult × Nat)) (built : TBuildResult)
    (n : Nat) (hr : c.CurrentRequest = some request)
    (hlt : (calls.map Prod.snd).sum < c.SendBuf.length)
    (hle : c.SendBuf.length ≤ (calls.map Prod.snd).sum + n) :
    (∃ c1, WriteCalls cfg c calls = .ok c1 ∧ c1.AckWaitQueue = c.AckWaitQueue ∧
        c1.CurrentRequest = some request) ∧
      (∃ c2, WriteCalls cfg c (calls ++ [(built, n)]) = .ok c2 ∧
        c2.AckWaitQueue = c.AckWaitQueue ++ [request] ∧ c2.CurrentRequest = none ∧
        c2.SendBuf = []) := by
  obtain ⟨c1, h1, h2, h3, h4⟩ := WriteCalls_partial cfg hacks request calls c hr hlt
  refine ⟨⟨c1, h1, h2, h3⟩, ?_⟩
  have hne : c1.SendBuf ≠ [] := by
    rw [h4]
    intro h0
    have := List.drop_eq_nil_iff.mp h0
    omega
  have hs : SendInProgress c1 = true := (SendInProgress_iff c1).mpr hne
  have hd : c1.SendBuf.drop n = [] := by
    rw [h4, List.drop_drop]
    apply List.drop_eq_nil_iff.mpr
    omega
  have hstep := HandleSockWriteReady_continue cfg c1 built n request hacks hs h3
  rw [if_pos hd] at hstep
  refine ⟨{ c1 with SendBuf := [], AckWaitQueue := c1.AckWaitQueue ++ [request],
                      CurrentRequest := none }, ?_, ?_, rfl, rfl⟩
  · rw [WriteCalls_append cfg calls [(built, n)] c c1 h1]
    simp only [WriteCalls, hstep]
  · simp [h2]

/-- C8: with `RequiredAcks` not 0, a call of `HandleSockWriteReady` whose send
succeeds returns `true`; if unsent bytes remain it leaves `AckWaitQueue` as it
was and keeps the current request; if the buffer is drained it appends the
current request at the back of `AckWaitQueue` and empties `CurrentRequest`.
Hence, however one request is split into partial writes, the queue is
unchanged and the request kept after every write that leaves bytes unsent, and
the write that sends the last byte appends the request, once, at the back. -/
theorem HandleSockWriteReady_pushes_once (cfg : TConfig) (c : TConnector)
    (hacks : cfg.RequiredAcks ≠ 0) :
    (∀ built n r, (StartOrContinueSend c built).2 = true →
        HandleSockWriteReady cfg c built (.Sent n) = .ok r →
        r.1 = true ∧
        (r.2.SendBuf ≠ [] →
          r.2.AckWaitQueue = c.AckWaitQueue ∧
          r.2.CurrentRequest = (StartOrContinueSend c built).1.CurrentRequest) ∧
        (r.2.SendBuf = [] →
          ∃ request, (StartOrContinueSend c built).1.CurrentRequest = some request ∧
            r.2.AckWaitQueue = c.AckWaitQueue ++ [request] ∧ r.2.CurrentRequest = none)) ∧
    (∀ built n request, SendInProgress c = true → c.CurrentRequest = some request →
        ∃ c1, HandleSockWriteReady cfg c built (.Sent n) = .ok (true, c1) ∧
          c1.SendBuf = c.SendBuf.drop n ∧
          (c1.SendBuf ≠ [] →
            c1.AckWaitQueue = c.AckWaitQueue ∧ c1.CurrentRequest = some request) ∧
          (c1.SendBuf = [] →
            c1.AckWaitQueue = c.AckWaitQueue ++ [request] ∧ c1.CurrentRequest = none)) ∧
    (∀ built n request, SendInProgress c = false → built.Request = some request →
        ∃ c1, HandleSockWriteReady cfg c built (.Sent n) = .ok (true, c1) ∧
          c1.SendBuf = built.Buf.drop n ∧
          (c1.SendBuf ≠ [] →
            c1.AckWaitQueue = c.AckWaitQueue ∧ c1.CurrentRequest = some request) ∧
          (c1.SendBuf = [] →
            c1.AckWaitQueue = c.AckWaitQueue ++ [request] ∧ c1.CurrentRequest = none)) ∧
    (∀ request calls built n, c.CurrentRequest = some request →
        (calls.map Prod.snd).sum < c.SendBuf.length →
        c.SendBuf.length ≤ (calls.map Prod.snd).sum + n →
        (∃ c1, WriteCalls cfg c calls = .ok c1 ∧ c1.AckWaitQueue = c.AckWaitQueue ∧
          c1.CurrentRequest = some request) ∧
        (∃ c2, WriteCalls cfg c (calls ++ [(built, n)]) = .ok c2 ∧
          c2.AckWaitQueue = c.AckWaitQueue ++ [request] ∧ c2.CurrentRequest = none ∧
          c2.SendBuf = [])) ∧
    (∀ request b0 n0 calls built n, SendInProgress c = false → b0.Request = some request →
        n0 + (calls.map Prod.snd).sum < b0.Buf.length →
        b0.Buf.length ≤ n0 + (calls.map Prod.snd).sum + n →
        (∃ c1, WriteCalls cfg c ((b0, n0) :: calls) = .ok c1 ∧
          c1.AckWaitQueue = c.AckWaitQueue ∧ c1.CurrentRequest = some request) ∧
        (∃ c2, WriteCalls cfg c ((b0, n0) :: calls ++ [(built, n)]) = .ok c2 ∧
          c2.AckWaitQueue = c.AckWaitQueue ++ [request] ∧ c2.CurrentRequest = none ∧
          c2.SendBuf = [])) := by
  refine ⟨?_, ?_, ?_, ?_, ?_⟩
  · intro built n r hgo hr
    obtain ⟨-, -, f3, -⟩ := StartOrContinueSend_frame c built
    rcases HandleSockWriteReady_cases cfg c built (.Sent n) r hr with
      ⟨hgo2, -⟩ | ⟨-, hl, -⟩ | ⟨-, m, -, hne, rfl⟩ | ⟨-, m, request, -, -, hreq, rfl⟩
    · rw [hgo] at hgo2
      cases hgo2
    · cases hl
    · exact ⟨rfl, fun _ => ⟨f3, rfl⟩, fun h => absurd h hne⟩
    · refine ⟨rfl, fun h => absurd rfl h, fun _ => ⟨request, hreq, ?_, rfl⟩⟩
      simp [hacks, f3]
  · intro built n request hs hr
    refine ⟨_, HandleSockWriteReady_continue cfg c built n request hacks hs hr, ?_⟩
    by_cases hd : c.SendBuf.drop n = []
    · rw [if_pos hd]
      exact ⟨hd.symm, fun h => absurd rfl h, fun _ => ⟨rfl, rfl⟩⟩
    · rw [if_neg hd]
      exact ⟨rfl, fun _ => ⟨rfl, hr⟩, fun h => absurd h hd⟩
  · intro built n request hs hr
    refine ⟨_, HandleSockWriteReady_start cfg c built n request hacks hs hr, ?_⟩
    by_cases hd : built.Buf.drop n = []
    · rw [if_pos hd]
      exact ⟨hd.symm, fun h => absurd rfl h, fun _ => ⟨rfl, rfl⟩⟩
    · rw [if_neg hd]
      exact ⟨rfl, fun _ => ⟨rfl, rfl⟩, fun h => absurd h hd⟩
  · intro request calls built n hr hlt hle
    exact WriteCalls_split cfg hacks c request calls built n hr hlt hle
  · intro request b0 n0 calls built n hs hr hlt hle
    have hd : b0.Buf.drop n0 ≠ [] := by
      intro h0
      have := List.drop_eq_nil_iff.mp h0
      omega
    have hstep := HandleSockWriteReady_start cfg c b0 n0 request hacks hs hr
    rw [if_neg hd] at hstep
    have hsplit := WriteCalls_split cfg hacks
      { c with SendBuf := b0.Buf.drop n0, CurrentRequest := some request,
               RequestFactory := b0.Factory }
      request calls built n rfl
      (by simp only [List.length_drop]; omega) (by simp only [List.length_drop]; omega)
    simp only [WriteCalls, List.cons_append, hstep]
    exact hsplit

theorem HandleSockWriteReady_pushes_once_witness :
    ∃ c2, WriteCalls ExampleConfig IdleWithPending
        [(ExampleBuild, 1), (ExampleBuild, 1), (ExampleBuild, 1)] = .ok c2 ∧
      c2.AckWaitQueue = IdleWithPending.AckWaitQueue ++ [(7, [("a", [(0, { Contents := [1, 2] })])])] ∧
      c2.CurrentRequest = none ∧ c2.SendBuf = [] :=
  ((HandleSockWriteReady_pushes_once ExampleConfig IdleWithPending (by decide)).2.2.2.2
    (7, [("a", [(0, { Contents := [1, 2] })])]) ExampleBuild 1 [(ExampleBuild, 1)] ExampleBuild 1
    rfl rfl (by decide) (by decide)).2

/-! ## C9: a connection lost on send -/

theorem HandleSockWriteReady_lost (cfg : TConfig) (c : TConnector) (built : TBuildResult)
    (hgo : SendInProgress c = true ∨ built.Request ≠ none) :
    HandleSockWriteReady cfg c built .LostTcpConnection =
      .ok (false, { (StartOrContinueSend c built).1 with PauseButtonPushed := true }) ∧
    (StartOrContinueSend c built).1.CurrentRequest =
      (if SendInProgress c then c.CurrentRequest else built.Request) := by
  unfold HandleSockWriteReady StartOrContinueSend TrySendProduceRequest
  cases hs : SendInProgress c with
  | true => simp
  | false =>
    cases hb : built.Request with
    | none => simp [hs, hb] at hgo
    | some request => simp

/-- C9: when the send in `HandleSockWriteReady` fails with a lost TCP connection,
the function pushes the pause button and returns `false`, keeps the request it
was sending in `CurrentRequest` and leaves `AckWaitQueue` as it was; a
`CleanupAfterJoin` after that puts the message lists of that request at the
front of `SendWaitAfterShutdown`, ahead of the other leftovers, and fills
`NoAckAfterShutdown` from `NoAckAfterPause` and `AckWaitQueue` only, so that none
of the request's lists is in it unless it was among those. -/
theorem LostTcpConnection_on_send (cfg : TConfig) (c : TConnector) (built : TBuildResult)
    (hs : c.SendWaitAfterShutdown = []) (hn : c.NoAckAfterShutdown = [])
    (hgo : SendInProgress c = true ∨ built.Request ≠ none) :
    ∃ c1, HandleSockWriteReady cfg c built .LostTcpConnection = .ok (false, c1) ∧
      c1.PauseButtonPushed = true ∧
      c1.CurrentRequest = (if SendInProgress c then c.CurrentRequest else built.Request) ∧
      c1.AckWaitQueue = c.AckWaitQueue ∧
      (CleanupAfterJoin c1).SendWaitAfterShutdown =
        CurrentRequestLists c1 ++
          (c.GotAckAfterPause ++ c1.RequestFactory.GetAll.1 ++ c.InputQueue.Reset.1) ∧
      (CleanupAfterJoin c1).NoAckAfterShutdown =
        c.NoAckAfterPause ++ c.AckWaitQueue.flatMap MsgLists ∧
      (∀ l ∈ CurrentRequestLists c1, l ∉ NoAckSources c →
        l ∉ (CleanupAfterJoin c1).NoAckAfterShutdown) := by
  obtain ⟨h1, h2⟩ := HandleSockWriteReady_lost cfg c built hgo
  obtain ⟨-, -, f3, f4, f5, f6, f7, f8⟩ := StartOrContinueSend_frame c built
  refine ⟨_, h1, rfl, h2, f3, ?_, ?_, ?_⟩
  · rw [CleanupAfterJoin_SendWait]
    simp only [SendWaitSources, CurrentRequestLists, f5, f6, f7, hs, List.nil_append,
      List.append_assoc]
  · rw [CleanupAfterJoin_NoAck]
    simp only [NoAckSources, f3, f4, f8, hn, List.nil_append]
  · intro l _ hl
    rw [CleanupAfterJoin_NoAck]
    simp only [NoAckSources, f3, f4, f8, hn, List.nil_append]
    exact hl

theorem LostTcpConnection_on_send_witness :
    ∃ c1, HandleSockWriteReady ExampleConfig StoppedConnector ExampleBuild .LostTcpConnection
        = .ok (false, c1) ∧
      (CleanupAfterJoin c1).SendWaitAfterShutdown = [[1, 2], [3], [4], [5], [6, 7]] ∧
      (CleanupAfterJoin c1).NoAckAfterShutdown = [[8], [10], [11, 12], [13]] := by
  obtain ⟨c1, h1, -, -, -, h5, h6, -⟩ :=
    LostTcpConnection_on_send ExampleConfig StoppedConnector ExampleBuild rfl rfl
      (Or.inl (by decide))
  have e : c1 = { StoppedConnector with PauseButtonPushed := true } := by
    have h2 : HandleSockWriteReady ExampleConfig StoppedConnector ExampleBuild
        .LostTcpConnection = .ok (false, { StoppedConnector with PauseButtonPushed := true }) :=
      rfl
    rw [h2] at h1
    simp only [Except.ok.injEq, Prod.mk.injEq, true_and] at h1
    exact h1.symm
  subst e
  exact ⟨_, h1, h5.trans (by decide), h6.trans (by decide)⟩

/-! ## C11, C12: one produce response -/

theorem SetPauseInProgress_frame (cfg : TConfig) (c : TConnector) (clock : Nat) :
    (SetPauseInProgress cfg c clock).PauseInProgress = true ∧
      (SetPauseInProgress cfg c clock).RequestFactory = c.RequestFactory ∧
      (SetPauseInProgress cfg c clock).GotAckAfterPause = c.GotAckAfterPause ∧
      (SetPauseInProgress cfg c clock).NoAckAfterPause = c.NoAckAfterPause ∧
      (SetPauseInProgress cfg c clock).PauseButtonPushed = c.PauseButtonPushed ∧
      (SetPauseInProgress cfg c clock).OkShutdown = c.OkShutdown ∧
      (SetPauseInProgress cfg c clock).CurrentRequest = c.CurrentRequest ∧
      (SetPauseInProgress cfg c clock).SendBuf = c.SendBuf := by
  unfold SetPauseInProgress SetFastShutdownState
  cases c.OptInProgressShutdown <;> simp

theorem ProcessSingleProduceResponse_eq (cfg : TConfig) (c : TConnector) (clock : Nat)
    (p : TProcessorOutcome) (request : TProduceRequest) (rest : List TProduceRequest)
    (hq : c.AckWaitQueue = request :: rest) :
    ∃ r, ProcessSingleProduceResponse cfg c clock p = .ok r ∧
      r.1 = (match p.Action with
             | some .KeepRunning => true
             | some .PauseAndDeferFinish => true
             | some .PauseAndFinishNow => false
             | none => false) ∧
      r.2.AckWaitQueue = rest ∧
      r.2.RequestFactory = c.RequestFactory.PutFront p.ImmediateResendAckMsgs ∧
      r.2.GotAckAfterPause =
        (if p.Action = some .KeepRunning then c.GotAckAfterPause
         else c.GotAckAfterPause ++ p.PauseAndResendAckMsgs) ∧
      r.2.NoAckAfterPause =
        (if p.Action = some .PauseAndFinishNow then c.NoAckAfterPause ++ p.MsgsWithoutAcks
         else c.NoAckAfterPause) ∧
      r.2.PauseButtonPushed =
        (if p.Action = some .KeepRunning then c.PauseButtonPushed else true) ∧
      r.2.PauseInProgress =
        (if p.Action = some .PauseAndDeferFinish then true else c.PauseInProgress) ∧
      r.2.OkShutdown = c.OkShutdown ∧ r.2.CurrentRequest = c.CurrentRequest ∧
      r.2.SendBuf = c.SendBuf := by
  unfold ProcessSingleProduceResponse
  simp only [hq]
  refine ⟨_, rfl, ?_⟩
  obtain ⟨f1, f2, f3, f4, f5, f6, f7, f8⟩ :=
    SetPauseInProgress_frame cfg { c with AckWaitQueue := rest } clock
  have f0 := SetFastShutdownState_AckWaitQueue cfg
    { c with AckWaitQueue := rest, PauseInProgress := true } clock
  cases hp : p.Action with
  | none => simp
  | some a =>
    cases a with
    | KeepRunning => simp
    | PauseAndDeferFinish =>
      simp only [f1, f2, f3, f4, f5, f6, f7, f8]
      simp [SetPauseInProgress, f0]
    | PauseAndFinishNow => simp

/-- C12: `ProcessSingleProduceResponse`, entered with a request in
`AckWaitQueue`, returns, and by the result of the processor: `KeepRunning` gives
`true`, no push of the pause button and the shutdown state as it was;
`PauseAndDeferFinish` gives `true`, a push, `PauseInProgress` set and a fast
shutdown in progress; `PauseAndFinishNow` gives `false` and a push;
`TBadProduceResponse` thrown gives `false` and a push.  So it returns `false`
iff the result is `PauseAndFinishNow` or the exception, and pushes the pause
button iff the result is not `KeepRunning`. -/
theorem ProcessSingleProduceResponse_by_action (cfg : TConfig) (c : TConnector) (clock : Nat)
    (p : TProcessorOutcome) (hq : c.AckWaitQueue ≠ []) :
    ∃ r, ProcessSingleProduceResponse cfg c clock p = .ok r ∧
      (p.Action = some .KeepRunning →
        r.1 = true ∧ r.2.PauseButtonPushed = c.PauseButtonPushed ∧
          r.2.OptInProgressShutdown = c.OptInProgressShutdown ∧
          r.2.PauseInProgress = c.PauseInProgress) ∧
      (p.Action = some .PauseAndDeferFinish →
        r.1 = true ∧ r.2.PauseButtonPushed = true ∧ r.2.PauseInProgress = true ∧
          FastShutdownInProgress r.2 = true) ∧
      (p.Action = some .PauseAndFinishNow → r.1 = false ∧ r.2.PauseButtonPushed = true) ∧
      (p.Action = none → r.1 = false ∧ r.2.PauseButtonPushed = true) ∧
      (r.1 = false ↔ (p.Action = some .PauseAndFinishNow ∨ p.Action = none)) ∧
      (c.PauseButtonPushed = false →
        (r.2.PauseButtonPushed = true ↔ p.Action ≠ some .KeepRunning)) := by
  cases hc : c.AckWaitQueue with
  | nil => exact absurd hc hq
  | cons request rest =>
    obtain ⟨r, h1, h2, -, -, -, -, h7, h8, -⟩ :=
      ProcessSingleProduceResponse_eq cfg c clock p request rest hc
    have hs := ProcessSingleProduceResponse_shutdown cfg c clock p r h1
    refine ⟨r, h1, ?_, ?_, ?_, ?_, ?_, ?_⟩
    · intro ha
      simp only [ha] at h2 h7 h8 hs
      simp at h7 h8 hs
      exact ⟨h2, h7, hs, h8⟩
    · intro ha
      simp only [ha] at h2 h7 h8 hs
      simp at h7 h8 hs
      exact ⟨h2, h7, h8, FastShutdownInProgress_of_merge r.2 _ _ hs⟩
    · intro ha
      simp only [ha] at h2 h7
      simp at h7
      exact ⟨h2, h7⟩
    · intro ha
      simp only [ha] at h2 h7
      simp at h7
      exact ⟨h2, h7⟩
    · rw [h2]
      cases p.Action with
      | none => simp
      | some a => cases a <;> simp
    · intro hpush
      rw [h7, hpush]
      cases p.Action with
      | none => simp
      | some a => cases a <;> simp

theorem ProcessSingleProduceResponse_by_action_witness :
    ∃ r, ProcessSingleProduceResponse ExampleConfig StoppedConnector 1000 FinishNowOutcome
        = .ok r ∧ r.1 = false ∧ r.2.PauseButtonPushed = true := by
  obtain ⟨r, h1, -, -, h4, -⟩ :=
    ProcessSingleProduceResponse_by_action ExampleConfig StoppedConnector 1000 FinishNowOutcome
      (by decide)
  exact ⟨r, h1, h4 rfl⟩

/-! ## C14: a slow shutdown drains the input queue -/

/-- C14: handling a slow shutdown request (`Destroying` false) moves every message
list of the input queue, whatever its batch deadline, to the back of the
pending queue of the request factory, in the order of the input queue, and
leaves the input queue empty; the lists that were pending stay ahead of them.
Handling a fast shutdown request leaves the input queue and the request factory
as they were. -/
theorem HandleShutdownRequest_input_queue (cfg : TConfig) (c : TConnector) (clock : Nat)
    (hd : c.Destroying = false) :
    (∀ s, c.OptShutdownCmd = some { OptSlowShutdownStartTime := some s } →
        ∃ c1, HandleShutdownRequest cfg c clock = .ok c1 ∧
          c1.InputQueue.Items = [] ∧
          c1.RequestFactory.Pending =
            c.RequestFactory.Pending ++ c.InputQueue.Items.map Prod.snd ∧
          (∀ item ∈ c.InputQueue.Items, item.2 ∈ c1.RequestFactory.Pending)) ∧
      (c.OptShutdownCmd = some { OptSlowShutdownStartTime := none } →
        ∃ c1, HandleShutdownRequest cfg c clock = .ok c1 ∧
          c1.InputQueue = c.InputQueue ∧ c1.RequestFactory = c.RequestFactory) := by
  constructor
  · intro s hc
    unfold HandleShutdownRequest
    simp only [hd, hc, Bool.false_eq_true, if_false]
    refine ⟨_, rfl, ?_, ?_, ?_⟩
    · cases c.OptInProgressShutdown <;> rfl
    · cases c.OptInProgressShutdown <;> rfl
    · intro item hi
      have hm : item.2 ∈ c.RequestFactory.Pending ++ c.InputQueue.Items.map Prod.snd :=
        List.mem_append_right _ (List.mem_map_of_mem Prod.snd hi)
      cases c.OptInProgressShutdown <;> exact hm
  · intro hc
    unfold HandleShutdownRequest
    simp only [hd, hc, Bool.false_eq_true, if_false]
    refine ⟨_, rfl, ?_, ?_⟩
    · simp only [SetFastShutdownState]
      cases c.OptInProgressShutdown <;> rfl
    · simp only [SetFastShutdownState]
      cases c.OptInProgressShutdown <;> rfl

theorem HandleShutdownRequest_input_queue_witness :
    ∃ c1, HandleShutdownRequest ExampleConfig (StartSlowShutdown BatchingConnector 200) 200
        = .ok c1 ∧
      c1.InputQueue.Items = [] ∧ c1.RequestFactory.Pending = [[9], [1, 2, 3, 4, 5]] := by
  obtain ⟨c1, h1, h2, h3, -⟩ :=
    (HandleShutdownRequest_input_queue ExampleConfig (StartSlowShutdown BatchingConnector 200)
      200 rfl).1 200 rfl
  exact ⟨c1, h1, h2, by rw [h3]; rfl⟩

/-! ## C18: AdjustTimeoutByDeadline -/

/-- C18: `AdjustTimeoutByDeadline` returns `d` when `initial_timeout` is negative
and the minimum of `initial_timeout` and `d` otherwise, where `d` is
`deadline - now` if `now ≤ deadline` and 0 otherwise, capped at 2147483647; so
the result lies in [0, 2147483647] whenever `initial_timeout` is an `int`, does
not exceed a non-negative `initial_timeout`, and is 0 when the deadline has
passed.  This holds for all values, so for the 32-bit and 64-bit ones. -/
theorem AdjustTimeoutByDeadline_value (initial_timeout : Int) (now deadline : Nat) :
    AdjustTimeoutByDeadline initial_timeout now deadline =
        (if initial_timeout < 0 then
          min (if now ≤ deadline then ((deadline - now : Nat) : Int) else 0) 2147483647
         else
          min initial_timeout
            (min (if now ≤ deadline then ((deadline - now : Nat) : Int) else 0) 2147483647)) ∧
      0 ≤ AdjustTimeoutByDeadline initial_timeout now deadline ∧
      AdjustTimeoutByDeadline initial_timeout now deadline ≤ 2147483647 ∧
      (0 ≤ initial_timeout →
        AdjustTimeoutByDeadline initial_timeout now deadline ≤ initial_timeout) ∧
      (deadline ≤ now → AdjustTimeoutByDeadline initial_timeout now deadline = 0) := by
  have h := AdjustTimeoutByDeadline_eq initial_timeout now deadline
  unfold TimeRemaining INT_MAX at h
  rw [h]
  refine ⟨rfl, ?_, ?_, ?_, ?_⟩
  · split <;> split <;> omega
  · split <;> split <;> omega
  · intro h0
    split <;> split <;> omega
  · intro hd
    split <;> split <;> omega

theorem AdjustTimeoutByDeadline_value_witness :
    AdjustTimeoutByDeadline 10000 650 700 = 50 ∧ AdjustTimeoutByDeadline (-1) 0 (2 ^ 40) = 2147483647 ∧
      AdjustTimeoutByDeadline 10000 800 700 = 0 :=
  ⟨((AdjustTimeoutByDeadline_value 10000 650 700).1).trans (by decide),
   ((AdjustTimeoutByDeadline_value (-1) 0 (2 ^ 40)).1).trans (by decide),
   (AdjustTimeoutByDeadline_value 10000 800 700).2.2.2.2 (by decide)⟩

/-! ## C15: the dispatch of one wakeup -/

theorem HandleSockEvents_trace (cfg : TConfig) (c : TConnector) (sock_events : Nat)
    (env : TIterEnv) (trace : List THandler) :
    ∃ w r : Bool,
      (HandleSockEvents cfg c sock_events env trace).Trace =
        trace ++ (if w then [THandler.HandleSockWriteReady] else []) ++
          (if r then [THandler.HandleSockReadReady] else []) ∧
      (w = true ↔ sock_events &&& POLLOUT ≠ 0) ∧
      (r = true ↔ (sock_events &&& POLLIN ≠ 0 ∧
        (sock_events &&& POLLOUT ≠ 0 →
          ∃ c3, HandleSockWriteReady cfg c env.Build env.Send = .ok (true, c3)))) := by
  unfold HandleSockEvents
  by_cases ho : sock_events &&& POLLOUT ≠ 0
  · simp only [if_pos ho]
    cases hw : HandleSockWriteReady cfg c env.Build env.Send with
    | error e => exact ⟨true, false, by simp, by simp [ho], by simp [ho]⟩
    | ok r3 =>
      obtain ⟨b, c3⟩ := r3
      cases b with
      | false => exact ⟨true, false, by simp, by simp [ho], by simp [ho]⟩
      | true =>
        by_cases hi : sock_events &&& POLLIN ≠ 0
        · refine ⟨true, true, ?_, by simp [ho], by simp [hi]⟩
          simp only [if_pos hi]
          split <;> simp
        · exact ⟨true, false, by simp [if_neg hi], by simp [ho], by simp [hi]⟩
  · simp only [if_neg ho]
    by_cases hi : sock_events &&& POLLIN ≠ 0
    · refine ⟨false, true, ?_, by simp [ho], by simp [hi, ho]⟩
      simp only [if_pos hi]
      split <;> simp
    · exact ⟨false, false, by simp [if_neg hi], by simp [ho], by simp [hi]⟩

/-- C15: in an iteration in which `poll` reports a ready descriptor, if the
shutdown-request descriptor is ready only `HandleShutdownRequest` runs; else if
the pause descriptor is ready only `HandlePauseDetected` runs; otherwise
`CheckInputQueue` (iff the input queue is ready), `HandleSockWriteReady` (iff the
socket is writable) and `HandleSockReadReady` (iff the socket is readable and no
send has failed) run, in that order.  So when the shutdown-request or the pause
descriptor is ready there is no input drain, send or receive, and never do both
`HandleShutdownRequest` and `HandlePauseDetected` run in one wakeup. -/
theorem MainLoopIteration_dispatch (cfg : TConfig) (c : TConnector) (env : TIterEnv)
    (rs rr rp ri : Nat) (c1 : TConnector)
    (hp : (PrepareForPoll cfg c env.StartTime).1 = true)
    (hpoll : env.Poll = .Reported rs rr rp ri)
    (hc1 : c1 = PollReturned (PrepareForPoll cfg c env.StartTime).2.2 rs rr rp ri)
    (hready : PollCount c1.MainLoopPollArray ≠ 0) :
    (c1.MainLoopPollArray.ShutdownRequest.revents ≠ 0 →
        (MainLoopIteration cfg c env).Trace = [.HandleShutdownRequest]) ∧
      (c1.MainLoopPollArray.ShutdownRequest.revents = 0 →
        c1.MainLoopPollArray.PauseButton.revents ≠ 0 →
        (MainLoopIteration cfg c env).Trace = [.HandlePauseDetected]) ∧
      (c1.MainLoopPollArray.ShutdownRequest.revents = 0 →
        c1.MainLoopPollArray.PauseButton.revents = 0 →
        ∃ i w r : Bool,
          (MainLoopIteration cfg c env).Trace =
            (if i then [THandler.CheckInputQueue] else []) ++
              (if w then [THandler.HandleSockWriteReady] else []) ++
              (if r then [THandler.HandleSockReadReady] else []) ∧
          (i = true ↔ c1.MainLoopPollArray.InputQueue.revents ≠ 0) ∧
          (w = true ↔ c1.MainLoopPollArray.SockIo.revents &&& POLLOUT ≠ 0) ∧
          (r = true ↔ (c1.MainLoopPollArray.SockIo.revents &&& POLLIN ≠ 0 ∧
            (c1.MainLoopPollArray.SockIo.revents &&& POLLOUT ≠ 0 →
              ∃ c3, HandleSockWriteReady cfg
                (if c1.MainLoopPollArray.InputQueue.revents ≠ 0 then
                  CheckInputQueue c1 (max env.StartTime env.FinishClock) true
                 else c1) env.Build env.Send = .ok (true, c3))))) ∧
      ((c1.MainLoopPollArray.ShutdownRequest.revents ≠ 0 ∨
          c1.MainLoopPollArray.PauseButton.revents ≠ 0) →
        THandler.CheckInputQueue ∉ (MainLoopIteration cfg c env).Trace ∧
        THandler.HandleSockWriteReady ∉ (MainLoopIteration cfg c env).Trace ∧
        THandler.HandleSockReadReady ∉ (MainLoopIteration cfg c env).Trace) ∧
      ¬ (THandler.HandleShutdownRequest ∈ (MainLoopIteration cfg c env).Trace ∧
          THandler.HandlePauseDetected ∈ (MainLoopIteration cfg c env).Trace) := by
  have hs : c1.MainLoopPollArray.ShutdownRequest.revents ≠ 0 →
      (MainLoopIteration cfg c env).Trace = [.HandleShutdownRequest] := by
    intro h
    unfold MainLoopIteration
    simp only [hp, hpoll, ← hc1, Bool.not_true, Bool.false_eq_true, if_false, if_neg hready,
      if_pos h]
    cases HandleShutdownRequest cfg c1 env.HandlerClock <;> rfl
  have hpa : c1.MainLoopPollArray.ShutdownRequest.revents = 0 →
      c1.MainLoopPollArray.PauseButton.revents ≠ 0 →
      (MainLoopIteration cfg c env).Trace = [.HandlePauseDetected] := by
    intro h h2
    unfold MainLoopIteration
    simp only [hp, hpoll, ← hc1, Bool.not_true, Bool.false_eq_true, if_false, if_neg hready,
      if_neg (not_not.mpr h), if_pos h2]
  have hso : c1.MainLoopPollArray.ShutdownRequest.revents = 0 →
      c1.MainLoopPollArray.PauseButton.revents = 0 →
      (MainLoopIteration cfg c env).Trace =
        (HandleSockEvents cfg
          (if c1.MainLoopPollArray.InputQueue.revents ≠ 0 then
            CheckInputQueue c1 (max env.StartTime env.FinishClock) true
           else c1) c1.MainLoopPollArray.SockIo.revents env
          (if c1.MainLoopPollArray.InputQueue.revents ≠ 0 then [THandler.CheckInputQueue]
           else [])).Trace := by
    intro h h2
    unfold MainLoopIteration
    simp only [hp, hpoll, ← hc1, Bool.not_true, Bool.false_eq_true, if_false, if_neg hready,
      if_neg (not_not.mpr h), if_neg (not_not.mpr h2)]
    by_cases hi : c1.MainLoopPollArray.InputQueue.revents ≠ 0
    · simp only [if_pos hi]
    · simp only [if_neg hi]
  refine ⟨hs, hpa, ?_, ?_, ?_⟩
  · intro h h2
    rw [hso h h2]
    obtain ⟨w, r, ht, hw, hr⟩ := HandleSockEvents_trace cfg
      (if c1.MainLoopPollArray.InputQueue.revents ≠ 0 then
        CheckInputQueue c1 (max env.StartTime env.FinishClock) true
       else c1) c1.MainLoopPollArray.SockIo.revents env
      (if c1.MainLoopPollArray.InputQueue.revents ≠ 0 then [THandler.CheckInputQueue] else [])
    refine ⟨decide (c1.MainLoopPollArray.InputQueue.revents ≠ 0), w, r, ?_, by simp, hw, hr⟩
    rw [ht]
    by_cases hi : c1.MainLoopPollArray.InputQueue.revents ≠ 0
    · simp [hi]
    · simp [hi]
  · intro h
    by_cases h1 : c1.MainLoopPollArray.ShutdownRequest.revents ≠ 0
    · rw [hs h1]
      simp
    · have h2 : c1.MainLoopPollArray.PauseButton.revents ≠ 0 := by
        rcases h with h | h
        · exact absurd h h1
        · exact h
      rw [hpa (not_not.mp h1) h2]
      simp
  · by_cases h1 : c1.MainLoopPollArray.ShutdownRequest.revents ≠ 0
    · rw [hs h1]
      simp
    · by_cases h2 : c1.MainLoopPollArray.PauseButton.revents ≠ 0
      · rw [hpa (not_not.mp h1) h2]
        simp
      · rw [hso (not_not.mp h1) (not_not.mp h2)]
        obtain ⟨w, r, ht, -, -⟩ := HandleSockEvents_trace cfg
          (if c1.MainLoopPollArray.InputQueue.revents ≠ 0 then
            CheckInputQueue c1 (max env.StartTime env.FinishClock) true
           else c1) c1.MainLoopPollArray.SockIo.revents env
          (if c1.MainLoopPollArray.InputQueue.revents ≠ 0 then [THandler.CheckInputQueue]
           else [])
        rw [ht]
        intro hh
        have := hh.1
        split at this <;> cases w <;> cases r <;> simp at this

theorem MainLoopIteration_dispatch_witness :
    (MainLoopIteration ExampleConfig (StartSlowShutdown BatchingConnector 200)
      ShutdownAndSocketReady).Trace = [.HandleShutdownRequest] :=
  (MainLoopIteration_dispatch ExampleConfig (StartSlowShutdown BatchingConnector 200)
    ShutdownAndSocketReady 4 1 0 1
    (PollReturned (PrepareForPoll ExampleConfig (StartSlowShutdown BatchingConnector 200)
      100).2.2 4 1 0 1)
    (by decide) rfl rfl (by decide)).1 (by decide)

/-! ## C16: a current request iff unsent bytes -/

theorem HandleSockWriteReadyAssertion_iff (c : TConnector) :
    HandleSockWriteReadyAssertion c = true ↔ (c.CurrentRequest.isSome = true ↔ c.SendBuf ≠ []) := by
  unfold HandleSockWriteReadyAssertion SendInProgress
  cases c.CurrentRequest <;> cases c.SendBuf <;> simp

theorem HandleSockWriteReadyAssertion_of_frame (c c1 : TConnector)
    (h1 : c1.CurrentRequest = c.CurrentRequest) (h2 : c1.SendBuf = c.SendBuf)
    (h : HandleSockWriteReadyAssertion c = true) : HandleSockWriteReadyAssertion c1 = true := by
  unfold HandleSockWriteReadyAssertion SendInProgress at h ⊢
  rw [h1, h2]
  exact h

theorem HandleSockWriteReady_assertion (cfg : TConfig) (c : TConnector) (built : TBuildResult)
    (sent : TSendResult) (r : Bool × TConnector) (hb : BuildHasBytes built)
    (hi : HandleSockWriteReadyAssertion c = true)
    (h : HandleSockWriteReady cfg c built sent = .ok r) :
    HandleSockWriteReadyAssertion r.2 = true := by
  have hs : (StartOrContinueSend c built).2 = true →
      (StartOrContinueSend c built).1.CurrentRequest.isSome = true ∧
        (StartOrContinueSend c built).1.SendBuf ≠ [] := by
    intro hgo
    unfold StartOrContinueSend at hgo ⊢
    cases hsp : SendInProgress c with
    | true =>
      simp only [hsp, Bool.not_true, Bool.false_eq_true, if_false]
      have h1 := (SendInProgress_iff c).mp hsp
      exact ⟨((HandleSockWriteReadyAssertion_iff c).mp hi).mpr h1, h1⟩
    | false =>
      cases hr : built.Request with
      | none => simp [hsp, hr] at hgo
      | some request =>
        simp only [hsp, hr, Bool.not_false, if_true]
        exact ⟨rfl, hb (by simp [hr])⟩
  have hn : (StartOrContinueSend c built).2 = false →
      (StartOrContinueSend c built).1.CurrentRequest = none ∧
        (StartOrContinueSend c built).1.SendBuf = [] := by
    intro hgo
    unfold StartOrContinueSend at hgo ⊢
    cases hsp : SendInProgress c with
    | true => simp [hsp] at hgo
    | false =>
      cases hr : built.Request with
      | none => simp [hsp, hr]
      | some request => simp [hsp, hr] at hgo
  rw [HandleSockWriteReadyAssertion_iff]
  rcases HandleSockWriteReady_cases cfg c built sent r h with
    ⟨hgo, rfl⟩ | ⟨hgo, -, rfl⟩ | ⟨hgo, n, -, hne, rfl⟩ | ⟨hgo, n, request, -, -, -, rfl⟩
  · obtain ⟨h1, h2⟩ := hn hgo
    simp [h1, h2]
  · obtain ⟨h1, h2⟩ := hs hgo
    simp [h1, h2]
  · obtain ⟨h1, -⟩ := hs hgo
    simp [h1, hne]
  · simp

theorem PrepareForPoll_send (cfg : TConfig) (c : TConnector) (now : Nat) :
    (PrepareForPoll cfg c now).2.2.CurrentRequest = c.CurrentRequest ∧
      (PrepareForPoll cfg c now).2.2.SendBuf = c.SendBuf ∧
      (PrepareForPoll cfg c now).2.2.OkShutdown = c.OkShutdown ∧
      (PrepareForPoll cfg c now).2.2.PauseButtonPushed = c.PauseButtonPushed := by
  unfold PrepareForPoll
  cases h : PollNeeds c with
  | none => exact ⟨rfl, rfl, rfl, rfl⟩
  | some n => obtain ⟨w, st, bt⟩ := n; exact ⟨rfl, rfl, rfl, rfl⟩

theorem CheckInputQueue_send (c : TConnector) (now : Nat) (pop_sem : Bool) :
    (CheckInputQueue c now pop_sem).CurrentRequest = c.CurrentRequest ∧
      (CheckInputQueue c now pop_sem).SendBuf = c.SendBuf ∧
      (CheckInputQueue c now pop_sem).OkShutdown = c.OkShutdown ∧
      (CheckInputQueue c now pop_sem).PauseButtonPushed = c.PauseButtonPushed := by
  unfold CheckInputQueue
  cases pop_sem <;> simp only [Bool.false_eq_true, if_false, if_true] <;> split <;>
    exact ⟨rfl, rfl, rfl, rfl⟩

theorem HandleShutdownRequest_send (cfg : TConfig) (c c1 : TConnector) (clock : Nat)
    (h : HandleShutdownRequest cfg c clock = .ok c1) :
    c1.CurrentRequest = c.CurrentRequest ∧ c1.SendBuf = c.SendBuf ∧
      c1.OkShutdown = c.OkShutdown ∧ c1.PauseButtonPushed = c.PauseButtonPushed := by
  unfold HandleShutdownRequest at h
  cases hd : c.Destroying with
  | true => simp [hd] at h
  | false =>
    cases hc : c.OptShutdownCmd with
    | none => simp [hd, hc] at h
    | some cmd =>
      obtain ⟨start⟩ := cmd
      simp only [hd, hc, Bool.false_eq_true, if_false, Except.ok.injEq] at h
      rw [← h]
      cases start with
      | none =>
        simp only [SetFastShutdownState]
        cases c.OptInProgressShutdown <;> exact ⟨rfl, rfl, rfl, rfl⟩
      | some s => cases ho : c.OptInProgressShutdown <;> simp [ho]

theorem ProcessSingleProduceResponse_send (cfg : TConfig) (c : TConnector) (clock : Nat)
    (p : TProcessorOutcome) (r : Bool × TConnector)
    (h : ProcessSingleProduceResponse cfg c clock p = .ok r) :
    r.2.CurrentRequest = c.CurrentRequest ∧ r.2.SendBuf = c.SendBuf ∧
      r.2.OkShutdown = c.OkShutdown ∧ (r.1 = false → r.2.PauseButtonPushed = true) := by
  obtain ⟨request, hq⟩ := ProcessSingleProduceResponse_queue cfg c clock p r h
  obtain ⟨r1, h1, h2, -, -, -, -, h7, -, h9, h10, h11⟩ :=
    ProcessSingleProduceResponse_eq cfg c clock p request r.2.AckWaitQueue hq
  rw [h] at h1
  cases h1
  refine ⟨h10, h11, h9, ?_⟩
  intro hf
  rw [h7]
  rw [h2] at hf
  cases hp : p.Action with
  | none => simp
  | some a => cases a <;> simp_all

theorem HandleSockReadReady_send (cfg : TConfig) (c : TConnector) (env : TReadEnv)
    (r : Bool × TConnector) (h : HandleSockReadReady cfg c env = .ok r) :
    r.2.CurrentRequest = c.CurrentRequest ∧ r.2.SendBuf = c.SendBuf ∧
      r.2.OkShutdown = c.OkShutdown :=
  HandleSockReadReady_rel cfg
    (fun a b => b.CurrentRequest = a.CurrentRequest ∧ b.SendBuf = a.SendBuf ∧
      b.OkShutdown = a.OkShutdown)
    (fun _ => ⟨rfl, rfl, rfl⟩)
    (fun _ _ _ h1 h2 => ⟨h2.1.trans h1.1, h2.2.1.trans h1.2.1, h2.2.2.trans h1.2.2⟩)
    (fun a clock p r h =>
      ⟨(ProcessSingleProduceResponse_send cfg a clock p r h).1,
       (ProcessSingleProduceResponse_send cfg a clock p r h).2.1,
       (ProcessSingleProduceResponse_send cfg a clock p r h).2.2.1⟩)
    (fun _ => ⟨rfl, rfl, rfl⟩) c env r h

theorem ApplyOp_sendAssertion (cfg : TConfig) (c c1 : TConnector) (op : TOp)
    (hb : OpBuildHasBytes op) (h : ApplyOp cfg c op = .ok c1)
    (hi : HandleSockWriteReadyAssertion c = true) :
    HandleSockWriteReadyAssertion c1 = true := by
  cases op with
  | StartSlowShutdown s => cases h; exact hi
  | StartFastShutdown => cases h; exact hi
  | WaitForShutdownAck => cases h; exact hi
  | Enqueue e m => cases h; exact hi
  | ConnectToBroker fd =>
    cases h
    refine HandleSockWriteReadyAssertion_of_frame c _ ?_ ?_ hi <;>
      (unfold ConnectToBroker; cases fd <;> rfl)
  | PrepareForPoll now =>
    cases h
    exact HandleSockWriteReadyAssertion_of_frame c _ (PrepareForPoll_send cfg c now).1
      (PrepareForPoll_send cfg c now).2.1 hi
  | HandleShutdownRequest clock =>
    exact HandleSockWriteReadyAssertion_of_frame c _ (HandleShutdownRequest_send cfg c c1 clock h).1
      (HandleShutdownRequest_send cfg c c1 clock h).2.1 hi
  | HandlePauseDetected clock =>
    cases h
    obtain ⟨-, -, -, -, -, -, f7, f8⟩ := SetPauseInProgress_frame cfg c clock
    exact HandleSockWriteReadyAssertion_of_frame c _ f7 f8 hi
  | CheckInputQueue now pop_sem =>
    cases h
    exact HandleSockWriteReadyAssertion_of_frame c _ (CheckInputQueue_send c now pop_sem).1
      (CheckInputQueue_send c now pop_sem).2.1 hi
  | HandleSockWriteReady built sent =>
    simp only [ApplyOp] at h
    cases hr : HandleSockWriteReady cfg c built sent with
    | error e => simp [hr, Except.map] at h
    | ok r =>
      simp only [hr, Except.map, Except.ok.injEq] at h
      subst h
      exact HandleSockWriteReady_assertion cfg c built sent r hb hi hr
  | HandleSockReadReady env =>
    simp only [ApplyOp] at h
    cases hr : HandleSockReadReady cfg c env with
    | error e => simp [hr, Except.map] at h
    | ok r =>
      simp only [hr, Except.map, Except.ok.injEq] at h
      subst h
      exact HandleSockWriteReadyAssertion_of_frame c _ (HandleSockReadReady_send cfg c env r hr).1
        (HandleSockReadReady_send cfg c env r hr).2.1 hi
  | ProcessSingleProduceResponse clock p =>
    simp only [ApplyOp] at h
    cases hr : ProcessSingleProduceResponse cfg c clock p with
    | error e => simp [hr, Except.map] at h
    | ok r =>
      simp only [hr, Except.map, Except.ok.injEq] at h
      subst h
      exact HandleSockWriteReadyAssertion_of_frame c _
        (ProcessSingleProduceResponse_send cfg c clock p r hr).1
        (ProcessSingleProduceResponse_send cfg c clock p r hr).2.1 hi
  | PollReturned rs rr rp ri => cases h; exact hi
  | CleanExit => cases h; exact hi
  | SocketTimeoutExit => cases h; exact hi
  | Destroy => cases h; exact hi

theorem HandleSockEvents_invariant (cfg : TConfig) (c : TConnector) (sock_events : Nat)
    (env : TIterEnv) (trace : List THandler) (I : TConnector → Prop)
    (hop : ∀ a b op, (∀ built sent, op = TOp.HandleSockWriteReady built sent → built = env.Build) →
      I a → ApplyOp cfg a op = .ok b → I b)
    (c1 : TConnector) (hc : I c)
    (h : (HandleSockEvents cfg c sock_events env trace).Step = .Continue c1 ∨
      (HandleSockEvents cfg c sock_events env trace).Step = .Break c1) :
    I c1 := by
  unfold HandleSockEvents at h
  have hw : ∀ r, (if sock_events &&& POLLOUT ≠ 0 then
        (HandleSockWriteReady cfg c env.Build env.Send, trace ++ [THandler.HandleSockWriteReady])
      else (Except.ok (true, c), trace)).1 = .ok r → I r.2 := by
    intro r hr
    split at hr
    · have hr1 : HandleSockWriteReady cfg c env.Build env.Send = .ok r := hr
      exact hop c r.2 (.HandleSockWriteReady env.Build env.Send)
        (fun _ _ he => by cases he; rfl) hc (by simp [ApplyOp, hr1, Except.map])
    · cases hr
      exact hc
  generalize (if sock_events &&& POLLOUT ≠ 0 then
        (HandleSockWriteReady cfg c env.Build env.Send, trace ++ [THandler.HandleSockWriteReady])
      else (Except.ok (true, c), trace)) = w at h hw
  obtain ⟨w1, w2⟩ := w
  cases w1 with
  | error e => simp at h
  | ok r =>
    obtain ⟨b, c3⟩ := r
    have h3 : I c3 := hw (b, c3) rfl
    cases b with
    | false =>
      simp at h
      subst h
      exact h3
    | true =>
      simp only at h
      split at h
      · cases hr : HandleSockReadReady cfg c3 env.Read with
        | error e => simp [hr] at h
        | ok r4 =>
          obtain ⟨b4, c4⟩ := r4
          have h4 : I c4 := hop c3 c4 (.HandleSockReadReady env.Read)
            (fun _ _ he => by cases he) h3 (by simp [ApplyOp, hr, Except.map])
          cases b4 <;> simp [hr] at h <;> subst h <;> exact h4
      · simp at h
        subst h
        exact h3

theorem MainLoopIteration_invariant (cfg : TConfig) (c : TConnector) (env : TIterEnv)
    (I : TConnector → Prop)
    (hop : ∀ a b op, (∀ built sent, op = TOp.HandleSockWriteReady built sent → built = env.Build) →
      I a → ApplyOp cfg a op = .ok b → I b)
    (c1 : TConnector) (hc : I c)
    (h : (MainLoopIteration cfg c env).Step = .Continue c1 ∨
      (MainLoopIteration cfg c env).Step = .Break c1) :
    I c1 := by
  have hp : I (PrepareForPoll cfg c env.StartTime).2.2 :=
    hop c _ (.PrepareForPoll env.StartTime) (fun _ _ he => by cases he) hc rfl
  unfold MainLoopIteration at h
  simp only at h
  split at h
  · simp at h
    subst h
    exact hop _ _ .CleanExit (fun _ _ he => by cases he) hp rfl
  · split at h
    · simp at h
    · rename_i rs rr rp ri _
      have hq : I (PollReturned (PrepareForPoll cfg c env.StartTime).2.2 rs rr rp ri) :=
        hop _ _ (.PollReturned rs rr rp ri) (fun _ _ he => by cases he) hp rfl
      generalize PollReturned (PrepareForPoll cfg c env.StartTime).2.2 rs rr rp ri = c2 at h hq
      split at h
      · split at h
        · simp at h
          subst h
          exact hop _ _ .SocketTimeoutExit (fun _ _ he => by cases he) hq rfl
        · split at h
          · simp at h
            subst h
            exact hop _ _ .CleanExit (fun _ _ he => by cases he) hq rfl
          · simp at h
            subst h
            exact hop _ _ (.CheckInputQueue _ false) (fun _ _ he => by cases he) hq rfl
      · split at h
        · cases hr : HandleShutdownRequest cfg c2 env.HandlerClock with
          | error e => simp [hr] at h
          | ok c3 =>
            simp [hr] at h
            subst h
            exact hop _ _ (.HandleShutdownRequest env.HandlerClock) (fun _ _ he => by cases he)
              hq hr
        · split at h
          · simp at h
            subst h
            exact hop _ _ (.HandlePauseDetected env.HandlerClock) (fun _ _ he => by cases he)
              hq rfl
          · split at h
            · exact HandleSockEvents_invariant cfg _ _ env _ I hop c1
                (hop _ _ (.CheckInputQueue _ true) (fun _ _ he => by cases he) hq rfl) h
            · exact HandleSockEvents_invariant cfg _ _ env _ I hop c1 hq h

/-- C16: in every state reachable from a newly constructed connector by operations,
when a request that the factory builds always comes with a buffer that is not
empty, `CurrentRequest` is present iff the send buffer holds unsent bytes, which
is the assertion at the top of `HandleSockWriteReady`.  Every outcome of
`HandleSockWriteReady` that returns keeps it, so does a whole iteration of the
loop, and it holds in the states in which an iteration enters
`HandleSockWriteReady`. -/
theorem CurrentRequest_iff_unsent_bytes (cfg : TConfig) (c : TConnector)
    (h : ReachableWithBytes cfg c) :
    (c.CurrentRequest.isSome = true ↔ c.SendBuf ≠ []) ∧
      HandleSockWriteReadyAssertion c = true ∧
      (∀ built sent r, BuildHasBytes built → HandleSockWriteReady cfg c built sent = .ok r →
        HandleSockWriteReadyAssertion r.2 = true) ∧
      (∀ env c1, BuildHasBytes env.Build →
        ((MainLoopIteration cfg c env).Step = .Continue c1 ∨
          (MainLoopIteration cfg c env).Step = .Break c1) →
        HandleSockWriteReadyAssertion c1 = true) ∧
      (∀ now rs rr rp ri finish_time,
        HandleSockWriteReadyAssertion
            (PollReturned (PrepareForPoll cfg c now).2.2 rs rr rp ri) = true ∧
          HandleSockWriteReadyAssertion
            (CheckInputQueue (PollReturned (PrepareForPoll cfg c now).2.2 rs rr rp ri)
              finish_time true) = true) := by
  have key : HandleSockWriteReadyAssertion c = true := by
    induction h with
    | init a b d arr => rfl
    | step c0 c1 op _ hb hstep ih => exact ApplyOp_sendAssertion cfg c0 c1 op hb hstep ih
  refine ⟨(HandleSockWriteReadyAssertion_iff c).mp key, key, ?_, ?_, ?_⟩
  · intro built sent r hb hr
    exact HandleSockWriteReady_assertion cfg c built sent r hb key hr
  · intro env c1 hb hstep
    refine MainLoopIteration_invariant cfg c env
      (fun a => HandleSockWriteReadyAssertion a = true) ?_ c1 key hstep
    intro a b op hfrom ha hab
    refine ApplyOp_sendAssertion cfg a b op ?_ hab ha
    cases op <;> first
      | trivial
      | (rename_i built sent
         show BuildHasBytes built
         rw [hfrom built sent rfl]
         exact hb)
  · intro now rs rr rp ri finish_time
    have h1 : HandleSockWriteReadyAssertion
        (PollReturned (PrepareForPoll cfg c now).2.2 rs rr rp ri) = true :=
      HandleSockWriteReadyAssertion_of_frame c _ (PrepareForPoll_send cfg c now).1
        (PrepareForPoll_send cfg c now).2.1 key
    exact ⟨h1, HandleSockWriteReadyAssertion_of_frame _ _ (CheckInputQueue_send _ _ _).1
      (CheckInputQueue_send _ _ _).2.1 h1⟩

theorem CurrentRequest_iff_unsent_bytes_witness :
    HandleSockWriteReadyAssertion SendingDuringShutdown = true :=
  (CurrentRequest_iff_unsent_bytes ExampleConfig SendingDuringShutdown
    (ReachableWithBytes.step _ _ (.HandleShutdownRequest 250)
      (ReachableWithBytes.step _ _ (.StartSlowShutdown 200)
        (ReachableWithBytes.step _ _ (.HandleSockWriteReady ExampleBuild (.Sent 1))
          (ReachableWithBytes.step _ _ (.CheckInputQueue 20 true)
            (ReachableWithBytes.step _ _ (.Enqueue 10 [1, 2])
              (ReachableWithBytes.step _ _ (.ConnectToBroker (some 6))
                (ReachableWithBytes.init 3 4 5 PollArrayIdle) trivial rfl)
              trivial rfl)
            trivial rfl)
          (fun _ => by decide) rfl)
        trivial rfl)
      trivial rfl)).2.1

/-! ## C17: the loop of HandleSockReadReady -/

theorem HandleSockReadReadyLoop_MsgReady (cfg : TConfig) (env : TReadEnv) (k : Nat)
    (c : TConnector) (r1 : Bool × TConnector)
    (h1 : ProcessSingleProduceResponse cfg c (env.Clock k) (env.Process k) = .ok r1) :
    HandleSockReadReadyLoop cfg env k .MsgReady c =
      if r1.1 = false then .ok (false, r1.2)
      else if (r1.2.AckWaitQueue.isEmpty && env.Consume k == .MsgReady) = true then
        .ok (false, { r1.2 with PauseButtonPushed := true })
      else HandleSockReadReadyLoop cfg env (k + 1) (env.Consume k) r1.2 := by
  rw [HandleSockReadReadyLoop.eq_def]
  simp only
  split
  · rename_i e hp
    rw [h1] at hp
    cases hp
  · rename_i c1 hp
    rw [h1] at hp
    cases hp
    simp
  · rename_i c1 hp
    rw [h1] at hp
    cases hp
    simp

theorem HandleSockReadReadyLoop_spec (cfg : TConfig) (env : TReadEnv) :
    ∀ (n : Nat) (c : TConnector) (k : Nat) (rs : TState),
      c.AckWaitQueue.length = n → (rs = .MsgReady → c.AckWaitQueue ≠ []) →
      ∃ r m, HandleSockReadReadyLoop cfg env k rs c = .ok r ∧ m ≤ n ∧
        r.2.AckWaitQueue = c.AckWaitQueue.drop m ∧
        (r.1 = true →
          (∀ j, j < m → KeepsRunning (env.Process (k + j))) ∧
          (if m = 0 then rs else env.Consume (k + m - 1)) = .ReadNeeded) ∧
        (r.1 = false → r.2.PauseButtonPushed = true) := by
  intro n
  induction n using Nat.strong_induction_on with
  | _ n ih =>
    intro c k rs hlen hne
    cases rs with
    | ReadNeeded =>
      refine ⟨(true, c), 0, ?_, Nat.zero_le _, rfl, ?_, ?_⟩
      · rw [HandleSockReadReadyLoop.eq_def]
      · intro _
        exact ⟨fun j hj => absurd hj (Nat.not_lt_zero j), rfl⟩
      · intro hf
        cases hf
    | DataInvalid =>
      refine ⟨(false, { c with PauseButtonPushed := true }), 0, ?_, Nat.zero_le _, rfl, ?_, ?_⟩
      · rw [HandleSockReadReadyLoop.eq_def]
      · intro ht
        cases ht
      · intro _
        rfl
    | AtEnd =>
      refine ⟨(false, { c with PauseButtonPushed := true }), 0, ?_, Nat.zero_le _, rfl, ?_, ?_⟩
      · rw [HandleSockReadReadyLoop.eq_def]
      · intro ht
        cases ht
      · intro _
        rfl
    | MsgReady =>
      cases hq : c.AckWaitQueue with
      | nil => exact absurd hq (hne rfl)
      | cons request rest =>
        obtain ⟨r1, h1, h2, h3, -, -, -, h7, -⟩ :=
          ProcessSingleProduceResponse_eq cfg c (env.Clock k) (env.Process k) request rest hq
        have hnpos : 1 ≤ n := by
          rw [← hlen, hq]
          simp
        rw [HandleSockReadReadyLoop_MsgReady cfg env k c r1 h1]
        by_cases hf : r1.1 = false
        · rw [if_pos hf]
          refine ⟨(false, r1.2), 1, rfl, hnpos, ?_, ?_, ?_⟩
          · simp [h3]
          · intro ht
            cases ht
          · intro _
            rw [h7]
            rw [h2] at hf
            cases hp : (env.Process k).Action with
            | none => simp
            | some a =>
              cases a with
              | KeepRunning => rw [hp] at hf; simp at hf
              | PauseAndDeferFinish => rw [hp] at hf; simp at hf
              | PauseAndFinishNow => simp
        · rw [if_neg hf]
          have hkeep : KeepsRunning (env.Process k) := by
            unfold KeepsRunning
            rw [h2] at hf
            cases hp : (env.Process k).Action with
            | none => rw [hp] at hf; simp at hf
            | some a =>
              cases a with
              | KeepRunning => exact Or.inl rfl
              | PauseAndDeferFinish => exact Or.inr rfl
              | PauseAndFinishNow => rw [hp] at hf; simp at hf
          by_cases hu : (r1.2.AckWaitQueue.isEmpty && env.Consume k == .MsgReady) = true
          · rw [if_pos hu]
            refine ⟨(false, { r1.2 with PauseButtonPushed := true }), 1, rfl, hnpos, ?_, ?_, ?_⟩
            · simp [h3]
            · intro ht
              cases ht
            · intro _
              rfl
          · rw [if_neg hu]
            have hlt : r1.2.AckWaitQueue.length < n := by
              rw [h3, ← hlen, hq]
              simp
            have hne2 : env.Consume k = .MsgReady → r1.2.AckWaitQueue ≠ [] := by
              intro hm hempty
              apply hu
              simp [hm, hempty]
            obtain ⟨r, m, e1, e2, e3, e4, e5⟩ :=
              ih _ hlt r1.2 (k + 1) (env.Consume k) rfl hne2
            refine ⟨r, m + 1, e1, ?_, ?_, ?_, e5⟩
            · omega
            · rw [e3, h3]
              simp
            · intro ht
              obtain ⟨g1, g2⟩ := e4 ht
              refine ⟨?_, ?_⟩
              · intro j hj
                cases j with
                | zero => exact hkeep
                | succ j =>
                  have := g1 j (by omega)
                  rw [show k + (j + 1) = k + 1 + j by omega]
                  exact this
              · rw [if_neg (Nat.succ_ne_zero m)]
                by_cases hm : m = 0
                · rw [if_pos hm] at g2
                  subst hm
                  exact g2
                · rw [if_neg hm] at g2
                  rw [show k + (m + 1) - 1 = k + 1 + m - 1 by omega]
                  exact g2

/-- C17: `HandleSockReadReady`, entered with `AckWaitQueue` not empty, returns
unless the read throws (the loop is a total function): it never reads the front
of an empty queue.  Each response processed pops the request at the front of
`AckWaitQueue`, so the number of responses processed is the number of requests
the queue has lost, which is at most its length on entry, and the queue that is
left is the old one without its first requests.  The function returns `true`
only when every response processed said to keep running and the reader then
reports `ReadNeeded`; when it returns `false` the pause button has been pushed,
as it is when every request has been answered and one more frame is ready. -/
theorem HandleSockReadReady_bounded (cfg : TConfig) (c : TConnector) (env : TReadEnv)
    (hq : c.AckWaitQueue ≠ []) :
    (env.Read = .OtherError → HandleSockReadReady cfg c env = .error .SystemError) ∧
      (env.Read ≠ .OtherError →
        ∃ r, HandleSockReadReady cfg c env = .ok r ∧
          r.2.AckWaitQueue.length ≤ c.AckWaitQueue.length ∧
          r.2.AckWaitQueue =
            c.AckWaitQueue.drop (c.AckWaitQueue.length - r.2.AckWaitQueue.length) ∧
          (r.1 = true →
            (∀ j, j < c.AckWaitQueue.length - r.2.AckWaitQueue.length →
              KeepsRunning (env.Process j)) ∧
            (if c.AckWaitQueue.length - r.2.AckWaitQueue.length = 0 then
              env.Read = .State .ReadNeeded
             else
              env.Consume (c.AckWaitQueue.length - r.2.AckWaitQueue.length - 1)
                = .ReadNeeded)) ∧
          (r.1 = false → r.2.PauseButtonPushed = true)) ∧
      HandleSockReadReady cfg c env ≠ .error .Undefined ∧
      (∀ clock p r, ProcessSingleProduceResponse cfg c clock p = .ok r →
        ∃ request, c.AckWaitQueue = request :: r.2.AckWaitQueue) ∧
      (env.Read = .State .MsgReady →
        (∀ j, j < c.AckWaitQueue.length → env.Consume j = .MsgReady) →
        ∃ c1, HandleSockReadReady cfg c env = .ok (false, c1) ∧
          c1.PauseButtonPushed = true) := by
  have main : env.Read ≠ .OtherError →
      ∃ r, HandleSockReadReady cfg c env = .ok r ∧
        r.2.AckWaitQueue.length ≤ c.AckWaitQueue.length ∧
        r.2.AckWaitQueue =
          c.AckWaitQueue.drop (c.AckWaitQueue.length - r.2.AckWaitQueue.length) ∧
        (r.1 = true →
          (∀ j, j < c.AckWaitQueue.length - r.2.AckWaitQueue.length →
            KeepsRunning (env.Process j)) ∧
          (if c.AckWaitQueue.length - r.2.AckWaitQueue.length = 0 then
            env.Read = .State .ReadNeeded
           else
            env.Consume (c.AckWaitQueue.length - r.2.AckWaitQueue.length - 1)
              = .ReadNeeded)) ∧
        (r.1 = false → r.2.PauseButtonPushed = true) := by
    intro hread
    unfold HandleSockReadReady
    cases hr : env.Read with
    | OtherError => exact absurd hr hread
    | LostTcpConnection =>
      refine ⟨(false, { c with PauseButtonPushed := true }), rfl, le_refl _, ?_, ?_, ?_⟩
      · simp
      · intro ht
        cases ht
      · intro _
        rfl
    | State rs =>
      obtain ⟨r, m, e1, e2, e3, e4, e5⟩ :=
        HandleSockReadReadyLoop_spec cfg env c.AckWaitQueue.length c 0 rs rfl (fun _ => hq)
      have hlen : r.2.AckWaitQueue.length = c.AckWaitQueue.length - m := by
        rw [e3, List.length_drop]
      have hm : c.AckWaitQueue.length - r.2.AckWaitQueue.length = m := by omega
      refine ⟨r, e1, by omega, ?_, ?_, e5⟩
      · rw [hm]
        exact e3
      · intro ht
        obtain ⟨g1, g2⟩ := e4 ht
        rw [hm]
        refine ⟨fun j hj => by simpa using g1 j hj, ?_⟩
        by_cases h0 : m = 0
        · rw [if_pos h0] at g2
          rw [if_pos h0, g2]
        · rw [if_neg h0] at g2
          rw [if_neg h0]
          simpa using g2
  refine ⟨?_, main, ?_, ?_, ?_⟩
  · intro hr
    unfold HandleSockReadReady
    rw [hr]
  · intro hu
    by_cases hread : env.Read = .OtherError
    · unfold HandleSockReadReady at hu
      rw [hread] at hu
      cases hu
    · obtain ⟨r, h1, -⟩ := main hread
      rw [h1] at hu
      cases hu
  · intro clock p r h
    exact ProcessSingleProduceResponse_queue cfg c clock p r h
  · intro hready hall
    obtain ⟨r, h1, h2, -, h4, h5⟩ := main (by rw [hready]; simp)
    obtain ⟨b, c1⟩ := r
    cases b with
    | false => exact ⟨c1, h1, h5 rfl⟩
    | true =>
      obtain ⟨-, g2⟩ := h4 rfl
      split at g2
      · rw [hready] at g2
        cases g2
      · rename_i hm
        have hj : c.AckWaitQueue.length - c1.AckWaitQueue.length - 1 < c.AckWaitQueue.length := by
          have : 0 < c.AckWaitQueue.length := List.length_pos.mpr hq
          omega
        rw [hall _ hj] at g2
        cases g2

theorem HandleSockReadReady_bounded_witness :
    ∃ c1, HandleSockReadReady ExampleConfig StoppedConnector
        { Read := .State .MsgReady, Consume := fun _ => .MsgReady,
          Process := fun _ => KeepRunningOutcome, Clock := fun _ => 110 }
        = .ok (false, c1) ∧ c1.PauseButtonPushed = true :=
  (HandleSockReadReady_bounded ExampleConfig StoppedConnector
    { Read := .State .MsgReady, Consume := fun _ => .MsgReady,
      Process := fun _ => KeepRunningOutcome, Clock := fun _ => 110 }
    (by decide)).2.2.2.2 rfl (fun _ _ => rfl)

/-! ## C13: how DoRun returns -/

theorem HandleSockWriteReady_exit (cfg : TConfig) (c : TConnector) (built : TBuildResult)
    (sent : TSendResult) (r : Bool × TConnector)
    (h : HandleSockWriteReady cfg c built sent = .ok r) :
    r.2.OkShutdown = c.OkShutdown ∧ (r.1 = false → r.2.PauseButtonPushed = true) := by
  have f : (StartOrContinueSend c built).1.OkShutdown = c.OkShutdown := by
    unfold StartOrContinueSend
    cases SendInProgress c <;> cases built.Request <;> simp
  rcases HandleSockWriteReady_cases cfg c built sent r h with
    ⟨-, rfl⟩ | ⟨-, -, rfl⟩ | ⟨-, n, -, -, rfl⟩ | ⟨-, n, request, -, -, -, rfl⟩
  · exact ⟨f, fun hf => by cases hf⟩
  · exact ⟨f, fun _ => rfl⟩
  · exact ⟨f, fun hf => by cases hf⟩
  · exact ⟨f, fun hf => by cases hf⟩

theorem HandleSockReadReadyLoop_empty (cfg : TConfig) (env : TReadEnv) (k : Nat)
    (c : TConnector) (hq : c.AckWaitQueue = []) :
    HandleSockReadReadyLoop cfg env k .MsgReady c = .error .Undefined := by
  have h1 : ProcessSingleProduceResponse cfg c (env.Clock k) (env.Process k)
      = .error .Undefined := by
    unfold ProcessSingleProduceResponse
    simp only [hq]
  rw [HandleSockReadReadyLoop.eq_def]
  simp only
  split
  · rename_i e hp
    rw [h1] at hp
    cases hp
    rfl
  · rename_i c1 hp
    rw [h1] at hp
    cases hp
  · rename_i c1 hp
    rw [h1] at hp
    cases hp

theorem HandleSockReadReady_exit (cfg : TConfig) (c : TConnector) (env : TReadEnv)
    (r : Bool × TConnector) (h : HandleSockReadReady cfg c env = .ok r) :
    r.2.OkShutdown = c.OkShutdown ∧ (r.1 = false → r.2.PauseButtonPushed = true) := by
  refine ⟨(HandleSockReadReady_send cfg c env r h).2.2, ?_⟩
  unfold HandleSockReadReady at h
  cases hr : env.Read with
  | OtherError => simp [hr] at h
  | LostTcpConnection =>
    simp only [hr, Except.ok.injEq] at h
    subst h
    exact fun _ => rfl
  | State rs =>
    simp only [hr] at h
    by_cases hpre : rs = .MsgReady → c.AckWaitQueue ≠ []
    · obtain ⟨r1, m, e1, -, -, -, e5⟩ :=
        HandleSockReadReadyLoop_spec cfg env c.AckWaitQueue.length c 0 rs rfl hpre
      rw [h] at e1
      cases e1
      exact e5
    · have h1 : rs = .MsgReady := by
        by_contra hn
        exact hpre (fun hm => absurd hm hn)
      have h2 : c.AckWaitQueue = [] := by
        by_contra hn
        exact hpre (fun _ => hn)
      rw [h1, HandleSockReadReadyLoop_empty cfg env 0 c h2] at h
      cases h

theorem HandleSockEvents_exit (cfg : TConfig) (c : TConnector) (sock_events : Nat)
    (env : TIterEnv) (trace : List THandler) (c1 : TConnector) :
    ((HandleSockEvents cfg c sock_events env trace).Step = .Continue c1 →
        c1.OkShutdown = c.OkShutdown) ∧
      ((HandleSockEvents cfg c sock_events env trace).Step = .Break c1 →
        c1.OkShutdown = c.OkShutdown ∧ c1.PauseButtonPushed = true) := by
  unfold HandleSockEvents
  have hw : ∀ r, (if sock_events &&& POLLOUT ≠ 0 then
        (HandleSockWriteReady cfg c env.Build env.Send, trace ++ [THandler.HandleSockWriteReady])
      else (Except.ok (true, c), trace)).1 = .ok r →
      r.2.OkShutdown = c.OkShutdown ∧ (r.1 = false → r.2.PauseButtonPushed = true) := by
    intro r hr
    split at hr
    · exact HandleSockWriteReady_exit cfg c _ _ r hr
    · cases hr
      exact ⟨rfl, fun hf => by cases hf⟩
  generalize (if sock_events &&& POLLOUT ≠ 0 then
        (HandleSockWriteReady cfg c env.Build env.Send, trace ++ [THandler.HandleSockWriteReady])
      else (Except.ok (true, c), trace)) = w at hw ⊢
  obtain ⟨w1, w2⟩ := w
  cases w1 with
  | error e => simp
  | ok r =>
    obtain ⟨b, c3⟩ := r
    obtain ⟨h3, h3p⟩ := hw (b, c3) rfl
    cases b with
    | false =>
      simp only
      constructor
      · intro h
        cases h
      · intro h
        simp only [TLoopStep.Break.injEq] at h
        subst h
        exact ⟨h3, h3p rfl⟩
    | true =>
      simp only
      split
      · cases hr : HandleSockReadReady cfg c3 env.Read with
        | error e => simp
        | ok r4 =>
          obtain ⟨b4, c4⟩ := r4
          obtain ⟨h4, h4p⟩ := HandleSockReadReady_exit cfg c3 env.Read (b4, c4) hr
          cases b4 with
          | false =>
            simp only
            constructor
            · intro h
              cases h
            · intro h
              simp only [TLoopStep.Break.injEq] at h
              subst h
              exact ⟨h4.trans h3, h4p rfl⟩
          | true =>
            simp only
            constructor
            · intro h
              simp only [TLoopStep.Continue.injEq] at h
              subst h
              exact h4.trans h3
            · intro h
              cases h
      · constructor
        · intro h
          simp only [TLoopStep.Continue.injEq] at h
          subst h
          exact h3
        · intro h
          cases h

theorem MainLoopIteration_exit (cfg : TConfig) (c : TConnector) (env : TIterEnv)
    (c1 : TConnector) :
    ((MainLoopIteration cfg c env).Step = .Continue c1 → c1.OkShutdown = c.OkShutdown) ∧
      ((MainLoopIteration cfg c env).Step = .Break c1 →
        (c1.OkShutdown = true ∧ CleanExitCondition cfg c env) ∨
          (c1.OkShutdown = c.OkShutdown ∧ c1.PauseButtonPushed = true)) := by
  obtain ⟨-, -, fp, -⟩ := PrepareForPoll_send cfg c env.StartTime
  have fo := (PrepareForPoll_frame cfg c env.StartTime).1
  unfold MainLoopIteration
  simp only
  cases hp : (PrepareForPoll cfg c env.StartTime).1 with
  | false =>
    simp only [Bool.not_false, if_true]
    constructor
    · intro h
      cases h
    · intro h
      simp only [TLoopStep.Break.injEq] at h
      subst h
      exact Or.inl ⟨rfl, Or.inl hp⟩
  | true =>
    simp only [Bool.not_true, Bool.false_eq_true, if_false]
    cases hpoll : env.Poll with
    | Error =>
      simp only
      constructor <;> (intro h; cases h)
    | Reported rs rr rp ri =>
      simp only
      have fq : (PollReturned (PrepareForPoll cfg c env.StartTime).2.2 rs rr rp ri).OkShutdown
          = c.OkShutdown := fp
      have fs : (PollReturned (PrepareForPoll cfg c env.StartTime).2.2 rs rr rp
          ri).OptInProgressShutdown = c.OptInProgressShutdown := fo
      by_cases hcount : PollCount (PollReturned (PrepareForPoll cfg c env.StartTime).2.2 rs rr rp
          ri).MainLoopPollArray = 0
      · rw [if_pos hcount]
        split
        · constructor
          · intro h
            cases h
          · intro h
            simp only [TLoopStep.Break.injEq] at h
            subst h
            exact Or.inr ⟨fq, rfl⟩
        · split
          · rename_i hdl
            constructor
            · intro h
              cases h
            · intro h
              simp only [TLoopStep.Break.injEq] at h
              subst h
              refine Or.inl ⟨rfl, Or.inr ⟨hp, rs, rr, rp, ri, ?_⟩⟩
              rw [fs] at hdl
              cases hs : c.OptInProgressShutdown with
              | none => simp [hs] at hdl
              | some s =>
                simp only [hs, decide_eq_true_eq] at hdl
                exact ⟨s, hpoll, hcount, rfl, hdl⟩
          · constructor
            · intro h
              simp only [TLoopStep.Continue.injEq] at h
              subst h
              exact ((CheckInputQueue_send _ _ _).2.2.1).trans fq
            · intro h
              cases h
      · rw [if_neg hcount]
        split
        · cases hr : HandleShutdownRequest cfg
              (PollReturned (PrepareForPoll cfg c env.StartTime).2.2 rs rr rp ri)
              env.HandlerClock with
          | error e =>
            simp only
            constructor <;> (intro h; cases h)
          | ok c3 =>
            simp only
            constructor
            · intro h
              simp only [TLoopStep.Continue.injEq] at h
              subst h
              exact ((HandleShutdownRequest_send cfg _ _ _ hr).2.2.1).trans fq
            · intro h
              cases h
        · split
          · constructor
            · intro h
              simp only [TLoopStep.Continue.injEq] at h
              subst h
              obtain ⟨-, -, -, -, -, f6, -⟩ := SetPauseInProgress_frame cfg
                (PollReturned (PrepareForPoll cfg c env.StartTime).2.2 rs rr rp ri)
                env.HandlerClock
              exact f6.trans fq
            · intro h
              cases h
          · split
            · obtain ⟨g1, g2⟩ := HandleSockEvents_exit cfg
                (CheckInputQueue (PollReturned (PrepareForPoll cfg c env.StartTime).2.2 rs rr rp
                  ri) (max env.StartTime env.FinishClock) true)
                (PollReturned (PrepareForPoll cfg c env.StartTime).2.2 rs rr rp
                  ri).MainLoopPollArray.SockIo.revents env [.CheckInputQueue] c1
              have fc := ((CheckInputQueue_send
                (PollReturned (PrepareForPoll cfg c env.StartTime).2.2 rs rr rp ri)
                (max env.StartTime env.FinishClock) true).2.2.1).trans fq
              exact ⟨fun h => (g1 h).trans fc,
                fun h => Or.inr ⟨(g2 h).1.trans fc, (g2 h).2⟩⟩
            · obtain ⟨g1, g2⟩ := HandleSockEvents_exit cfg
                (PollReturned (PrepareForPoll cfg c env.StartTime).2.2 rs rr rp ri)
                (PollReturned (PrepareForPoll cfg c env.StartTime).2.2 rs rr rp
                  ri).MainLoopPollArray.SockIo.revents env [] c1
              exact ⟨fun h => (g1 h).trans fq,
                fun h => Or.inr ⟨(g2 h).1.trans fq, (g2 h).2⟩⟩

theorem DoRunLoop_exit (cfg : TConfig) (envs : List TIterEnv) :
    ∀ (c c1 : TConnector), c.OkShutdown = false → DoRunLoop cfg envs c = .Returned c1 →
      (c1.OkShutdown = false → c1.PauseButtonPushed = true) ∧
      (c1.OkShutdown = true →
        ∃ c0 env, env ∈ envs ∧ c0.OkShutdown = false ∧
          (MainLoopIteration cfg c0 env).Step = .Break c1 ∧ CleanExitCondition cfg c0 env) := by
  induction envs with
  | nil =>
    intro c c1 _ h
    cases h
  | cons env envs ih =>
    intro c c1 hok h
    simp only [DoRunLoop] at h
    cases hs : (MainLoopIteration cfg c env).Step with
    | Throw e => simp [hs] at h
    | Continue c2 =>
      simp only [hs] at h
      have hok2 : c2.OkShutdown = false := ((MainLoopIteration_exit cfg c env c2).1 hs).trans hok
      obtain ⟨i1, i2⟩ := ih c2 c1 hok2 h
      refine ⟨i1, fun ht => ?_⟩
      obtain ⟨c0, e0, hmem, h0, hstep, hclean⟩ := i2 ht
      exact ⟨c0, e0, List.mem_cons_of_mem _ hmem, h0, hstep, hclean⟩
    | Break c2 =>
      simp only [hs, TRunResult.Returned.injEq] at h
      subst h
      rcases (MainLoopIteration_exit cfg c env c2).2 hs with ⟨ht, hclean⟩ | ⟨hsame, hpush⟩
      · refine ⟨fun hf => ?_, fun _ => ⟨c, env, List.mem_cons_self _ _, hok, hs, hclean⟩⟩
        rw [ht] at hf
        cases hf
      · refine ⟨fun _ => hpush, fun ht => ?_⟩
        rw [hsame, hok] at ht
        cases ht

/-- C13: when `DoRun`, started with the pause button not pushed, returns with
`OkShutdown` false, the pause button has been pushed: by the failed connect, by
the socket timeout of the loop, or by the handler that returned `false`
(connection lost on send or read, invalid response size, connection closed by
the broker, bad produce response, `PauseAndFinishNow`, unsolicited response).
When it returns with `OkShutdown` true, its last iteration left the loop
because `PrepareForPoll` returned `false` or because `poll` timed out at or
after the shutdown deadline. -/
theorem DoRun_error_exit_pushes_pause (cfg : TConfig) (c : TConnector) (fd : Option Nat)
    (envs : List TIterEnv) (c1 : TConnector) (hpause : c.PauseButtonPushed = false)
    (hrun : DoRun cfg c fd envs = .Returned c1) :
    (c1.OkShutdown = false → c.PauseButtonPushed = false ∧ c1.PauseButtonPushed = true) ∧
      (c1.OkShutdown = true →
        ∃ c0 env, env ∈ envs ∧ c0.OkShutdown = false ∧
          (MainLoopIteration cfg c0 env).Step = .Break c1 ∧ CleanExitCondition cfg c0 env) := by
  unfold DoRun ConnectToBroker at hrun
  cases fd with
  | none =>
    simp only [Bool.not_false, if_true, TRunResult.Returned.injEq] at hrun
    subst hrun
    exact ⟨fun _ => ⟨hpause, rfl⟩, fun ht => by cases ht⟩
  | some n =>
    simp only [Bool.not_true, Bool.false_eq_true, if_false] at hrun
    obtain ⟨i1, i2⟩ := DoRunLoop_exit cfg envs _ c1 rfl hrun
    exact ⟨fun hf => ⟨hpause, i1 hf⟩, i2⟩

theorem DoRun_error_exit_pushes_pause_witness :
    ∃ c1, DoRun ExampleConfig BatchingConnector (some 6) [LostOnSend] = .Returned c1 ∧
      c1.OkShutdown = false ∧ BatchingConnector.PauseButtonPushed = false ∧
      c1.PauseButtonPushed = true := by
  have hrun : DoRun ExampleConfig BatchingConnector (some 6) [LostOnSend] = .Returned
      { BatchingConnector with
        PauseButtonPushed := true,
        RequestFactory := { Pending := [] },
        SendBuf := [9, 9, 9],
        CurrentRequest := some (7, [("a", [(0, { Contents := [1, 2] })])]),
        MainLoopPollArray := { PollArrayIdle with
          SockIo := { fd := 6, events := 4, revents := 4 },
          ShutdownRequest := { fd := 3, events := 1, revents := 0 },
          PauseButton := { fd := 4, events := 1, revents := 0 },
          InputQueue := { fd := 5, events := 1, revents := 0 } } } := by
    decide
  exact ⟨_, hrun, rfl,
    (DoRun_error_exit_pushes_pause ExampleConfig BatchingConnector (some 6) [LostOnSend] _ rfl
      hrun).1 rfl⟩

/-! ## C3: the decision table of PrepareForPoll -/

theorem SetPauseInProgress_Sock (cfg : TConfig) (c : TConnector) (clock : Nat) :
    (SetPauseInProgress cfg c clock).Sock = c.Sock := by
  unfold SetPauseInProgress SetFastShutdownState
  cases c.OptInProgressShutdown <;> rfl

theorem PrepareForPoll_Sock (cfg : TConfig) (c : TConnector) (now : Nat) :
    (PrepareForPoll cfg c now).2.2.Sock = c.Sock := by
  unfold PrepareForPoll
  cases h : PollNeeds c with
  | none => rfl
  | some n => obtain ⟨w, st, bt⟩ := n; rfl

theorem CheckInputQueue_Sock (c : TConnector) (now : Nat) (pop_sem : Bool) :
    (CheckInputQueue c now pop_sem).Sock = c.Sock := by
  unfold CheckInputQueue
  cases pop_sem <;> simp only [Bool.false_eq_true, if_false, if_true] <;> split <;> rfl

theorem HandleShutdownRequest_Sock (cfg : TConfig) (c c1 : TConnector) (clock : Nat)
    (h : HandleShutdownRequest cfg c clock = .ok c1) : c1.Sock = c.Sock := by
  unfold HandleShutdownRequest at h
  cases hd : c.Destroying with
  | true => simp [hd] at h
  | false =>
    cases hc : c.OptShutdownCmd with
    | none => simp [hd, hc] at h
    | some cmd =>
      obtain ⟨start⟩ := cmd
      simp only [hd, hc, Bool.false_eq_true, if_false, Except.ok.injEq] at h
      rw [← h]
      cases start with
      | none =>
        simp only [SetFastShutdownState]
        cases c.OptInProgressShutdown <;> rfl
      | some s => cases ho : c.OptInProgressShutdown <;> simp [ho]

theorem HandleSockWriteReady_Sock (cfg : TConfig) (c : TConnector) (built : TBuildResult)
    (sent : TSendResult) (r : Bool × TConnector)
    (h : HandleSockWriteReady cfg c built sent = .ok r) : r.2.Sock = c.Sock := by
  have f : (StartOrContinueSend c built).1.Sock = c.Sock := by
    unfold StartOrContinueSend
    cases SendInProgress c <;> cases built.Request <;> simp
  rcases HandleSockWriteReady_cases cfg c built sent r h with
    ⟨-, rfl⟩ | ⟨-, -, rfl⟩ | ⟨-, n, -, -, rfl⟩ | ⟨-, n, request, -, -, -, rfl⟩ <;>
    exact f

theorem ProcessSingleProduceResponse_Sock (cfg : TConfig) (c : TConnector) (clock : Nat)
    (p : TProcessorOutcome) (r : Bool × TConnector)
    (h : ProcessSingleProduceResponse cfg c clock p = .ok r) : r.2.Sock = c.Sock := by
  obtain ⟨request, hq⟩ := ProcessSingleProduceResponse_queue cfg c clock p r h
  unfold ProcessSingleProduceResponse at h
  simp only [hq] at h
  have f := SetPauseInProgress_Sock cfg { c with AckWaitQueue := r.2.AckWaitQueue } clock
  cases hp : p.Action with
  | none =>
    simp only [hp, Except.ok.injEq] at h
    rw [← h]
    simp
  | some a =>
    cases a with
    | KeepRunning =>
      simp only [hp, Except.ok.injEq] at h
      rw [← h]
      simp
    | PauseAndDeferFinish =>
      simp only [hp, Except.ok.injEq] at h
      rw [← h]
      simpa using f
    | PauseAndFinishNow =>
      simp only [hp, Except.ok.injEq] at h
      rw [← h]
      simp

theorem HandleSockReadReady_Sock (cfg : TConfig) (c : TConnector) (env : TReadEnv)
    (r : Bool × TConnector) (h : HandleSockReadReady cfg c env = .ok r) : r.2.Sock = c.Sock :=
  HandleSockReadReady_rel cfg (fun a b => b.Sock = a.Sock) (fun _ => rfl)
    (fun _ _ _ h1 h2 => h2.trans h1)
    (fun a clock p r h => ProcessSingleProduceResponse_Sock cfg a clock p r h)
    (fun _ => rfl) c env r h

theorem ApplyOp_Sock (cfg : TConfig) (c c1 : TConnector) (op : TOp)
    (h : ApplyOp cfg c op = .ok c1) (hs : c.Sock.isSome = true) : c1.Sock.isSome = true := by
  cases op with
  | StartSlowShutdown s => cases h; exact hs
  | StartFastShutdown => cases h; exact hs
  | WaitForShutdownAck => cases h; exact hs
  | Enqueue e m => cases h; exact hs
  | ConnectToBroker fd =>
    cases h
    unfold ConnectToBroker
    cases fd with
    | none => exact hs
    | some n => rfl
  | PrepareForPoll now =>
    cases h
    rw [PrepareForPoll_Sock]
    exact hs
  | HandleShutdownRequest clock =>
    rw [HandleShutdownRequest_Sock cfg c c1 clock h]
    exact hs
  | HandlePauseDetected clock =>
    cases h
    unfold HandlePauseDetected
    rw [SetPauseInProgress_Sock]
    exact hs
  | CheckInputQueue now pop_sem =>
    cases h
    rw [CheckInputQueue_Sock]
    exact hs
  | HandleSockWriteReady built sent =>
    simp only [ApplyOp] at h
    cases hr : HandleSockWriteReady cfg c built sent with
    | error e => simp [hr, Except.map] at h
    | ok r =>
      simp only [hr, Except.map, Except.ok.injEq] at h
      subst h
      rw [HandleSockWriteReady_Sock cfg c built sent r hr]
      exact hs
  | HandleSockReadReady env =>
    simp only [ApplyOp] at h
    cases hr : HandleSockReadReady cfg c env with
    | error e => simp [hr, Except.map] at h
    | ok r =>
      simp only [hr, Except.map, Except.ok.injEq] at h
      subst h
      rw [HandleSockReadReady_Sock cfg c env r hr]
      exact hs
  | ProcessSingleProduceResponse clock p =>
    simp only [ApplyOp] at h
    cases hr : ProcessSingleProduceResponse cfg c clock p with
    | error e => simp [hr, Except.map] at h
    | ok r =>
      simp only [hr, Except.map, Except.ok.injEq] at h
      subst h
      rw [ProcessSingleProduceResponse_Sock cfg c clock p r hr]
      exact hs
  | PollReturned rs rr rp ri => cases h; exact hs
  | CleanExit => cases h; exact hs
  | SocketTimeoutExit => cases h; exact hs
  | Destroy => cases h; exact hs

theorem MainLoopIteration_Sock (cfg : TConfig) (c : TConnector) (env : TIterEnv)
    (c1 : TConnector) (hs : c.Sock.isSome = true)
    (h : (MainLoopIteration cfg c env).Step = .Continue c1 ∨
      (MainLoopIteration cfg c env).Step = .Break c1) : c1.Sock.isSome = true :=
  MainLoopIteration_invariant cfg c env (fun x => x.Sock.isSome = true)
    (fun a b op _ ha hab => ApplyOp_Sock cfg a b op hab ha) c1 hs h

theorem PrepareForPoll_fd (cfg : TConfig) (c : TConnector) (now : Nat)
    (h : (PrepareForPoll cfg c now).1 = true) :
    (PrepareForPoll cfg c now).2.2.MainLoopPollArray.SockIo.fd =
      if (PrepareForPoll cfg c now).2.2.MainLoopPollArray.SockIo.events ≠ 0 then IntOfFd c.Sock
      else -1 := by
  rw [PrepareForPoll_fst] at h
  cases hn : PollNeeds c with
  | none => simp [hn] at h
  | some n =>
    obtain ⟨w, st, bt⟩ := n
    unfold PrepareForPoll
    simp only [hn]

theorem Watch_of_fd (a : TMainLoopPollArray) (s : Option Nat) (hs : s.isSome = true)
    (hfd : a.SockIo.fd = if a.SockIo.events ≠ 0 then IntOfFd s else -1) :
    WatchSockWrite a = decide (a.SockIo.events &&& POLLOUT ≠ 0) ∧
      WatchSockRead a = decide (a.SockIo.events &&& POLLIN ≠ 0) := by
  obtain ⟨n, hn⟩ := Option.isSome_iff_exists.mp hs
  unfold WatchSockWrite WatchSockRead
  by_cases h0 : a.SockIo.events = 0
  · simp [h0]
  · have hpos : (0 : Int) ≤ a.SockIo.fd := by
      rw [hfd, if_pos h0, hn]
      exact Int.ofNat_nonneg n
    simp [hpos]

/-- C3: whenever `PrepareForPoll` returns `true` with the socket open, as it is
in the loop of `DoRun`, the socket is watched (its entry holds the descriptor of
the socket and requests the event) for writing iff a send is in progress, or no
fast shutdown is in progress and the request factory is not empty; it is watched
for reading iff `AckWaitQueue` is not empty; the notification descriptor of the
input queue is watched iff no shutdown is in progress; so during a fast shutdown
with no send in progress the socket is not watched for writing and `POLLOUT` is
not requested.  An iteration of the loop that continues leaves the socket open. -/
theorem PrepareForPoll_decision_table (cfg : TConfig) (c : TConnector) (now : Nat)
    (h : (PrepareForPoll cfg c now).1 = true) (hs : c.Sock.isSome = true) :
    (WatchSockWrite (PrepareForPoll cfg c now).2.2.MainLoopPollArray = true ↔
        (SendInProgress c = true ∨
          (FastShutdownInProgress c = false ∧ c.RequestFactory.IsEmpty = false))) ∧
      (WatchSockRead (PrepareForPoll cfg c now).2.2.MainLoopPollArray = true ↔
        c.AckWaitQueue ≠ []) ∧
      (WatchInput (PrepareForPoll cfg c now).2.2.MainLoopPollArray = true ↔
        c.OptInProgressShutdown = none) ∧
      (FastShutdownInProgress c = true → SendInProgress c = false →
        WatchSockWrite (PrepareForPoll cfg c now).2.2.MainLoopPollArray = false ∧
          (PrepareForPoll cfg c now).2.2.MainLoopPollArray.SockIo.events &&& POLLOUT = 0) ∧
      ((WatchSockWrite (PrepareForPoll cfg c now).2.2.MainLoopPollArray = true ∨
          WatchSockRead (PrepareForPoll cfg c now).2.2.MainLoopPollArray = true) →
        (PrepareForPoll cfg c now).2.2.MainLoopPollArray.SockIo.fd = IntOfFd c.Sock ∧
          0 ≤ (PrepareForPoll cfg c now).2.2.MainLoopPollArray.SockIo.fd) ∧
      (∀ env c1, (MainLoopIteration cfg c env).Step = .Continue c1 →
        c1.Sock.isSome = true) := by
  have hfd := PrepareForPoll_fd cfg c now h
  obtain ⟨hW, hR⟩ := Watch_of_fd (PrepareForPoll cfg c now).2.2.MainLoopPollArray c.Sock hs hfd
  rw [PrepareForPoll_fst] at h
  cases hn : PollNeeds c with
  | none => simp [hn] at h
  | some n =>
    obtain ⟨w, st, bt⟩ := n
    obtain ⟨e1, e2, e3⟩ := PrepareForPoll_events cfg c now w st bt hn
    obtain ⟨hw, -, -⟩ := PollNeeds_eq_some c w st bt hn
    have e1b : ((PrepareForPoll cfg c now).2.2.MainLoopPollArray.SockIo.events &&& POLLOUT = 0)
        ↔ w = false := by
      rw [← e1]
      simp
    rw [e1] at hW
    rw [e2] at hR
    rw [hW, hR, e3, e1b, hw]
    unfold TableWatchWrite
    refine ⟨?_, ?_, ?_, ?_, ?_, ?_⟩
    · cases SendInProgress c <;> cases FastShutdownInProgress c <;>
        cases c.RequestFactory.IsEmpty <;> simp
    · cases c.AckWaitQueue <;> simp
    · cases c.OptInProgressShutdown <;> simp
    · intro hf hs
      simp [hf, hs]
    · intro hwr
      have hev : (PrepareForPoll cfg c now).2.2.MainLoopPollArray.SockIo.events ≠ 0 := by
        intro h0
        rw [h0] at e1 e2
        have e1f : w = false := by
          rw [← e1]
          decide
        have e2f : (!c.AckWaitQueue.isEmpty) = false := by
          rw [← e2]
          decide
        rcases hwr with h1 | h1
        · have h2 : TableWatchWrite c = true := h1
          rw [← hw, e1f] at h2
          cases h2
        · rw [e2f] at h1
          cases h1
      rw [if_pos hev] at hfd
      refine ⟨hfd, ?_⟩
      rw [hfd]
      obtain ⟨m, hm⟩ := Option.isSome_iff_exists.mp hs
      rw [hm]
      exact Int.ofNat_nonneg m
    · intro env c1 hstep
      exact MainLoopIteration_Sock cfg c env c1 hs (Or.inl hstep)

theorem PrepareForPoll_decision_table_witness :
    (PrepareForPoll ExampleConfig StoppedConnector 50).1 = true ∧
    StoppedConnector.Sock.isSome = true ∧
    WatchSockWrite (PrepareForPoll ExampleConfig StoppedConnector 50).2.2.MainLoopPollArray
      = true ∧
    (PrepareForPoll ExampleConfig StoppedConnector 50).2.2.MainLoopPollArray.SockIo.fd = 6 :=
  ⟨by decide, by decide,
   (PrepareForPoll_decision_table ExampleConfig StoppedConnector 50 (by decide)
      (by decide)).1.mpr (Or.inl (by decide)),
   by decide⟩

end Dory
